import Mathlib

/-!
# Shallow embedding of the LexLSI active-set outer loop (`src/include/lexlsi.h`)

This file embeds the `LexLS::internal::LexLSI` class of `lexlsi.h` in Lean.
The repository source provides only `lexlsi.h`; the collaborating classes
(`Objective` from `objective.h`, `LexLSE` from `lexlse.h`, `CyclingHandler`
from `cycling.h`, and the utility `isEqual`) are not part of the sources, so
they are modelled from the specification (`spec.md` sections 4.1, 4.2, 4.4)
as documented on each definition.  The numerical engines inside `LexLSE`
(factorize/solve, `ObjectiveSensitivity`) and the per-objective blocking
constraint test are pure numerical routines living outside the sources;
they appear here as explicit oracle parameters threaded through the outer
loop, whose control flow is translated line by line from `lexlsi.h`.

Scalars (`RealScalar`, i.e. `double` in the source) are modelled as `ℚ`.
-/

/- Mathlib seals the `Rat` arithmetic operations as irreducible, which
prevents `decide` and `rfl` from evaluating the model on concrete rational
inputs; re-open them for definitional reduction (the kernel reduces them
regardless of the reducibility attribute). -/
set_option allowUnsafeReducibility true in
attribute [semireducible] Rat.add Rat.sub Rat.neg Rat.mul Rat.div Rat.inv Rat.blt

namespace LexLS

/-- `ObjectiveType` enum of the source. -/
inductive ObjectiveType where
  | GENERAL_OBJECTIVE
  | SIMPLE_BOUNDS_OBJECTIVE
deriving DecidableEq, Repr

/-- `ConstraintActivationType` enum of the source. -/
inductive ConstraintActivationType where
  | CTR_INACTIVE
  | CTR_ACTIVE_LB
  | CTR_ACTIVE_UB
  | CTR_ACTIVE_EQ
deriving DecidableEq, Repr

/-- `OperationType` enum of the source. -/
inductive OperationType where
  | OPERATION_UNDEFINED
  | OPERATION_ADD
  | OPERATION_REMOVE
deriving DecidableEq, Repr

/-- `TerminationStatus` enum of the source. -/
inductive TerminationStatus where
  | TERMINATION_STATUS_UNKNOWN
  | PROBLEM_SOLVED
  | PROBLEM_SOLVED_CYCLING_HANDLING
  | MAX_NUMBER_OF_FACTORIZATIONS_EXCEDED
deriving DecidableEq, Repr

open ObjectiveType ConstraintActivationType OperationType TerminationStatus

/-- `RealScalar` (a C++ `double`) is modelled as `ℚ`. -/
abbrev Scalar := ℚ

/-- The single error channel of the source (`throw Exception(msg)`).
All structural input errors are `InvalidInput` per spec section 7. -/
inductive LexLSError where
  | invalidInput (msg : String)
deriving DecidableEq, Repr

/-- Modelled from the spec: the utility `isEqual` (its header is not in
`src/`); spec section 3 and 4.1: bounds are treated as equal when
`|l - u| < tol`, the numerical equality tolerance `τ_eq`. -/
def isEqual (tol lo hi : Scalar) : Bool :=
  |lo - hi| < tol

/-- Modelled from the spec: one priority level (`Objective` of the missing
`objective.h`), spec section 4.1.  Row data, constraint activation types,
the ordered working set (`activeList`, insertion order), residual `v` and
step `dv`. -/
structure Objective where
  objType : ObjectiveType
  dim : Nat
  nVar : Nat
  /-- rows of `A` (general objectives). -/
  A : List (List Scalar)
  /-- variable indices (simple-bounds objectives). -/
  varIndex : List Nat
  /-- lower bounds `l`. -/
  l : List Scalar
  /-- upper bounds `u`. -/
  u : List Scalar
  /-- activation state of every row. -/
  ctrType : List ConstraintActivationType
  /-- ordered working set: row indices in insertion order. -/
  activeList : List Nat
  /-- residual `v`. -/
  v : List Scalar
  /-- step `dv`. -/
  dv : List Scalar
  regFactor : Scalar
deriving DecidableEq, Repr

namespace Objective

/-- Modelled from the spec: a freshly resized objective (all rows inactive,
zero residuals), spec section 3 lifecycles. -/
def fresh (dim nVar : Nat) (t : ObjectiveType) : Objective where
  objType := t
  dim := dim
  nVar := nVar
  A := []
  varIndex := []
  l := []
  u := []
  ctrType := List.replicate dim CTR_INACTIVE
  activeList := []
  v := List.replicate dim 0
  dv := List.replicate dim 0
  regFactor := 0

/-- `Objective::getActiveCtrCount`. -/
def getActiveCtrCount (o : Objective) : Nat :=
  o.activeList.length

/-- Modelled from the spec: `Objective::isActive`, true when the row's
activation type is not `CTR_INACTIVE`. -/
def isActive (o : Objective) (i : Nat) : Bool :=
  o.ctrType.getD i CTR_INACTIVE ≠ CTR_INACTIVE

/-- Modelled from the spec: `Objective::activate(row, type)` maintains
`ctrType` and appends the row to the working set (insertion order,
spec section 3). -/
def activate (o : Objective) (i : Nat) (t : ConstraintActivationType) : Objective :=
  { o with ctrType := o.ctrType.set i t, activeList := o.activeList ++ [i] }

/-- Modelled from the spec: `Objective::deactivate(k)` removes entry `k` of
the working set (later entries shift up, spec section 3) and marks the row
inactive. -/
def deactivate (o : Objective) (k : Nat) : Objective :=
  match o.activeList.get? k with
  | some row =>
      { o with ctrType := o.ctrType.set row CTR_INACTIVE,
               activeList := o.activeList.eraseIdx k }
  | none => o

/-- `Objective::getActiveCtrIndex(k)`: row index of working-set entry `k`. -/
def getActiveCtrIndex (o : Objective) (k : Nat) : Nat :=
  o.activeList.getD k 0

/-- `Objective::getActiveCtrType(k)`: activation type of working-set entry `k`. -/
def getActiveCtrType (o : Objective) (k : Nat) : ConstraintActivationType :=
  o.ctrType.getD (o.activeList.getD k 0) CTR_INACTIVE

/-- Modelled from the spec: the active target `c` of a row: the lower bound
for `CTR_ACTIVE_LB` / `CTR_ACTIVE_EQ`, the upper bound for `CTR_ACTIVE_UB`
(spec section 3). -/
def ctarget (o : Objective) (i : Nat) : Scalar :=
  match o.ctrType.getD i CTR_INACTIVE with
  | CTR_ACTIVE_UB => o.u.getD i 0
  | _ => o.l.getD i 0

/-- dot product of two coefficient lists. -/
def dot (a b : List Scalar) : Scalar :=
  (List.zipWith (· * ·) a b).sum

/-- Modelled from the spec: value `aᵢᵀ x` of row `i` at the point `x`
(for a simple-bounds objective, `x[kᵢ]`), spec section 3. -/
def rowValue (o : Objective) (i : Nat) (x : List Scalar) : Scalar :=
  match o.objType with
  | GENERAL_OBJECTIVE => dot (o.A.getD i []) x
  | SIMPLE_BOUNDS_OBJECTIVE => x.getD (o.varIndex.getD i 0) 0

/-- Modelled from the spec: `Objective::phase1(x)`: `v = A·x − c_active`
on active rows, `0` on inactive rows (spec section 4.1). -/
def phase1 (o : Objective) (x : List Scalar) : Objective :=
  { o with v := (List.range o.dim).map fun i =>
      if o.isActive i then o.rowValue i x - o.ctarget i else 0 }

/-- Modelled from the spec: `Objective::formStep(dx)`: `dv = A·dx` on
active rows and `dv = −A·dx` on inactive rows (spec section 4.1 sign
convention). -/
def formStep (o : Objective) (dx : List Scalar) : Objective :=
  { o with dv := (List.range o.dim).map fun i =>
      if o.isActive i then o.rowValue i dx else -(o.rowValue i dx) }

/-- Modelled from the spec: `Objective::step(α)`: `v ← v + α·dv`. -/
def step (o : Objective) (alpha : Scalar) : Objective :=
  { o with v := List.zipWith (fun a b => a + alpha * b) o.v o.dv }

/-- Modelled from the spec: `Objective::set_v0`. -/
def set_v0 (o : Objective) (w : List Scalar) : Objective :=
  { o with v := w }

/-- Modelled from the spec: `Objective::setData` for a general objective:
store `A` (first `nVar` columns), `l` (column `nVar`), `u` (column
`nVar+1`). -/
def setDataGeneral (o : Objective) (data : List (List Scalar)) : Objective :=
  { o with A := data.map (fun r => r.take o.nVar),
           l := data.map (fun r => r.getD o.nVar 0),
           u := data.map (fun r => r.getD (o.nVar + 1) 0) }

/-- Modelled from the spec: `Objective::setData` for a simple-bounds
objective: store `varIndex`, `l` (column `0`), `u` (column `1`). -/
def setDataSimple (o : Objective) (vi : List Nat) (data : List (List Scalar)) : Objective :=
  { o with varIndex := vi,
           l := data.map (fun r => r.getD 0 0),
           u := data.map (fun r => r.getD 1 0) }

/-- Modelled from the spec: the coefficient row fed to LexLSE for row `i`:
the matrix row for a general objective, the unit vector `e_{kᵢ}` for
simple bounds (spec section 3). -/
def lexlseRow (o : Objective) (i : Nat) : List Scalar :=
  match o.objType with
  | GENERAL_OBJECTIVE => o.A.getD i []
  | SIMPLE_BOUNDS_OBJECTIVE =>
      (List.range o.nVar).map fun j => if j = o.varIndex.getD i 0 then 1 else 0

/-- Modelled from the spec: `Objective::formLexLSE` appends each active
row with its active bound as right-hand side (spec section 4.1). -/
def assembledRows (o : Objective) : List (List Scalar × Scalar) :=
  o.activeList.map fun row => (o.lexlseRow row, o.ctarget row)

end Objective

/-- Modelled from the spec: the data held by the `LexLSE` instance (its
header is not in `src/`): the stacked equality systems assembled by
`formLexLSE` — fixed variables from a top simple-bounds objective, one
list of `(row, rhs)` pairs per LexLSE objective — and the solution vector
produced by `factorize` + `solve` (spec section 4.2). -/
structure LexLSEModel where
  fixedVars : List (Nat × Scalar)
  objs : List (List (List Scalar × Scalar))
  xsol : List Scalar
deriving DecidableEq, Repr

/-- Modelled from the spec: the identifier used by the cycling handler,
`ConstraintIdentifier = (objIdx, ctrIdx, type)` (spec section 4.4). -/
structure ConstraintIdentifier where
  obj : Nat
  ctr : Nat
  typ : ConstraintActivationType
deriving DecidableEq, Repr

/-- Modelled from the spec: state of the `CyclingHandler` (its header is
not in `src/`): a history of `(operation, identifier)` pairs and a
repetition counter (spec section 4.4). -/
structure CyclingState where
  counter : Nat
  history : List (OperationType × ConstraintIdentifier)
deriving DecidableEq, Repr

/-- `ParametersLexLSI` fields used by the outer loop (the parameters header
is not in `src/`; the fields and their roles are those of spec section 6).
`tol_eq` is the numerical equality tolerance `τ_eq` used by `isEqual`
(spec section 3). -/
structure Parameters where
  tol_linear_dependence : Scalar
  tol_feasibility : Scalar
  tol_wrong_sign_lambda : Scalar
  tol_correct_sign_lambda : Scalar
  tol_eq : Scalar
  max_number_of_factorizations : Nat
  cycling_handling_enabled : Bool
  cycling_max_counter : Nat
  cycling_relax_step : Scalar
deriving DecidableEq, Repr

/-- The state of a `LexLSI` instance: the scalar fields, vectors, the
objectives, the owned `LexLSE` data and the cycling handler, exactly the
member variables of `class LexLSI` in `lexlsi.h`. -/
structure LexLSIState where
  nVar : Nat
  nObj : Nat
  nObjOffset : Nat
  parameters : Parameters
  nIterations : Nat
  nActivations : Nat
  nDeactivations : Nat
  nFactorizations : Nat
  x0_is_specified : Bool
  step_length : Scalar
  x : List Scalar
  dx : List Scalar
  status : TerminationStatus
  lexlse : LexLSEModel
  objectives : List Objective
  cycling : CyclingState
deriving DecidableEq, Repr

/-- The numerical routines that live outside `src/` (inside `lexlse.h` and
`objective.h`), abstracted as explicit functions:
* `solution`: `lexlse.factorize(); lexlse.solve(); lexlse.get_x()` — the
  lexicographic solution of the assembled system (spec section 4.2);
* `sensitivity`: `lexlse.ObjectiveSensitivity(level, ctr, objInt, tolW, tolC)`
  — `none` when no descent direction exists at the level, otherwise the
  objective index (`-1` for a fixed-variable violator) and the in-level
  active-row index to remove (spec section 4.2);
* `blocking`: `Objective::checkBlockingConstraints(ctr, type, alpha, tol)`
  — given one objective and the incoming step length, `none` when the
  objective does not tighten the step, otherwise the blocking row, the
  bound hit and the tightened step length (spec section 4.1). -/
structure Oracles where
  solution : LexLSEModel → List Scalar
  sensitivity : LexLSEModel → Nat → Scalar → Scalar → Option (Int × Nat)
  blocking : Objective → Scalar → Scalar → Option (Nat × ConstraintActivationType × Scalar)

namespace LexLSIState

/-- A default objective used for out-of-range list access. -/
def dummyObj : Objective := Objective.fresh 0 0 GENERAL_OBJECTIVE

/-- Read objective `i` (`objectives[ObjIndex]`). -/
def obj (s : LexLSIState) (i : Nat) : Objective :=
  s.objectives.getD i dummyObj

/-- Replace objective `i` by `f` applied to it. -/
def updObj (s : LexLSIState) (i : Nat) (f : Objective → Objective) : LexLSIState :=
  { s with objectives := s.objectives.set i (f (s.obj i)) }

/-- `LexLSI::getActiveCtrCount`: total number of active constraints over
all objectives. -/
def getActiveCtrCount (s : LexLSIState) : Nat :=
  (s.objectives.map Objective.getActiveCtrCount).sum

/-- `LexLSI::activate(ObjIndex, CtrIndex, type, CountIteration)`:
delegates to the objective and increments `nActivations` when counting.
(The source throws when `ObjIndex >= nObj`; all call sites of the outer
loop pass an in-range index.) -/
def activate (s : LexLSIState) (oi ci : Nat) (t : ConstraintActivationType)
    (countIteration : Bool) : LexLSIState :=
  let s := s.updObj oi (fun o => o.activate ci t)
  if countIteration then { s with nActivations := s.nActivations + 1 } else s

/-- `LexLSI::deactivate(ObjIndex, CtrIndexActive)`: delegates to the
objective and increments `nDeactivations`. -/
def deactivate (s : LexLSIState) (oi k : Nat) : LexLSIState :=
  let s := s.updObj oi (fun o => o.deactivate k)
  { s with nDeactivations := s.nDeactivations + 1 }

/-- `LexLSI::api_activate(ObjIndex, CtrIndex, type)`: when the constraint
is not yet active, a `CTR_ACTIVE_LB` / `CTR_ACTIVE_UB` request is applied
without counting (`CountIteration = false`); any other type only prints a
warning.  No error is ever raised (the second component is the error
channel and is always `none`, mirroring the absence of any `throw` in
this function for an in-range objective index). -/
def api_activate (s : LexLSIState) (oi ci : Nat) (t : ConstraintActivationType) :
    LexLSIState × Option LexLSError :=
  if ¬ (s.obj oi).isActive ci then
    if t = CTR_ACTIVE_LB ∨ t = CTR_ACTIVE_UB then
      (s.activate oi ci t false, none)
    else
      (s, none) -- a warning is printed; the state is untouched
  else
    (s, none)

end LexLSIState

/-- A data row `(bl, bu)` that triggers the `setData` exception: the
bounds are not equal within tolerance and the lower bound exceeds the
upper one. -/
def badBounds (tol : Scalar) (p : Scalar × Scalar) : Prop :=
  isEqual tol p.1 p.2 = false ∧ p.1 > p.2

instance (tol : Scalar) (p : Scalar × Scalar) : Decidable (badBounds tol p) := by
  unfold badBounds; infer_instance

/-- The `(bl, bu)` pair read by the general-objective `setData` from row
`ctr` of `data` (`bl = data(ctr, nVar)`, `bu = data(ctr, nVar+1)`). -/
def boundsG (nVar : Nat) (data : List (List Scalar)) (ctr : Nat) : Scalar × Scalar :=
  ((data.getD ctr []).getD nVar 0, (data.getD ctr []).getD (nVar + 1) 0)

/-- The `(bl, bu)` pair read by the simple-bounds `setData` from row `ctr`
of `data` (`bl = data(ctr, 0)`, `bu = data(ctr, 1)`). -/
def boundsS (data : List (List Scalar)) (ctr : Nat) : Scalar × Scalar :=
  ((data.getD ctr []).getD 0 0, (data.getD ctr []).getD 1 0)

/-- The row-scanning loop of `LexLSI::setData`: for each constraint row in
order, bounds equal within tolerance auto-activate the row as
`CTR_ACTIVE_EQ` (without counting), a lower bound greater than the upper
bound (and not within tolerance) throws; the exception propagates with the
activations performed so far retained (the error is returned together with
the state at the moment of the throw).  `bnds ctr` yields the `(bl, bu)`
pair read from row `ctr` of the data. -/
def setDataScan (oi : Nat) (bnds : Nat → Scalar × Scalar) (msg : String) :
    Nat → Nat → LexLSIState → LexLSIState × Option LexLSError
  | 0, _, s => (s, none)
  | n + 1, ctr, s =>
      let bl := (bnds ctr).1
      let bu := (bnds ctr).2
      if isEqual s.parameters.tol_eq bl bu then
        setDataScan oi bnds msg n (ctr + 1) (s.activate oi ctr CTR_ACTIVE_EQ false)
      else if bl > bu then
        (s, some (.invalidInput msg))
      else
        setDataScan oi bnds msg n (ctr + 1) s

/-- Whether `VarIndex` contains repeated indices, checked as in the source
by the double loop over `k` and `j` with `j ≠ k`. -/
def hasDuplicateVarIndex (vi : List Nat) (dim : Nat) : Bool :=
  (List.range dim).any fun k =>
    (List.range dim).any fun j => (vi.getD k 0 == vi.getD j 0) && (j != k)

namespace LexLSIState

/-- `LexLSI::setData(ObjIndex, data)` for a general objective
(`data = [A | l | u]`, so `bl = data(ctr, nVar)`, `bu = data(ctr, nVar+1)`).
Validations in source order: objective index, objective type, row count;
then the bound scan; the data itself is stored only after the scan
succeeds. -/
def setDataG (s : LexLSIState) (oi : Nat) (data : List (List Scalar)) :
    LexLSIState × Option LexLSError :=
  if oi ≥ s.nObj then (s, some (.invalidInput "ObjIndex >= nObj"))
  else if (s.obj oi).objType ≠ GENERAL_OBJECTIVE then
    (s, some (.invalidInput "ObjType = GENERAL_OBJECTIVE is assumed"))
  else if (s.obj oi).dim ≠ data.length then
    (s, some (.invalidInput "Incorrect number of equations"))
  else
    match setDataScan oi (boundsG s.nVar data)
        "(general) Lower bound is greater than upper bound." (s.obj oi).dim 0 s with
    | (s1, some e) => (s1, some e)
    | (s1, none) => (s1.updObj oi (fun o => o.setDataGeneral data), none)

/-- `LexLSI::setData(ObjIndex, VarIndex, data)` for a simple-bounds
objective (`data = [l | u]`, so `bl = data(ctr, 0)`, `bu = data(ctr, 1)`).
Validations in source order: objective index, objective type, row count,
the bound scan (which activates equality rows as it goes), then the
duplicate-`VarIndex` check; the data is stored last. -/
def setDataS (s : LexLSIState) (oi : Nat) (vi : List Nat) (data : List (List Scalar)) :
    LexLSIState × Option LexLSError :=
  if oi ≥ s.nObj then (s, some (.invalidInput "ObjIndex >= nObj"))
  else if (s.obj oi).objType ≠ SIMPLE_BOUNDS_OBJECTIVE then
    (s, some (.invalidInput "ObjType = SIMPLE_BOUNDS_OBJECTIVE is assumed"))
  else if (s.obj oi).dim ≠ data.length then
    (s, some (.invalidInput "Incorrect number of equations"))
  else
    match setDataScan oi (boundsS data)
        "(simple) Lower bound is greater than upper bound." (s.obj oi).dim 0 s with
    | (s1, some e) => (s1, some e)
    | (s1, none) =>
        if hasDuplicateVarIndex vi (s1.obj oi).dim then
          (s1, some (.invalidInput "Elements of VarIndex are not unique."))
        else
          (s1.updObj oi (fun o => o.setDataSimple vi data), none)

/-- `LexLSI::set_x0`. -/
def set_x0 (s : LexLSIState) (x0 : List Scalar) : LexLSIState :=
  { s with x := x0, x0_is_specified := true }

/-- `LexLSI::formLexLSE`: assemble the active rows of every objective into
the LexLSE data; when the first objective is of simple-bounds type
(`nObjOffset = 1`) its active rows go to the fixed-variables slot, the
other objectives contribute one stacked system each. -/
def formLexLSE (s : LexLSIState) : LexLSIState :=
  let fixed :=
    if s.nObjOffset = 1 then
      (s.obj 0).activeList.map fun row =>
        ((s.obj 0).varIndex.getD row 0, (s.obj 0).ctarget row)
    else []
  let objs := (List.range (s.nObj - s.nObjOffset)).map fun L =>
    (s.obj (L + s.nObjOffset)).assembledRows
  { s with lexlse := { fixedVars := fixed, objs := objs, xsol := s.lexlse.xsol } }

/-- `lexlse.factorize(); lexlse.solve()`: the solution vector is produced
by the solution oracle from the assembled data. -/
def factorizeSolve (ors : Oracles) (s : LexLSIState) : LexLSIState :=
  { s with lexlse := { s.lexlse with xsol := ors.solution s.lexlse } }

/-- `LexLSI::phase1`: if any objective has an active constraint, assemble
LexLSE and (unless `x0` was supplied) factorize and solve, taking `x` from
LexLSE and counting one factorization; otherwise, with no `x0`, fill `x`
with the constant `0.01`.  Then every objective computes its residual from
`x`, and `dx` is set to zero (with the zero step distributed to the
objectives). -/
def phase1 (ors : Oracles) (s : LexLSIState) : LexLSIState :=
  let active_constraints_exist := s.objectives.any fun o => o.getActiveCtrCount != 0
  let s :=
    if active_constraints_exist then
      let s := s.formLexLSE
      if ¬ s.x0_is_specified then
        let s := s.factorizeSolve ors
        { s with x := s.lexlse.xsol, nFactorizations := s.nFactorizations + 1 }
      else s
    else
      if ¬ s.x0_is_specified then
        { s with x := List.replicate s.nVar (1 / 100) }
      else s
  let s := { s with objectives := s.objectives.map fun (o : Objective) => o.phase1 s.x }
  let s := { s with dx := List.replicate s.nVar 0 }
  { s with objectives := s.objectives.map fun (o : Objective) => o.formStep s.dx }

/-- `LexLSI::formStep`: `dx = lexlse.get_x() − x`, then every objective
forms its `dv` from `dx`. -/
def formStep (s : LexLSIState) : LexLSIState :=
  let dx := List.zipWith (fun a b => a - b) s.lexlse.xsol s.x
  { s with dx := dx, objectives := s.objectives.map fun o => o.formStep dx }

end LexLSIState

/-- The loop body of `LexLSI::checkBlockingConstraints`: `alpha` starts at
`1`; each objective in turn may tighten it and become the blocking
candidate (the source keeps the out-parameters of the last objective that
reported a tighter step). -/
def blockingScan (bo : Objective → Scalar → Scalar → Option (Nat × ConstraintActivationType × Scalar))
    (tol : Scalar) :
    List Objective → Nat → Option (Nat × Nat × ConstraintActivationType) → Scalar →
    Option (Nat × Nat × ConstraintActivationType) × Scalar
  | [], _, cand, alpha => (cand, alpha)
  | o :: rest, i, cand, alpha =>
      match bo o tol alpha with
      | some (c, t, a) => blockingScan bo tol rest (i + 1) (some (i, c, t)) a
      | none => blockingScan bo tol rest (i + 1) cand alpha

namespace LexLSIState

/-- `LexLSI::checkBlockingConstraints`: returns the blocking candidate
(objective, row, bound side) and the final `alpha`; the source reports
blocking constraints exactly when `alpha < 1`. -/
def checkBlockingAll (ors : Oracles) (s : LexLSIState) :
    Option (Nat × Nat × ConstraintActivationType) × Scalar :=
  blockingScan ors.blocking s.parameters.tol_feasibility s.objectives 0 none 1

end LexLSIState

/-- The level loop of `LexLSI::findActiveCtr2Remove`: query
`ObjectiveSensitivity` on the LexLSE levels in order and stop at the first
one with a descent direction. -/
def findFrom (ors : Oracles) (m : LexLSEModel) (tw tc : Scalar) :
    Nat → Nat → Option (Int × Nat)
  | 0, _ => none
  | n + 1, L =>
      match ors.sensitivity m L tw tc with
      | some r => some r
      | none => findFrom ors m tw tc n (L + 1)

namespace LexLSIState

/-- `LexLSI::findActiveCtr2Remove`: the first level with a descent
direction yields the candidate; the internal objective index (possibly
`-1` for a fixed-variable violator) is mapped to a LexLSI objective index
by adding `nObjOffset`. -/
def findActiveCtr2Remove (ors : Oracles) (s : LexLSIState) : Option (Nat × Nat) :=
  (findFrom ors s.lexlse s.parameters.tol_wrong_sign_lambda
      s.parameters.tol_correct_sign_lambda (s.nObj - s.nObjOffset) 0).map
    fun r => ((r.1 + (s.nObjOffset : Int)).toNat, r.2)

/-- Modelled from the spec: the relaxation step of the cycling handler —
widen the bounds of the oscillating constraint by `relax_step`
(spec section 4.4). -/
def relaxBounds (s : LexLSIState) (id : ConstraintIdentifier) (relax : Scalar) : LexLSIState :=
  s.updObj id.obj fun o =>
    { o with l := o.l.set id.ctr (o.l.getD id.ctr 0 - relax),
             u := o.u.set id.ctr (o.u.getD id.ctr 0 + relax) }

/-- Modelled from the spec: `CyclingHandler::update` (its header is not in
`src/`), spec section 4.4: the counter is incremented when the incoming
operation matches a previous opposite operation on the same constraint;
when the counter reaches `cycling_max_counter` the oscillating constraint's
bounds are relaxed and `PROBLEM_SOLVED_CYCLING_HANDLING` is signalled;
otherwise the solver continues (`TERMINATION_STATUS_UNKNOWN`). -/
def cyclingUpdate (s : LexLSIState) (op : OperationType) (id : ConstraintIdentifier) :
    TerminationStatus × LexLSIState :=
  let hit := s.cycling.history.any fun p => decide (p.2 = id ∧ p.1 ≠ op)
  let c := if hit then s.cycling.counter + 1 else s.cycling.counter
  let hist : CyclingState := { counter := c, history := (op, id) :: s.cycling.history }
  if c ≥ s.parameters.cycling_max_counter then
    (PROBLEM_SOLVED_CYCLING_HANDLING,
      { s.relaxBounds id s.parameters.cycling_relax_step with cycling := hist })
  else
    (TERMINATION_STATUS_UNKNOWN, { s with cycling := hist })

/-- First block of `LexLSI::verifyWorkingSet`: when `nIterations != 0`,
re-assemble LexLSE, factorize and solve, form the step and count the
factorization; when `nIterations == 0` the state is untouched and the
iteration is not "normal" exactly when `x0` was supplied. -/
def vwsFactorize (ors : Oracles) (s : LexLSIState) : Bool × LexLSIState :=
  if s.nIterations ≠ 0 then
    let s := s.formLexLSE
    let s := s.factorizeSolve ors
    let s := s.formStep
    (true, { s with nFactorizations := s.nFactorizations + 1 })
  else
    (!s.x0_is_specified, s)

/-- The `else` arm of the blocking test in `verifyWorkingSet`: in a
normal iteration either remove the candidate reported by
`findActiveCtr2Remove` or declare `PROBLEM_SOLVED`; in the skipped
iteration (`x0` supplied, iteration `0`) do nothing. -/
def vwsNoAdd (ors : Oracles) (normalIteration : Bool) (s : LexLSIState) :
    OperationType × ConstraintIdentifier × LexLSIState :=
  if normalIteration then
    match s.findActiveCtr2Remove ors with
    | some (oi, k) =>
        (OPERATION_REMOVE,
         ⟨oi, (s.obj oi).getActiveCtrIndex k, (s.obj oi).getActiveCtrType k⟩,
         s.deactivate oi k)
    | none =>
        (OPERATION_UNDEFINED, ⟨0, 0, CTR_INACTIVE⟩, { s with status := PROBLEM_SOLVED })
  else
    (OPERATION_UNDEFINED, ⟨0, 0, CTR_INACTIVE⟩, s)

/-- Second block of `LexLSI::verifyWorkingSet`: a blocking constraint
(`alpha < 1`) is added; otherwise, in a normal iteration, a removal
candidate is deactivated or, failing that, the status becomes
`PROBLEM_SOLVED`.  Returns the operation, the constraint identifier used
by the cycling handler, and the successor state. -/
def vwsDecide (ors : Oracles) (normalIteration : Bool)
    (cand : Option (Nat × Nat × ConstraintActivationType)) (alpha : Scalar)
    (s : LexLSIState) : OperationType × ConstraintIdentifier × LexLSIState :=
  match cand with
  | some (oi, ci, t) =>
      if alpha < 1 then
        (OPERATION_ADD, (⟨oi, ci, t⟩ : ConstraintIdentifier), s.activate oi ci t true)
      else vwsNoAdd ors normalIteration s
  | none => vwsNoAdd ors normalIteration s

/-- `step_length = alpha` when a constraint was added, `-1` (a debugging
marker) otherwise. -/
def vwsStepLength (operation : OperationType) (alpha : Scalar) (s : LexLSIState) :
    LexLSIState :=
  if operation = OPERATION_ADD then { s with step_length := alpha }
  else { s with step_length := -1 }

/-- When `alpha > 0`, take the step: `x += alpha*dx` and every objective
steps its residual. -/
def vwsStep (alpha : Scalar) (s : LexLSIState) : LexLSIState :=
  if alpha > 0 then
    { s with x := List.zipWith (fun a b => a + alpha * b) s.x s.dx,
             objectives := s.objectives.map fun o => o.step alpha }
  else s

/-- When cycling handling is enabled and an operation occurred, the
cycling handler's verdict overwrites the status. -/
def vwsCycling (operation : OperationType) (cid : ConstraintIdentifier) (s : LexLSIState) :
    LexLSIState :=
  if s.parameters.cycling_handling_enabled && decide (operation ≠ OPERATION_UNDEFINED) then
    { (s.cyclingUpdate operation cid).2 with status := (s.cyclingUpdate operation cid).1 }
  else s

/-- Last block of `LexLSI::verifyWorkingSet`: record `step_length`, take
the step `x += alpha*dx` when `alpha > 0`, consult the cycling handler
when enabled and an operation occurred, and advance `nIterations`. -/
def vwsTail (operation : OperationType) (cid : ConstraintIdentifier) (alpha : Scalar)
    (s : LexLSIState) : LexLSIState :=
  let s := vwsStepLength operation alpha s
  let s := vwsStep alpha s
  let s := vwsCycling operation cid s
  { s with nIterations := s.nIterations + 1 }

/-- `LexLSI::verifyWorkingSet`: one iteration of the active-set method,
translated clause by clause from the source.  Returns the operation
performed together with the successor state. -/
def verifyWorkingSet (ors : Oracles) (s : LexLSIState) : OperationType × LexLSIState :=
  let (normalIteration, s) := vwsFactorize ors s
  let (cand, alpha) := s.checkBlockingAll ors
  let (operation, cid, s) := vwsDecide ors normalIteration cand alpha s
  (operation, vwsTail operation cid alpha s)

end LexLSIState

/-- The `while (1)` loop of `LexLSI::solve`, with explicit fuel (the loop
terminates because every iteration after the first performs a
factorization; `solve` below supplies sufficient fuel and the development
proves the fuel is never exhausted). -/
def solveLoop (ors : Oracles) : Nat → LexLSIState → Option (TerminationStatus × LexLSIState)
  | 0, _ => none
  | fuel + 1, s =>
      let s1 := (s.verifyWorkingSet ors).2
      if s1.status = PROBLEM_SOLVED ∨ s1.status = PROBLEM_SOLVED_CYCLING_HANDLING then
        some (s1.status, s1)
      else if s1.nFactorizations ≥ s1.parameters.max_number_of_factorizations then
        some (MAX_NUMBER_OF_FACTORIZATIONS_EXCEDED,
              { s1 with status := MAX_NUMBER_OF_FACTORIZATIONS_EXCEDED })
      else solveLoop ors fuel s1

/-- `LexLSI::solve`: `phase1`, then iterate `verifyWorkingSet` until a
solved status or the factorization cap fires. -/
def solve (ors : Oracles) (s : LexLSIState) : Option (TerminationStatus × LexLSIState) :=
  let s1 := s.phase1 ors
  solveLoop ors (s1.parameters.max_number_of_factorizations + 2) s1

/-- The `LexLSI` constructor (`resize` followed by `initialize`): objective
storage allocated from the dimensions and types, all counters zeroed,
`x = dx = 0`, status `TERMINATION_STATUS_UNKNOWN`, `nObjOffset = 1`
exactly when the first objective is of simple-bounds type. -/
def mkLexLSI (nVar nObj : Nat) (dims : List Nat) (types : List ObjectiveType)
    (params : Parameters) : LexLSIState where
  nVar := nVar
  nObj := nObj
  nObjOffset := if types.getD 0 GENERAL_OBJECTIVE = SIMPLE_BOUNDS_OBJECTIVE then 1 else 0
  parameters := params
  nIterations := 0
  nActivations := 0
  nDeactivations := 0
  nFactorizations := 0
  x0_is_specified := false
  step_length := 0
  x := List.replicate nVar 0
  dx := List.replicate nVar 0
  status := TERMINATION_STATUS_UNKNOWN
  lexlse := { fixedVars := [], objs := [], xsol := [] }
  objectives := (List.range nObj).map fun i =>
    Objective.fresh (dims.getD i 0) nVar (types.getD i GENERAL_OBJECTIVE)
  cycling := { counter := 0, history := [] }

/-! ## Derived observations used in statements -/

namespace LexLSIState

/-- The `normalIteration` flag of an iteration started at `s`: false
exactly on iteration `0` with a user-supplied `x0`. -/
def iterNormal (s : LexLSIState) : Bool :=
  s.nIterations != 0 || !s.x0_is_specified

/-- The step length `alpha` produced by the blocking-constraint check of
the iteration started at `s` (evaluated, as in the source, after the
factorization block). -/
def iterAlpha (ors : Oracles) (s : LexLSIState) : Scalar :=
  (((vwsFactorize ors s).2).checkBlockingAll ors).2

/-- The removal candidate `findActiveCtr2Remove` would report in the
iteration started at `s`. -/
def iterRemoval (ors : Oracles) (s : LexLSIState) : Option (Nat × Nat) :=
  ((vwsFactorize ors s).2).findActiveCtr2Remove ors

end LexLSIState

/-- The terminal situation of one iteration: the blocking-constraint check
leaves `alpha = 1`, the iteration is normal (so `findActiveCtr2Remove` is
invoked), and it reports no removal candidate. -/
def solvedCond (ors : Oracles) (s : LexLSIState) : Prop :=
  s.iterAlpha ors = 1 ∧ s.iterNormal = true ∧ s.iterRemoval ors = none

/-- The `solve` loop continues past the iteration started at `s`: the
iteration ends with neither solved status and the factorization cap has
not been reached. -/
def loopContinues (ors : Oracles) (s : LexLSIState) : Prop :=
  let s1 := (s.verifyWorkingSet ors).2
  ¬ (s1.status = PROBLEM_SOLVED ∨ s1.status = PROBLEM_SOLVED_CYCLING_HANDLING) ∧
    s1.nFactorizations < s1.parameters.max_number_of_factorizations

/-- The state at the start of iteration `k` of the `solve` loop entered at
`s` (iterating `verifyWorkingSet`). -/
def runState (ors : Oracles) (s : LexLSIState) (k : Nat) : LexLSIState :=
  (fun t => (t.verifyWorkingSet ors).2)^[k] s

/-- Well-behavedness of a blocking oracle, as guaranteed by
`Objective::checkBlockingConstraints` (spec section 4.1): when an
objective tightens the step it returns a value in `[0, alpha)` strictly
below the incoming `alpha`. -/
def BlockingWB (bo : Objective → Scalar → Scalar → Option (Nat × ConstraintActivationType × Scalar)) :
    Prop :=
  ∀ o tol a c t a1, bo o tol a = some (c, t, a1) → 0 ≤ a1 ∧ a1 < a

/-- Well-behavedness of the removal candidate reported in the iteration
started at `s`, as guaranteed by `LexLSE::ObjectiveSensitivity`
(spec section 4.2): the mapped objective index is in range and the
working-set index refers to an existing active constraint. -/
def RemovalOK (ors : Oracles) (s : LexLSIState) : Prop :=
  ∀ oi k, s.iterRemoval ors = some (oi, k) →
    oi < s.nObj ∧ k < (s.obj oi).activeList.length

/-- The working sets of all objectives: for each objective its ordered
active list together with the per-row activation types. -/
def wsOf (s : LexLSIState) : List (List Nat × List ConstraintActivationType) :=
  s.objectives.map fun o => (o.activeList, o.ctrType)

/-- The per-objective ordered active lists. -/
def activeListsOf (s : LexLSIState) : List (List Nat) :=
  s.objectives.map fun o => o.activeList

/-- The termination status returned by `solve`. -/
def solveStatus (ors : Oracles) (s : LexLSIState) : Option TerminationStatus :=
  (solve ors s).map Prod.fst

/-- The state in which `solve` returns. -/
def solveFinal (ors : Oracles) (s : LexLSIState) : LexLSIState :=
  ((solve ors s).getD (TERMINATION_STATUS_UNKNOWN, s)).2

/-! ## Concrete instances used as witnesses and counterexamples -/

/-- A parameter block with the equality tolerance `τ_eq = 10⁻¹²` and a
factorization cap of `100`; cycling handling disabled. -/
def defaultParams : Parameters where
  tol_linear_dependence := 1 / 1000000000000
  tol_feasibility := 1 / 1000000000000
  tol_wrong_sign_lambda := 1 / 1000000000000
  tol_correct_sign_lambda := 1 / 100000000
  tol_eq := 1 / 1000000000000
  max_number_of_factorizations := 100
  cycling_handling_enabled := false
  cycling_max_counter := 50
  cycling_relax_step := 1 / 10000000

/-- Oracles whose blocking check never tightens the step and whose
sensitivity check never finds a descent direction; the LexLSE solution is
the zero vector of dimension one. -/
def noopOracles : Oracles where
  solution := fun _ => [0]
  sensitivity := fun _ _ _ _ => none
  blocking := fun _ _ _ => none

/-- Oracles whose sensitivity check always reports a removal candidate at
level `0`, working-set entry `0`; blocking never tightens. -/
def sensOracles : Oracles where
  solution := fun _ => [0]
  sensitivity := fun _ _ _ _ => some (0, 0)
  blocking := fun _ _ _ => none

/-- Oracles whose blocking check reports row `0`, upper bound, at step
length `1/2` whenever the incoming step length is `1`. -/
def addOracles : Oracles where
  solution := fun _ => [0]
  sensitivity := fun _ _ _ _ => none
  blocking := fun _ _ a => if a = 1 then some (0, CTR_ACTIVE_UB, 1 / 2) else none

/-- A one-variable problem with a single general objective holding one
equality row (`x = 0`), as left by `setData`: the row is auto-activated
as `CTR_ACTIVE_EQ`. -/
def eqProb : LexLSIState :=
  ((mkLexLSI 1 1 [1] [GENERAL_OBJECTIVE] defaultParams).setDataG 0 [[1, 0, 0]]).1

/-- The same problem with `max_number_of_factorizations = 0`. -/
def eqProbMax0 : LexLSIState :=
  ((mkLexLSI 1 1 [1] [GENERAL_OBJECTIVE]
      { defaultParams with max_number_of_factorizations := 0 }).setDataG 0 [[1, 0, 0]]).1

/-- The equality problem after a first `solve` (with the no-op oracles). -/
def eqProbSolved : LexLSIState :=
  solveFinal noopOracles eqProb

/-- The equality problem with a user-supplied `x0` (so iteration `0` of
`verifyWorkingSet` is not a normal iteration). -/
def eqProbX0 : LexLSIState :=
  eqProb.set_x0 [5]

/-- A freshly constructed one-variable, one-objective problem with no
data set yet (row `0` inactive). -/
def freshProb : LexLSIState :=
  mkLexLSI 1 1 [1] [GENERAL_OBJECTIVE] defaultParams

/-- A freshly constructed one-variable problem whose single general
objective has two rows. -/
def freshProb2 : LexLSIState :=
  mkLexLSI 1 1 [2] [GENERAL_OBJECTIVE] defaultParams

/-- A freshly constructed two-variable problem whose single objective is
of simple-bounds type with two rows. -/
def freshProbS : LexLSIState :=
  mkLexLSI 2 1 [2] [SIMPLE_BOUNDS_OBJECTIVE] defaultParams

/-! ## Theorems -/

section Theorems

open LexLSIState

/-! ### List and state helper lemmas -/

theorem getD_set_ne {α : Type} (l : List α) (i j : Nat) (v d : α) (h : i ≠ j) :
    (l.set i v).getD j d = l.getD j d := by
  simp [List.getD, List.getElem?_set_ne h]

theorem getD_set_self {α : Type} (l : List α) (i : Nat) (v d : α) (h : i < l.length) :
    (l.set i v).getD i d = v := by
  simp [List.getD, List.getElem?_set_self, h]

theorem obj_updObj_self (s : LexLSIState) (oi : Nat) (f : Objective → Objective)
    (h : oi < s.objectives.length) : (s.updObj oi f).obj oi = f (s.obj oi) :=
  getD_set_self s.objectives oi (f (s.obj oi)) dummyObj h

theorem obj_updObj_ne (s : LexLSIState) (oi : Nat) (f : Objective → Objective)
    (j : Nat) (h : j ≠ oi) : (s.updObj oi f).obj j = s.obj j :=
  getD_set_ne s.objectives oi j (f (s.obj oi)) dummyObj (Ne.symm h)

theorem length_updObj (s : LexLSIState) (oi : Nat) (f : Objective → Objective) :
    (s.updObj oi f).objectives.length = s.objectives.length := by
  simp [LexLSIState.updObj]

/-- `activate` with `CountIteration = false` is the bare working-set
update. -/
theorem activate_false_eq (s : LexLSIState) (oi ci : Nat) (t : ConstraintActivationType) :
    s.activate oi ci t false = s.updObj oi (fun o => o.activate ci t) := rfl

/-! ### Characterization of the `setData` row scan -/

/-- Fields of the state and of the objectives which the `setData` bound
scan never modifies, plus the two frame facts used to track the
activations it performs: the working set only grows by appended entries,
and `ctrType` entries below the scan window are untouched. -/
theorem setDataScan_frame (oi : Nat) (b : Nat → Scalar × Scalar) (msg : String) :
    ∀ (n ctr : Nat) (s : LexLSIState),
      ((setDataScan oi b msg n ctr s).1.parameters = s.parameters) ∧
      ((setDataScan oi b msg n ctr s).1.nObj = s.nObj) ∧
      ((setDataScan oi b msg n ctr s).1.nVar = s.nVar) ∧
      ((setDataScan oi b msg n ctr s).1.nActivations = s.nActivations) ∧
      ((setDataScan oi b msg n ctr s).1.nDeactivations = s.nDeactivations) ∧
      ((setDataScan oi b msg n ctr s).1.objectives.length = s.objectives.length) ∧
      (∀ j, j ≠ oi → (setDataScan oi b msg n ctr s).1.obj j = s.obj j) ∧
      ((setDataScan oi b msg n ctr s).1.obj oi).A = (s.obj oi).A ∧
      ((setDataScan oi b msg n ctr s).1.obj oi).l = (s.obj oi).l ∧
      ((setDataScan oi b msg n ctr s).1.obj oi).u = (s.obj oi).u ∧
      ((setDataScan oi b msg n ctr s).1.obj oi).varIndex = (s.obj oi).varIndex ∧
      ((setDataScan oi b msg n ctr s).1.obj oi).dim = (s.obj oi).dim ∧
      ((setDataScan oi b msg n ctr s).1.obj oi).objType = (s.obj oi).objType ∧
      ((setDataScan oi b msg n ctr s).1.obj oi).ctrType.length = (s.obj oi).ctrType.length ∧
      (∃ suf, ((setDataScan oi b msg n ctr s).1.obj oi).activeList
                = (s.obj oi).activeList ++ suf) ∧
      (∀ j, j < ctr →
        ((setDataScan oi b msg n ctr s).1.obj oi).ctrType[j]? = (s.obj oi).ctrType[j]?) := by
  intro n
  induction n with
  | zero =>
      intro ctr s
      refine ⟨rfl, rfl, rfl, rfl, rfl, rfl, fun j _ => rfl, rfl, rfl, rfl, rfl, rfl, rfl, rfl,
        ⟨[], by simp [setDataScan]⟩, fun j _ => rfl⟩
  | succ n ih =>
      intro ctr s
      by_cases heq : isEqual s.parameters.tol_eq (b ctr).1 (b ctr).2 = true
      · have hstep : setDataScan oi b msg (n + 1) ctr s
            = setDataScan oi b msg n (ctr + 1) (s.activate oi ctr CTR_ACTIVE_EQ false) := by
          simp [setDataScan, heq]
        set s1 := s.activate oi ctr CTR_ACTIVE_EQ false with hs1
        obtain ⟨f1, f2, f3, f4, f5, f6, f7, f8, f9, f10, f11, f12, f13, f14, ⟨suf, hsuf⟩, f16⟩ :=
          ih (ctr + 1) s1
        rw [hstep]
        by_cases hoi : oi < s.objectives.length
        · have hobj : s1.obj oi = (s.obj oi).activate ctr CTR_ACTIVE_EQ := by
            rw [hs1, activate_false_eq]; exact obj_updObj_self s oi _ hoi
          refine ⟨f1, f2, f3, f4, f5, ?_, ?_, ?_, ?_, ?_, ?_, ?_, ?_, ?_, ?_, ?_⟩
          · rw [f6, hs1, activate_false_eq, length_updObj]
          · intro j hj
            rw [f7 j hj, hs1, activate_false_eq, obj_updObj_ne s oi _ j hj]
          · rw [f8, hobj]; rfl
          · rw [f9, hobj]; rfl
          · rw [f10, hobj]; rfl
          · rw [f11, hobj]; rfl
          · rw [f12, hobj]; rfl
          · rw [f13, hobj]; rfl
          · rw [f14, hobj, Objective.activate]; simp
          · refine ⟨ctr :: suf, ?_⟩
            rw [hsuf, hobj, Objective.activate]; simp
          · intro j hj
            rw [f16 j (Nat.lt_succ_of_lt hj), hobj, Objective.activate]
            simp only []
            exact List.getElem?_set_ne (Nat.ne_of_gt hj)
        · have hobj : s1.obj oi = s.obj oi := by
            rw [hs1, activate_false_eq]
            simp [LexLSIState.updObj, LexLSIState.obj, List.set_eq_of_length_le
              (Nat.le_of_not_lt hoi)]
          have hlen1 : s1.objectives.length = s.objectives.length := by
            rw [hs1, activate_false_eq, length_updObj]
          have hall : ∀ j, s1.obj j = s.obj j := by
            intro j
            by_cases hj : j = oi
            · rw [hj, hobj]
            · rw [hs1, activate_false_eq, obj_updObj_ne s oi _ j hj]
          refine ⟨f1, f2, f3, f4, f5, f6.trans hlen1, ?_, ?_, ?_, ?_, ?_, ?_, ?_, ?_, ?_, ?_⟩
          · intro j hj; rw [f7 j hj, hall j]
          · rw [f8, hobj]
          · rw [f9, hobj]
          · rw [f10, hobj]
          · rw [f11, hobj]
          · rw [f12, hobj]
          · rw [f13, hobj]
          · rw [f14, hobj]
          · exact ⟨suf, by rw [hsuf, hobj]⟩
          · intro j hj; rw [f16 j (Nat.lt_succ_of_lt hj), hobj]
      · by_cases hgt : (b ctr).1 > (b ctr).2
        · have hstep : setDataScan oi b msg (n + 1) ctr s = (s, some (.invalidInput msg)) := by
            simp [setDataScan, heq, hgt]
          rw [hstep]
          exact ⟨rfl, rfl, rfl, rfl, rfl, rfl, fun j _ => rfl, rfl, rfl, rfl, rfl, rfl, rfl, rfl,
            ⟨[], by simp⟩, fun j _ => rfl⟩
        · have hstep : setDataScan oi b msg (n + 1) ctr s
              = setDataScan oi b msg n (ctr + 1) s := by
            simp [setDataScan, heq, hgt]
          obtain ⟨f1, f2, f3, f4, f5, f6, f7, f8, f9, f10, f11, f12, f13, f14, ⟨suf, hsuf⟩, f16⟩ :=
            ih (ctr + 1) s
          rw [hstep]
          exact ⟨f1, f2, f3, f4, f5, f6, f7, f8, f9, f10, f11, f12, f13, f14, ⟨suf, hsuf⟩,
            fun j hj => f16 j (Nat.lt_succ_of_lt hj)⟩

/-- When no row of the scan window triggers the exception, the scan
returns no error and every row of the window whose bounds are equal
within tolerance ends up activated as `CTR_ACTIVE_EQ` and member of the
working set. -/
theorem setDataScan_ok (oi : Nat) (b : Nat → Scalar × Scalar) (msg : String) :
    ∀ (n ctr : Nat) (s : LexLSIState),
      oi < s.objectives.length →
      ctr + n ≤ (s.obj oi).ctrType.length →
      (∀ j, ctr ≤ j → j < ctr + n → ¬ badBounds s.parameters.tol_eq (b j)) →
      (setDataScan oi b msg n ctr s).2 = none ∧
      ∀ j, ctr ≤ j → j < ctr + n →
        isEqual s.parameters.tol_eq (b j).1 (b j).2 = true →
        ((setDataScan oi b msg n ctr s).1.obj oi).ctrType[j]? = some CTR_ACTIVE_EQ ∧
          j ∈ ((setDataScan oi b msg n ctr s).1.obj oi).activeList := by
  intro n
  induction n with
  | zero =>
      intro ctr s _ _ _
      exact ⟨rfl, fun j h1 h2 _ => absurd (Nat.lt_of_le_of_lt h1 h2) (by omega)⟩
  | succ n ih =>
      intro ctr s hoi hwin hgood
      by_cases heq : isEqual s.parameters.tol_eq (b ctr).1 (b ctr).2 = true
      · have hstep : setDataScan oi b msg (n + 1) ctr s
            = setDataScan oi b msg n (ctr + 1) (s.activate oi ctr CTR_ACTIVE_EQ false) := by
          simp [setDataScan, heq]
        set s1 := s.activate oi ctr CTR_ACTIVE_EQ false with hs1
        have hobj : s1.obj oi = (s.obj oi).activate ctr CTR_ACTIVE_EQ := by
          rw [hs1, activate_false_eq]; exact obj_updObj_self s oi _ hoi
        have hoi1 : oi < s1.objectives.length := by
          rw [hs1, activate_false_eq, length_updObj]; exact hoi
        have hpar : s1.parameters = s.parameters := rfl
        have hwin1 : ctr + 1 + n ≤ (s1.obj oi).ctrType.length := by
          rw [hobj, Objective.activate]
          simp only [List.length_set]
          omega
        have hgood1 : ∀ j, ctr + 1 ≤ j → j < ctr + 1 + n →
            ¬ badBounds s1.parameters.tol_eq (b j) := by
          intro j h1 h2
          rw [hpar]
          exact hgood j (by omega) (by omega)
        obtain ⟨hnone, hacts⟩ := ih (ctr + 1) s1 hoi1 hwin1 hgood1
        rw [hstep]
        refine ⟨hnone, ?_⟩
        intro j h1 h2 hje
        rcases Nat.eq_or_lt_of_le h1 with h1 | h1
        · -- the row activated at this step; later steps do not disturb it
          obtain ⟨-, -, -, -, -, -, -, -, -, -, -, -, -, -, ⟨suf, hsuf⟩, hframe⟩ :=
            setDataScan_frame oi b msg n (ctr + 1) s1
          constructor
          · rw [hframe j (by omega), hobj, Objective.activate]
            simp only []
            rw [← h1]
            exact List.getElem?_set_self (by omega)
          · rw [hsuf, hobj, Objective.activate]
            simp [← h1]
        · exact hacts j h1 (by omega) (by rw [hpar]; exact hje)
      · have hgt : ¬ ((b ctr).1 > (b ctr).2) := by
          intro hgt
          exact hgood ctr (Nat.le_refl ctr) (by omega)
            ⟨by simpa using heq, hgt⟩
        have hstep : setDataScan oi b msg (n + 1) ctr s
            = setDataScan oi b msg n (ctr + 1) s := by
          simp [setDataScan, heq, hgt]
        obtain ⟨hnone, hacts⟩ := ih (ctr + 1) s hoi (by omega)
          (fun j h1 h2 => hgood j (by omega) (by omega))
        rw [hstep]
        refine ⟨hnone, ?_⟩
        intro j h1 h2 hje
        rcases Nat.eq_or_lt_of_le h1 with h1 | h1
        · exact absurd (h1 ▸ hje) (by simpa using heq)
        · exact hacts j h1 (by omega) hje

/-- When row `k` is the first row of the scan window triggering the
exception, the scan stops there with the `InvalidInput` error, after
having activated every earlier equality row. -/
theorem setDataScan_err (oi : Nat) (b : Nat → Scalar × Scalar) (msg : String) :
    ∀ (n ctr : Nat) (s : LexLSIState) (k : Nat),
      oi < s.objectives.length →
      ctr + n ≤ (s.obj oi).ctrType.length →
      ctr ≤ k → k < ctr + n →
      badBounds s.parameters.tol_eq (b k) →
      (∀ j, ctr ≤ j → j < k → ¬ badBounds s.parameters.tol_eq (b j)) →
      (setDataScan oi b msg n ctr s).2 = some (.invalidInput msg) ∧
      ∀ j, ctr ≤ j → j < k →
        isEqual s.parameters.tol_eq (b j).1 (b j).2 = true →
        ((setDataScan oi b msg n ctr s).1.obj oi).ctrType[j]? = some CTR_ACTIVE_EQ ∧
          j ∈ ((setDataScan oi b msg n ctr s).1.obj oi).activeList := by
  intro n
  induction n with
  | zero =>
      intro ctr s k _ _ h1 h2 _ _
      omega
  | succ n ih =>
      intro ctr s k hoi hwin hk1 hk2 hbad hmin
      rcases Nat.eq_or_lt_of_le hk1 with hk | hk
      · -- the exception fires at this very row
        have heq : ¬ (isEqual s.parameters.tol_eq (b ctr).1 (b ctr).2 = true) := by
          rw [hk]; simpa using hbad.1
        have hgt : (b ctr).1 > (b ctr).2 := by rw [hk]; exact hbad.2
        have hstep : setDataScan oi b msg (n + 1) ctr s = (s, some (.invalidInput msg)) := by
          simp [setDataScan, heq, hgt]
        rw [hstep]
        exact ⟨rfl, fun j hj1 hj2 _ => by omega⟩
      · -- row ctr is good; step and recurse
        have hgoodc : ¬ badBounds s.parameters.tol_eq (b ctr) :=
          hmin ctr (Nat.le_refl ctr) hk
        by_cases heq : isEqual s.parameters.tol_eq (b ctr).1 (b ctr).2 = true
        · have hstep : setDataScan oi b msg (n + 1) ctr s
              = setDataScan oi b msg n (ctr + 1) (s.activate oi ctr CTR_ACTIVE_EQ false) := by
            simp [setDataScan, heq]
          set s1 := s.activate oi ctr CTR_ACTIVE_EQ false with hs1
          have hobj : s1.obj oi = (s.obj oi).activate ctr CTR_ACTIVE_EQ := by
            rw [hs1, activate_false_eq]; exact obj_updObj_self s oi _ hoi
          have hoi1 : oi < s1.objectives.length := by
            rw [hs1, activate_false_eq, length_updObj]; exact hoi
          have hpar : s1.parameters = s.parameters := rfl
          have hwin1 : ctr + 1 + n ≤ (s1.obj oi).ctrType.length := by
            rw [hobj, Objective.activate]
            simp only [List.length_set]
            omega
          obtain ⟨herr, hacts⟩ := ih (ctr + 1) s1 k hoi1 hwin1 (by omega) (by omega)
            (by rw [hpar]; exact hbad)
            (fun j h1 h2 => by rw [hpar]; exact hmin j (by omega) h2)
          rw [hstep]
          refine ⟨herr, ?_⟩
          intro j h1 h2 hje
          rcases Nat.eq_or_lt_of_le h1 with h1 | h1
          · obtain ⟨-, -, -, -, -, -, -, -, -, -, -, -, -, -, ⟨suf, hsuf⟩, hframe⟩ :=
              setDataScan_frame oi b msg n (ctr + 1) s1
            constructor
            · rw [hframe j (by omega), hobj, Objective.activate]
              simp only []
              rw [← h1]
              exact List.getElem?_set_self (by omega)
            · rw [hsuf, hobj, Objective.activate]
              simp [← h1]
          · exact hacts j h1 h2 (by rw [hpar]; exact hje)
        · have hgt : ¬ ((b ctr).1 > (b ctr).2) := by
            intro hgt
            exact hgoodc ⟨by simpa using heq, hgt⟩
          have hstep : setDataScan oi b msg (n + 1) ctr s
              = setDataScan oi b msg n (ctr + 1) s := by
            simp [setDataScan, heq, hgt]
          obtain ⟨herr, hacts⟩ := ih (ctr + 1) s k hoi (by omega) (by omega) (by omega)
            hbad (fun j h1 h2 => hmin j (by omega) h2)
          rw [hstep]
          refine ⟨herr, ?_⟩
          intro j h1 h2 hje
          rcases Nat.eq_or_lt_of_le h1 with h1 | h1
          · exact absurd (h1 ▸ hje) (by simpa using heq)
          · exact hacts j h1 h2 hje

/-- If some row of the scan window triggers the exception then the scan
reports an error. -/
theorem setDataScan_isSome (oi : Nat) (b : Nat → Scalar × Scalar) (msg : String) :
    ∀ (n ctr : Nat) (s : LexLSIState),
      (∃ k, ctr ≤ k ∧ k < ctr + n ∧ badBounds s.parameters.tol_eq (b k)) →
      ((setDataScan oi b msg n ctr s).2).isSome := by
  intro n
  induction n with
  | zero =>
      intro ctr s ⟨k, h1, h2, _⟩
      omega
  | succ n ih =>
      intro ctr s ⟨k, h1, h2, hbad⟩
      by_cases heq : isEqual s.parameters.tol_eq (b ctr).1 (b ctr).2 = true
      · have hstep : setDataScan oi b msg (n + 1) ctr s
            = setDataScan oi b msg n (ctr + 1) (s.activate oi ctr CTR_ACTIVE_EQ false) := by
          simp [setDataScan, heq]
        have hkc : ctr ≠ k := by
          intro h
          rw [← h] at hbad
          exact absurd heq (by simpa using hbad.1)
        rw [hstep]
        exact ih (ctr + 1) _ ⟨k, by omega, by omega, hbad⟩
      · by_cases hgt : (b ctr).1 > (b ctr).2
        · simp [setDataScan, heq, hgt]
        · have hkc : ctr ≠ k := by
            intro h
            rw [← h] at hbad
            exact hbad.2.not_le (le_of_not_lt hgt)
          have hstep : setDataScan oi b msg (n + 1) ctr s
              = setDataScan oi b msg n (ctr + 1) s := by
            simp [setDataScan, heq, hgt]
          rw [hstep]
          exact ih (ctr + 1) s ⟨k, by omega, by omega, hbad⟩

/-! ### `setData` validation behaviour -/

theorem setDataG_mismatch (s : LexLSIState) (oi : Nat) (data : List (List Scalar))
    (hoi : oi < s.nObj) (ht : (s.obj oi).objType = GENERAL_OBJECTIVE)
    (hdim : (s.obj oi).dim ≠ data.length) :
    s.setDataG oi data = (s, some (.invalidInput "Incorrect number of equations")) := by
  have h1 : ¬ oi ≥ s.nObj := by omega
  have h2 : ¬ (s.obj oi).objType ≠ GENERAL_OBJECTIVE := by simp [ht]
  unfold LexLSIState.setDataG
  rw [if_neg h1, if_neg h2, if_pos hdim]

theorem setDataS_mismatch (s : LexLSIState) (oi : Nat) (vi : List Nat)
    (data : List (List Scalar))
    (hoi : oi < s.nObj) (ht : (s.obj oi).objType = SIMPLE_BOUNDS_OBJECTIVE)
    (hdim : (s.obj oi).dim ≠ data.length) :
    s.setDataS oi vi data = (s, some (.invalidInput "Incorrect number of equations")) := by
  have h1 : ¬ oi ≥ s.nObj := by omega
  have h2 : ¬ (s.obj oi).objType ≠ SIMPLE_BOUNDS_OBJECTIVE := by simp [ht]
  unfold LexLSIState.setDataS
  rw [if_neg h1, if_neg h2, if_pos hdim]

theorem setDataG_err_of_bad (s : LexLSIState) (oi : Nat) (data : List (List Scalar))
    (hoi : oi < s.nObj) (ht : (s.obj oi).objType = GENERAL_OBJECTIVE)
    (hdl : (s.obj oi).dim = data.length)
    (hex : ∃ k, k < (s.obj oi).dim ∧ badBounds s.parameters.tol_eq (boundsG s.nVar data k)) :
    ∃ m, (s.setDataG oi data).2 = some (.invalidInput m) := by
  have h1 : ¬ oi ≥ s.nObj := by omega
  have h2 : ¬ (s.obj oi).objType ≠ GENERAL_OBJECTIVE := by simp [ht]
  have h3 : ¬ (s.obj oi).dim ≠ data.length := by simp [hdl]
  unfold LexLSIState.setDataG
  rw [if_neg h1, if_neg h2, if_neg h3]
  obtain ⟨k, hk, hbad⟩ := hex
  have hsome := setDataScan_isSome oi (boundsG s.nVar data)
    "(general) Lower bound is greater than upper bound." (s.obj oi).dim 0 s
    ⟨k, Nat.zero_le k, by omega, hbad⟩
  rcases hscan : setDataScan oi (boundsG s.nVar data)
      "(general) Lower bound is greater than upper bound." (s.obj oi).dim 0 s with ⟨s1, e⟩
  rw [hscan] at hsome
  cases e with
  | none => simp at hsome
  | some err => cases err with | invalidInput m => exact ⟨m, rfl⟩

theorem setDataS_err_of_bad (s : LexLSIState) (oi : Nat) (vi : List Nat)
    (data : List (List Scalar))
    (hoi : oi < s.nObj) (ht : (s.obj oi).objType = SIMPLE_BOUNDS_OBJECTIVE)
    (hdl : (s.obj oi).dim = data.length)
    (hex : ∃ k, k < (s.obj oi).dim ∧ badBounds s.parameters.tol_eq (boundsS data k)) :
    ∃ m, (s.setDataS oi vi data).2 = some (.invalidInput m) := by
  have h1 : ¬ oi ≥ s.nObj := by omega
  have h2 : ¬ (s.obj oi).objType ≠ SIMPLE_BOUNDS_OBJECTIVE := by simp [ht]
  have h3 : ¬ (s.obj oi).dim ≠ data.length := by simp [hdl]
  unfold LexLSIState.setDataS
  rw [if_neg h1, if_neg h2, if_neg h3]
  obtain ⟨k, hk, hbad⟩ := hex
  have hsome := setDataScan_isSome oi (boundsS data)
    "(simple) Lower bound is greater than upper bound." (s.obj oi).dim 0 s
    ⟨k, Nat.zero_le k, by omega, hbad⟩
  rcases hscan : setDataScan oi (boundsS data)
      "(simple) Lower bound is greater than upper bound." (s.obj oi).dim 0 s with ⟨s1, e⟩
  rw [hscan] at hsome
  cases e with
  | none => simp at hsome
  | some err => cases err with | invalidInput m => exact ⟨m, rfl⟩

theorem setDataG_ok (s : LexLSIState) (oi : Nat) (data : List (List Scalar))
    (hoi : oi < s.nObj) (hlen : s.objectives.length = s.nObj)
    (ht : (s.obj oi).objType = GENERAL_OBJECTIVE)
    (hdl : (s.obj oi).dim = data.length)
    (hct : (s.obj oi).ctrType.length = (s.obj oi).dim)
    (hgood : ∀ k, k < (s.obj oi).dim →
      ¬ badBounds s.parameters.tol_eq (boundsG s.nVar data k)) :
    (s.setDataG oi data).2 = none ∧
    (s.setDataG oi data).1.nActivations = s.nActivations ∧
    ∀ k, k < (s.obj oi).dim →
      isEqual s.parameters.tol_eq (boundsG s.nVar data k).1 (boundsG s.nVar data k).2 = true →
      ((s.setDataG oi data).1.obj oi).ctrType[k]? = some CTR_ACTIVE_EQ ∧
        k ∈ ((s.setDataG oi data).1.obj oi).activeList := by
  have hoil : oi < s.objectives.length := by omega
  obtain ⟨hnone, hacts⟩ := setDataScan_ok oi (boundsG s.nVar data)
    "(general) Lower bound is greater than upper bound." (s.obj oi).dim 0 s hoil (by omega)
    (fun j _ h2 => hgood j (by omega))
  obtain ⟨-, -, -, f4, -, f6, -, -, -, -, -, -, -, -, -, -⟩ :=
    setDataScan_frame oi (boundsG s.nVar data)
      "(general) Lower bound is greater than upper bound." (s.obj oi).dim 0 s
  have h1 : ¬ oi ≥ s.nObj := by omega
  have h2 : ¬ (s.obj oi).objType ≠ GENERAL_OBJECTIVE := by simp [ht]
  have h3 : ¬ (s.obj oi).dim ≠ data.length := by simp [hdl]
  rcases hscan : setDataScan oi (boundsG s.nVar data)
      "(general) Lower bound is greater than upper bound." (s.obj oi).dim 0 s with ⟨s1, e⟩
  rw [hscan] at hnone hacts f4 f6
  cases hnone
  have f4n : s1.nActivations = s.nActivations := f4
  have f6n : s1.objectives.length = s.objectives.length := f6
  have hall : s.setDataG oi data = (s1.updObj oi (fun o => o.setDataGeneral data), none) := by
    unfold LexLSIState.setDataG
    rw [if_neg h1, if_neg h2, if_neg h3, hscan]
  rw [hall]
  have hoil1 : oi < s1.objectives.length := by omega
  have hobj1 : (s1.updObj oi (fun o => o.setDataGeneral data)).obj oi
      = (s1.obj oi).setDataGeneral data := obj_updObj_self s1 oi _ hoil1
  refine ⟨rfl, f4n, ?_⟩
  intro k hk hke
  have hk2 := hacts k (Nat.zero_le k) (by omega) hke
  rw [hobj1]
  exact hk2

theorem setDataS_ok (s : LexLSIState) (oi : Nat) (vi : List Nat) (data : List (List Scalar))
    (hoi : oi < s.nObj) (hlen : s.objectives.length = s.nObj)
    (ht : (s.obj oi).objType = SIMPLE_BOUNDS_OBJECTIVE)
    (hdl : (s.obj oi).dim = data.length)
    (hct : (s.obj oi).ctrType.length = (s.obj oi).dim)
    (hnodup : hasDuplicateVarIndex vi (s.obj oi).dim = false)
    (hgood : ∀ k, k < (s.obj oi).dim →
      ¬ badBounds s.parameters.tol_eq (boundsS data k)) :
    (s.setDataS oi vi data).2 = none ∧
    (s.setDataS oi vi data).1.nActivations = s.nActivations ∧
    ∀ k, k < (s.obj oi).dim →
      isEqual s.parameters.tol_eq (boundsS data k).1 (boundsS data k).2 = true →
      ((s.setDataS oi vi data).1.obj oi).ctrType[k]? = some CTR_ACTIVE_EQ ∧
        k ∈ ((s.setDataS oi vi data).1.obj oi).activeList := by
  have hoil : oi < s.objectives.length := by omega
  obtain ⟨hnone, hacts⟩ := setDataScan_ok oi (boundsS data)
    "(simple) Lower bound is greater than upper bound." (s.obj oi).dim 0 s hoil (by omega)
    (fun j _ h2 => hgood j (by omega))
  obtain ⟨-, -, -, f4, -, f6, -, -, -, -, -, f12, -, -, -, -⟩ :=
    setDataScan_frame oi (boundsS data)
      "(simple) Lower bound is greater than upper bound." (s.obj oi).dim 0 s
  have h1 : ¬ oi ≥ s.nObj := by omega
  have h2 : ¬ (s.obj oi).objType ≠ SIMPLE_BOUNDS_OBJECTIVE := by simp [ht]
  have h3 : ¬ (s.obj oi).dim ≠ data.length := by simp [hdl]
  rcases hscan : setDataScan oi (boundsS data)
      "(simple) Lower bound is greater than upper bound." (s.obj oi).dim 0 s with ⟨s1, e⟩
  rw [hscan] at hnone hacts f4 f6 f12
  cases hnone
  have f4n : s1.nActivations = s.nActivations := f4
  have f6n : s1.objectives.length = s.objectives.length := f6
  have f12n : (s1.obj oi).dim = (s.obj oi).dim := f12
  have hifn : ¬ (hasDuplicateVarIndex vi (s1.obj oi).dim = true) := by
    rw [f12n, hnodup]; simp
  have hall : s.setDataS oi vi data
      = (s1.updObj oi (fun o => o.setDataSimple vi data), none) := by
    unfold LexLSIState.setDataS
    rw [if_neg h1, if_neg h2, if_neg h3, hscan]
    exact if_neg hifn
  rw [hall]
  have hoil1 : oi < s1.objectives.length := by omega
  have hobj1 : (s1.updObj oi (fun o => o.setDataSimple vi data)).obj oi
      = (s1.obj oi).setDataSimple vi data := obj_updObj_self s1 oi _ hoil1
  refine ⟨rfl, f4n, ?_⟩
  intro k hk hke
  have hk2 := hacts k (Nat.zero_le k) (by omega) hke
  rw [hobj1]
  exact hk2

theorem setDataS_dup (s : LexLSIState) (oi : Nat) (vi : List Nat) (data : List (List Scalar))
    (hoi : oi < s.nObj) (ht : (s.obj oi).objType = SIMPLE_BOUNDS_OBJECTIVE)
    (hdl : (s.obj oi).dim = data.length)
    (hdup : hasDuplicateVarIndex vi (s.obj oi).dim = true) :
    ∃ m, (s.setDataS oi vi data).2 = some (.invalidInput m) := by
  obtain ⟨-, -, -, -, -, -, -, -, -, -, -, f12, -, -, -, -⟩ :=
    setDataScan_frame oi (boundsS data)
      "(simple) Lower bound is greater than upper bound." (s.obj oi).dim 0 s
  have h1 : ¬ oi ≥ s.nObj := by omega
  have h2 : ¬ (s.obj oi).objType ≠ SIMPLE_BOUNDS_OBJECTIVE := by simp [ht]
  have h3 : ¬ (s.obj oi).dim ≠ data.length := by simp [hdl]
  unfold LexLSIState.setDataS
  rw [if_neg h1, if_neg h2, if_neg h3]
  rcases hscan : setDataScan oi (boundsS data)
      "(simple) Lower bound is greater than upper bound." (s.obj oi).dim 0 s with ⟨s1, e⟩
  rw [hscan] at f12
  cases e with
  | some err => cases err with | invalidInput m => exact ⟨m, rfl⟩
  | none =>
      have f12n : (s1.obj oi).dim = (s.obj oi).dim := f12
      have hifp : hasDuplicateVarIndex vi (s1.obj oi).dim = true := by rw [f12n]; exact hdup
      refine ⟨"Elements of VarIndex are not unique.", ?_⟩
      have hred : (if hasDuplicateVarIndex vi (s1.obj oi).dim = true then
            (s1, some (LexLSError.invalidInput "Elements of VarIndex are not unique."))
          else ((s1.updObj oi fun o => o.setDataSimple vi data, none)
            : LexLSIState × Option LexLSError))
          = (s1, some (LexLSError.invalidInput "Elements of VarIndex are not unique.")) :=
        if_pos hifp
      show (if hasDuplicateVarIndex vi (s1.obj oi).dim = true then
            (s1, some (LexLSError.invalidInput "Elements of VarIndex are not unique."))
          else (s1.updObj oi fun o => o.setDataSimple vi data, none)).2
        = some (LexLSError.invalidInput "Elements of VarIndex are not unique.")
      rw [hred]

theorem setDataG_nActivations (s : LexLSIState) (oi : Nat) (data : List (List Scalar)) :
    (s.setDataG oi data).1.nActivations = s.nActivations := by
  obtain ⟨-, -, -, f4, -, -, -, -, -, -, -, -, -, -, -, -⟩ :=
    setDataScan_frame oi (boundsG s.nVar data)
      "(general) Lower bound is greater than upper bound." (s.obj oi).dim 0 s
  unfold LexLSIState.setDataG
  split
  · rfl
  split
  · rfl
  split
  · rfl
  rcases hscan : setDataScan oi (boundsG s.nVar data)
      "(general) Lower bound is greater than upper bound." (s.obj oi).dim 0 s with ⟨s1, e⟩
  rw [hscan] at f4
  cases e with
  | some err => exact f4
  | none => exact f4

theorem setDataS_nActivations (s : LexLSIState) (oi : Nat) (vi : List Nat)
    (data : List (List Scalar)) :
    (s.setDataS oi vi data).1.nActivations = s.nActivations := by
  obtain ⟨-, -, -, f4, -, -, -, -, -, -, -, -, -, -, -, -⟩ :=
    setDataScan_frame oi (boundsS data)
      "(simple) Lower bound is greater than upper bound." (s.obj oi).dim 0 s
  unfold LexLSIState.setDataS
  split
  · rfl
  split
  · rfl
  split
  · rfl
  rcases hscan : setDataScan oi (boundsS data)
      "(simple) Lower bound is greater than upper bound." (s.obj oi).dim 0 s with ⟨s1, e⟩
  rw [hscan] at f4
  cases e with
  | some err => exact f4
  | none =>
      show (if hasDuplicateVarIndex vi (s1.obj oi).dim = true then
            (s1, some (LexLSError.invalidInput "Elements of VarIndex are not unique."))
          else (s1.updObj oi fun o => o.setDataSimple vi data, none)).1.nActivations
        = s.nActivations
      by_cases hc : hasDuplicateVarIndex vi (s1.obj oi).dim = true
      · rw [if_pos hc]
        exact f4
      · rw [if_neg hc]
        exact f4

/-- **C8 counterexample.**  A general-objective row whose lower bound
strictly exceeds its upper bound, but within the equality tolerance
(`l = 1/(2·10¹²) > u = 0`, `|l - u| < τ_eq = 10⁻¹²`), is *not* rejected:
`setData` raises no error and activates the row as `CTR_ACTIVE_EQ`.  The
claim's "if the lower bound strictly exceeds the upper bound, an
InvalidInput error is raised" is therefore false. -/
theorem setData_lower_gt_upper_within_tol_no_error :
    (boundsG freshProb.nVar [[1, 1 / 2000000000000, 0]] 0).1
      > (boundsG freshProb.nVar [[1, 1 / 2000000000000, 0]] 0).2 ∧
    (freshProb.setDataG 0 [[1, 1 / 2000000000000, 0]]).2 = none ∧
    ((freshProb.setDataG 0 [[1, 1 / 2000000000000, 0]]).1.obj 0).ctrType
      = [CTR_ACTIVE_EQ] := by
  refine ⟨by decide, by decide, by decide⟩

/-- **C8 (amended).**  `setData` validation, as implemented: a row-count
mismatch raises `InvalidInput` (both variants); a row whose lower bound
exceeds its upper bound *and whose bounds are not equal within the
tolerance `τ_eq`* raises `InvalidInput` (both variants); when no row
triggers the exception, rows whose bounds are equal within tolerance are
auto-activated as `CTR_ACTIVE_EQ` in the working set; duplicate
`VarIndex` entries of a simple-bounds objective raise `InvalidInput`; and
`setData` never increments `nActivations`.  (Amended from the claim only
in the `l > u` case: a lower bound exceeding the upper bound within the
equality tolerance is auto-activated as an equality instead of raising an
error.) -/
theorem setData_validation :
    (∀ (s : LexLSIState) (oi : Nat) (data : List (List Scalar)),
      oi < s.nObj → (s.obj oi).objType = GENERAL_OBJECTIVE →
      (s.obj oi).dim ≠ data.length →
      s.setDataG oi data = (s, some (.invalidInput "Incorrect number of equations"))) ∧
    (∀ (s : LexLSIState) (oi : Nat) (vi : List Nat) (data : List (List Scalar)),
      oi < s.nObj → (s.obj oi).objType = SIMPLE_BOUNDS_OBJECTIVE →
      (s.obj oi).dim ≠ data.length →
      s.setDataS oi vi data = (s, some (.invalidInput "Incorrect number of equations"))) ∧
    (∀ (s : LexLSIState) (oi : Nat) (data : List (List Scalar)),
      oi < s.nObj → (s.obj oi).objType = GENERAL_OBJECTIVE →
      (s.obj oi).dim = data.length →
      (∃ k, k < (s.obj oi).dim ∧ badBounds s.parameters.tol_eq (boundsG s.nVar data k)) →
      ∃ m, (s.setDataG oi data).2 = some (.invalidInput m)) ∧
    (∀ (s : LexLSIState) (oi : Nat) (vi : List Nat) (data : List (List Scalar)),
      oi < s.nObj → (s.obj oi).objType = SIMPLE_BOUNDS_OBJECTIVE →
      (s.obj oi).dim = data.length →
      (∃ k, k < (s.obj oi).dim ∧ badBounds s.parameters.tol_eq (boundsS data k)) →
      ∃ m, (s.setDataS oi vi data).2 = some (.invalidInput m)) ∧
    (∀ (s : LexLSIState) (oi : Nat) (data : List (List Scalar)),
      oi < s.nObj → s.objectives.length = s.nObj →
      (s.obj oi).objType = GENERAL_OBJECTIVE →
      (s.obj oi).dim = data.length →
      (s.obj oi).ctrType.length = (s.obj oi).dim →
      (∀ k, k < (s.obj oi).dim → ¬ badBounds s.parameters.tol_eq (boundsG s.nVar data k)) →
      (s.setDataG oi data).2 = none ∧
      (s.setDataG oi data).1.nActivations = s.nActivations ∧
      ∀ k, k < (s.obj oi).dim →
        isEqual s.parameters.tol_eq (boundsG s.nVar data k).1 (boundsG s.nVar data k).2
          = true →
        ((s.setDataG oi data).1.obj oi).ctrType[k]? = some CTR_ACTIVE_EQ ∧
          k ∈ ((s.setDataG oi data).1.obj oi).activeList) ∧
    (∀ (s : LexLSIState) (oi : Nat) (vi : List Nat) (data : List (List Scalar)),
      oi < s.nObj → s.objectives.length = s.nObj →
      (s.obj oi).objType = SIMPLE_BOUNDS_OBJECTIVE →
      (s.obj oi).dim = data.length →
      (s.obj oi).ctrType.length = (s.obj oi).dim →
      hasDuplicateVarIndex vi (s.obj oi).dim = false →
      (∀ k, k < (s.obj oi).dim → ¬ badBounds s.parameters.tol_eq (boundsS data k)) →
      (s.setDataS oi vi data).2 = none ∧
      (s.setDataS oi vi data).1.nActivations = s.nActivations ∧
      ∀ k, k < (s.obj oi).dim →
        isEqual s.parameters.tol_eq (boundsS data k).1 (boundsS data k).2 = true →
        ((s.setDataS oi vi data).1.obj oi).ctrType[k]? = some CTR_ACTIVE_EQ ∧
          k ∈ ((s.setDataS oi vi data).1.obj oi).activeList) ∧
    (∀ (s : LexLSIState) (oi : Nat) (vi : List Nat) (data : List (List Scalar)),
      oi < s.nObj → (s.obj oi).objType = SIMPLE_BOUNDS_OBJECTIVE →
      (s.obj oi).dim = data.length →
      hasDuplicateVarIndex vi (s.obj oi).dim = true →
      ∃ m, (s.setDataS oi vi data).2 = some (.invalidInput m)) ∧
    (∀ (s : LexLSIState) (oi : Nat) (data : List (List Scalar)),
      (s.setDataG oi data).1.nActivations = s.nActivations) ∧
    (∀ (s : LexLSIState) (oi : Nat) (vi : List Nat) (data : List (List Scalar)),
      (s.setDataS oi vi data).1.nActivations = s.nActivations) :=
  ⟨setDataG_mismatch, setDataS_mismatch, setDataG_err_of_bad, setDataS_err_of_bad,
    setDataG_ok, setDataS_ok, setDataS_dup, setDataG_nActivations, setDataS_nActivations⟩

/-- **C8 witness.**  The amended theorem applied to a concrete row-count
mismatch and to a concrete duplicate-`VarIndex` call. -/
theorem setData_validation_witness :
    freshProb.setDataG 0 []
        = (freshProb, some (.invalidInput "Incorrect number of equations")) ∧
      ∃ m, (freshProbS.setDataS 0 [0, 0] [[0, 1], [0, 1]]).2 = some (.invalidInput m) := by
  constructor
  · exact setData_validation.1 freshProb 0 [] (by decide) (by decide) (by decide)
  · exact setData_validation.2.2.2.2.2.2.1 freshProbS 0 [0, 0] [[0, 1], [0, 1]]
      (by decide) (by decide) (by decide) (by decide)

/-- **C10.**  `setData` is not atomic on failure: when row `k` is the
first row triggering the bound exception, the error propagates while all
earlier rows with bounds equal within tolerance have already been
activated as `CTR_ACTIVE_EQ` in the working set, and the objective's row
data (`A`, `l`, `u`, `varIndex`) is never stored. -/
theorem setData_failure_keeps_prior_activations :
    (∀ (s : LexLSIState) (oi : Nat) (data : List (List Scalar)) (k : Nat),
      oi < s.nObj → s.objectives.length = s.nObj →
      (s.obj oi).objType = GENERAL_OBJECTIVE →
      (s.obj oi).dim = data.length →
      (s.obj oi).ctrType.length = (s.obj oi).dim →
      k < (s.obj oi).dim →
      badBounds s.parameters.tol_eq (boundsG s.nVar data k) →
      (∀ j, j < k → ¬ badBounds s.parameters.tol_eq (boundsG s.nVar data j)) →
      (s.setDataG oi data).2
          = some (.invalidInput "(general) Lower bound is greater than upper bound.") ∧
        (∀ j, j < k →
          isEqual s.parameters.tol_eq (boundsG s.nVar data j).1 (boundsG s.nVar data j).2
            = true →
          ((s.setDataG oi data).1.obj oi).ctrType[j]? = some CTR_ACTIVE_EQ ∧
            j ∈ ((s.setDataG oi data).1.obj oi).activeList) ∧
        ((s.setDataG oi data).1.obj oi).A = (s.obj oi).A ∧
        ((s.setDataG oi data).1.obj oi).l = (s.obj oi).l ∧
        ((s.setDataG oi data).1.obj oi).u = (s.obj oi).u) ∧
    (∀ (s : LexLSIState) (oi : Nat) (vi : List Nat) (data : List (List Scalar)) (k : Nat),
      oi < s.nObj → s.objectives.length = s.nObj →
      (s.obj oi).objType = SIMPLE_BOUNDS_OBJECTIVE →
      (s.obj oi).dim = data.length →
      (s.obj oi).ctrType.length = (s.obj oi).dim →
      k < (s.obj oi).dim →
      badBounds s.parameters.tol_eq (boundsS data k) →
      (∀ j, j < k → ¬ badBounds s.parameters.tol_eq (boundsS data j)) →
      (s.setDataS oi vi data).2
          = some (.invalidInput "(simple) Lower bound is greater than upper bound.") ∧
        (∀ j, j < k →
          isEqual s.parameters.tol_eq (boundsS data j).1 (boundsS data j).2 = true →
          ((s.setDataS oi vi data).1.obj oi).ctrType[j]? = some CTR_ACTIVE_EQ ∧
            j ∈ ((s.setDataS oi vi data).1.obj oi).activeList) ∧
        ((s.setDataS oi vi data).1.obj oi).l = (s.obj oi).l ∧
        ((s.setDataS oi vi data).1.obj oi).u = (s.obj oi).u ∧
        ((s.setDataS oi vi data).1.obj oi).varIndex = (s.obj oi).varIndex) := by
  constructor
  · intro s oi data k hoi hlen ht hdl hct hk hbad hmin
    have hoil : oi < s.objectives.length := by omega
    obtain ⟨herr, hacts⟩ := setDataScan_err oi (boundsG s.nVar data)
      "(general) Lower bound is greater than upper bound." (s.obj oi).dim 0 s k hoil
      (by omega) (Nat.zero_le k) (by omega) hbad (fun j _ h2 => hmin j h2)
    obtain ⟨-, -, -, -, -, -, -, f8, f9, f10, -, -, -, -, -, -⟩ :=
      setDataScan_frame oi (boundsG s.nVar data)
        "(general) Lower bound is greater than upper bound." (s.obj oi).dim 0 s
    have h1 : ¬ oi ≥ s.nObj := by omega
    have h2 : ¬ (s.obj oi).objType ≠ GENERAL_OBJECTIVE := by simp [ht]
    have h3 : ¬ (s.obj oi).dim ≠ data.length := by simp [hdl]
    rcases hscan : setDataScan oi (boundsG s.nVar data)
        "(general) Lower bound is greater than upper bound." (s.obj oi).dim 0 s with ⟨s1, e⟩
    rw [hscan] at herr hacts f8 f9 f10
    cases herr
    have hall : s.setDataG oi data
        = (s1, some (.invalidInput "(general) Lower bound is greater than upper bound.")) := by
      unfold LexLSIState.setDataG
      rw [if_neg h1, if_neg h2, if_neg h3, hscan]
    rw [hall]
    exact ⟨rfl, fun j hj hje => hacts j (Nat.zero_le j) hj hje, f8, f9, f10⟩
  · intro s oi vi data k hoi hlen ht hdl hct hk hbad hmin
    have hoil : oi < s.objectives.length := by omega
    obtain ⟨herr, hacts⟩ := setDataScan_err oi (boundsS data)
      "(simple) Lower bound is greater than upper bound." (s.obj oi).dim 0 s k hoil
      (by omega) (Nat.zero_le k) (by omega) hbad (fun j _ h2 => hmin j h2)
    obtain ⟨-, -, -, -, -, -, -, -, f9, f10, f11, -, -, -, -, -⟩ :=
      setDataScan_frame oi (boundsS data)
        "(simple) Lower bound is greater than upper bound." (s.obj oi).dim 0 s
    have h1 : ¬ oi ≥ s.nObj := by omega
    have h2 : ¬ (s.obj oi).objType ≠ SIMPLE_BOUNDS_OBJECTIVE := by simp [ht]
    have h3 : ¬ (s.obj oi).dim ≠ data.length := by simp [hdl]
    rcases hscan : setDataScan oi (boundsS data)
        "(simple) Lower bound is greater than upper bound." (s.obj oi).dim 0 s with ⟨s1, e⟩
    rw [hscan] at herr hacts f9 f10 f11
    cases herr
    have hall : s.setDataS oi vi data
        = (s1, some (.invalidInput "(simple) Lower bound is greater than upper bound.")) := by
      unfold LexLSIState.setDataS
      rw [if_neg h1, if_neg h2, if_neg h3, hscan]
    rw [hall]
    exact ⟨rfl, fun j hj hje => hacts j (Nat.zero_le j) hj hje, f9, f10, f11⟩

/-- **C10 witness.**  The theorem applied to a concrete two-row general
objective whose first row is an equality (`l = u = 0`) and whose second
row has `l = 1 > u = 0` beyond tolerance. -/
theorem setData_failure_keeps_prior_activations_witness :
    (freshProb2.setDataG 0 [[1, 0, 0], [1, 1, 0]]).2
        = some (.invalidInput "(general) Lower bound is greater than upper bound.") ∧
      ((freshProb2.setDataG 0 [[1, 0, 0], [1, 1, 0]]).1.obj 0).ctrType[0]?
        = some CTR_ACTIVE_EQ ∧
      0 ∈ ((freshProb2.setDataG 0 [[1, 0, 0], [1, 1, 0]]).1.obj 0).activeList ∧
      ((freshProb2.setDataG 0 [[1, 0, 0], [1, 1, 0]]).1.obj 0).A = (freshProb2.obj 0).A := by
  obtain ⟨he, hacts, hA, -, -⟩ := setData_failure_keeps_prior_activations.1 freshProb2 0
    [[1, 0, 0], [1, 1, 0]] 1 (by decide) (by decide) (by decide) (by decide) (by decide)
    (by decide) (by decide) (by intro j hj; interval_cases j; decide)
  obtain ⟨h0a, h0b⟩ := hacts 0 (by decide) (by decide)
  exact ⟨he, h0a, h0b, hA⟩

/-! ### Anatomy of one `verifyWorkingSet` iteration -/

theorem getD_map_activeList (f : Objective → Objective)
    (hf : ∀ o, (f o).activeList = o.activeList) (l : List Objective) (i : Nat) :
    ((l.map f).getD i dummyObj).activeList = (l.getD i dummyObj).activeList := by
  simp only [List.getD, List.get?_map]
  cases hx : l.get? i with
  | none => rfl
  | some o => exact hf o

theorem getD_map_ctrType (f : Objective → Objective)
    (hf : ∀ o, (f o).ctrType = o.ctrType) (l : List Objective) (i : Nat) :
    ((l.map f).getD i dummyObj).ctrType = (l.getD i dummyObj).ctrType := by
  simp only [List.getD, List.get?_map]
  cases hx : l.get? i with
  | none => rfl
  | some o => exact hf o

theorem obj_updObj_activeList (s : LexLSIState) (oi : Nat) (f : Objective → Objective)
    (hf : ∀ o, (f o).activeList = o.activeList) (i : Nat) :
    ((s.updObj oi f).obj i).activeList = (s.obj i).activeList := by
  by_cases hi : i = oi
  · subst hi
    by_cases h : i < s.objectives.length
    · rw [obj_updObj_self s i f h, hf]
    · unfold LexLSIState.updObj
      rw [List.set_eq_of_length_le (Nat.le_of_not_lt h)]
  · rw [obj_updObj_ne s oi f i hi]

theorem obj_updObj_ctrType (s : LexLSIState) (oi : Nat) (f : Objective → Objective)
    (hf : ∀ o, (f o).ctrType = o.ctrType) (i : Nat) :
    ((s.updObj oi f).obj i).ctrType = (s.obj i).ctrType := by
  by_cases hi : i = oi
  · subst hi
    by_cases h : i < s.objectives.length
    · rw [obj_updObj_self s i f h, hf]
    · unfold LexLSIState.updObj
      rw [List.set_eq_of_length_le (Nat.le_of_not_lt h)]
  · rw [obj_updObj_ne s oi f i hi]

/-- The factorization block preserves everything except `lexlse`, `dx`,
`nFactorizations` and the objectives' `dv`. -/
theorem vwsFactorize_frame (ors : Oracles) (s : LexLSIState) :
    ((vwsFactorize ors s).2.nActivations = s.nActivations) ∧
    ((vwsFactorize ors s).2.nDeactivations = s.nDeactivations) ∧
    ((vwsFactorize ors s).2.status = s.status) ∧
    ((vwsFactorize ors s).2.nIterations = s.nIterations) ∧
    ((vwsFactorize ors s).2.parameters = s.parameters) ∧
    ((vwsFactorize ors s).2.x0_is_specified = s.x0_is_specified) ∧
    ((vwsFactorize ors s).2.objectives.length = s.objectives.length) ∧
    (∀ i, ((vwsFactorize ors s).2.obj i).activeList = (s.obj i).activeList) ∧
    (∀ i, ((vwsFactorize ors s).2.obj i).ctrType = (s.obj i).ctrType) ∧
    ((vwsFactorize ors s).2.nObj = s.nObj) ∧
    ((vwsFactorize ors s).2.nVar = s.nVar) := by
  unfold LexLSIState.vwsFactorize
  by_cases h : s.nIterations ≠ 0
  · rw [if_pos h]
    refine ⟨rfl, rfl, rfl, rfl, rfl, rfl, ?_, ?_, ?_, rfl, rfl⟩
    · show ((factorizeSolve ors s.formLexLSE).objectives.map
          fun o => o.formStep (List.zipWith (fun a b => a - b)
            (factorizeSolve ors s.formLexLSE).lexlse.xsol
            (factorizeSolve ors s.formLexLSE).x)).length = s.objectives.length
      rw [List.length_map]
      rfl
    · intro i
      show (((factorizeSolve ors s.formLexLSE).objectives.map
          fun o => o.formStep (List.zipWith (fun a b => a - b)
            (factorizeSolve ors s.formLexLSE).lexlse.xsol
            (factorizeSolve ors s.formLexLSE).x)).getD i dummyObj).activeList
        = (s.obj i).activeList
      rw [getD_map_activeList (fun o => o.formStep (List.zipWith (fun a b => a - b)
            (factorizeSolve ors s.formLexLSE).lexlse.xsol
            (factorizeSolve ors s.formLexLSE).x)) (fun o => rfl) _ i]
      rfl
    · intro i
      show (((factorizeSolve ors s.formLexLSE).objectives.map
          fun o => o.formStep (List.zipWith (fun a b => a - b)
            (factorizeSolve ors s.formLexLSE).lexlse.xsol
            (factorizeSolve ors s.formLexLSE).x)).getD i dummyObj).ctrType
        = (s.obj i).ctrType
      rw [getD_map_ctrType (fun o => o.formStep (List.zipWith (fun a b => a - b)
            (factorizeSolve ors s.formLexLSE).lexlse.xsol
            (factorizeSolve ors s.formLexLSE).x)) (fun o => rfl) _ i]
      rfl
  · rw [if_neg h]
    exact ⟨rfl, rfl, rfl, rfl, rfl, rfl, rfl, fun i => rfl, fun i => rfl, rfl, rfl⟩

/-- The `normalIteration` flag produced by the factorization block is
`iterNormal`. -/
theorem vwsFactorize_fst (ors : Oracles) (s : LexLSIState) :
    (vwsFactorize ors s).1 = s.iterNormal := by
  unfold LexLSIState.vwsFactorize LexLSIState.iterNormal
  by_cases h : s.nIterations ≠ 0
  · rw [if_pos h]
    have : (s.nIterations != 0) = true := by simpa using h
    rw [this]
    simp
  · rw [if_neg h]
    have : (s.nIterations != 0) = false := by simpa using h
    rw [this]
    simp

/-- On iteration `0` the factorization block leaves the state untouched. -/
theorem vwsFactorize_iter0 (ors : Oracles) (s : LexLSIState) (h : s.nIterations = 0) :
    (vwsFactorize ors s).2 = s := by
  unfold LexLSIState.vwsFactorize
  rw [if_neg (by simp [h])]

/-- The status returned by the (spec-modelled) cycling handler is either
`PROBLEM_SOLVED_CYCLING_HANDLING` or `TERMINATION_STATUS_UNKNOWN`; in
particular it is never `PROBLEM_SOLVED`. -/
theorem cyclingUpdate_status (s : LexLSIState) (op : OperationType)
    (id : ConstraintIdentifier) :
    (s.cyclingUpdate op id).1 = PROBLEM_SOLVED_CYCLING_HANDLING ∨
      (s.cyclingUpdate op id).1 = TERMINATION_STATUS_UNKNOWN := by
  unfold LexLSIState.cyclingUpdate
  by_cases h : (if s.cycling.history.any fun p => decide (p.2 = id ∧ p.1 ≠ op) then
      s.cycling.counter + 1 else s.cycling.counter) ≥ s.parameters.cycling_max_counter
  · rw [if_pos h]
    exact Or.inl rfl
  · rw [if_neg h]
    exact Or.inr rfl

/-- The cycling handler's state component preserves counters and working
sets (the relaxation only widens bounds). -/
theorem cyclingUpdate_frame (s : LexLSIState) (op : OperationType)
    (id : ConstraintIdentifier) :
    ((s.cyclingUpdate op id).2.nActivations = s.nActivations) ∧
    ((s.cyclingUpdate op id).2.nDeactivations = s.nDeactivations) ∧
    ((s.cyclingUpdate op id).2.nIterations = s.nIterations) ∧
    ((s.cyclingUpdate op id).2.parameters = s.parameters) ∧
    ((s.cyclingUpdate op id).2.objectives.length = s.objectives.length) ∧
    (∀ i, ((s.cyclingUpdate op id).2.obj i).activeList = (s.obj i).activeList) ∧
    (∀ i, ((s.cyclingUpdate op id).2.obj i).ctrType = (s.obj i).ctrType) ∧
    ((s.cyclingUpdate op id).2.nObj = s.nObj) ∧
    ((s.cyclingUpdate op id).2.nFactorizations = s.nFactorizations) := by
  unfold LexLSIState.cyclingUpdate
  by_cases h : (if s.cycling.history.any fun p => decide (p.2 = id ∧ p.1 ≠ op) then
      s.cycling.counter + 1 else s.cycling.counter) ≥ s.parameters.cycling_max_counter
  · rw [if_pos h]
    refine ⟨rfl, rfl, rfl, rfl, ?_, ?_, ?_, rfl, rfl⟩
    · show (s.relaxBounds id s.parameters.cycling_relax_step).objectives.length
        = s.objectives.length
      unfold LexLSIState.relaxBounds
      exact length_updObj _ _ _
    · intro i
      show ((s.relaxBounds id s.parameters.cycling_relax_step).obj i).activeList
        = (s.obj i).activeList
      unfold LexLSIState.relaxBounds
      apply obj_updObj_activeList
      intro o
      rfl
    · intro i
      show ((s.relaxBounds id s.parameters.cycling_relax_step).obj i).ctrType
        = (s.obj i).ctrType
      unfold LexLSIState.relaxBounds
      apply obj_updObj_ctrType
      intro o
      rfl
  · rw [if_neg h]
    exact ⟨rfl, rfl, rfl, rfl, rfl, fun i => rfl, fun i => rfl, rfl, rfl⟩

/-- `vwsStepLength` only changes `step_length`. -/
theorem vwsStepLength_frame (op : OperationType) (alpha : Scalar) (s : LexLSIState) :
    ((vwsStepLength op alpha s).nActivations = s.nActivations) ∧
    ((vwsStepLength op alpha s).nDeactivations = s.nDeactivations) ∧
    ((vwsStepLength op alpha s).nIterations = s.nIterations) ∧
    ((vwsStepLength op alpha s).parameters = s.parameters) ∧
    ((vwsStepLength op alpha s).objectives = s.objectives) ∧
    ((vwsStepLength op alpha s).nObj = s.nObj) ∧
    ((vwsStepLength op alpha s).nFactorizations = s.nFactorizations) ∧
    ((vwsStepLength op alpha s).status = s.status) := by
  unfold LexLSIState.vwsStepLength
  by_cases h : op = OPERATION_ADD
  · rw [if_pos h]
    exact ⟨rfl, rfl, rfl, rfl, rfl, rfl, rfl, rfl⟩
  · rw [if_neg h]
    exact ⟨rfl, rfl, rfl, rfl, rfl, rfl, rfl, rfl⟩

/-- `vwsStep` changes only `x` and the objectives' residuals. -/
theorem vwsStep_frame (alpha : Scalar) (s : LexLSIState) :
    ((vwsStep alpha s).nActivations = s.nActivations) ∧
    ((vwsStep alpha s).nDeactivations = s.nDeactivations) ∧
    ((vwsStep alpha s).nIterations = s.nIterations) ∧
    ((vwsStep alpha s).parameters = s.parameters) ∧
    ((vwsStep alpha s).objectives.length = s.objectives.length) ∧
    (∀ i, ((vwsStep alpha s).obj i).activeList = (s.obj i).activeList) ∧
    (∀ i, ((vwsStep alpha s).obj i).ctrType = (s.obj i).ctrType) ∧
    ((vwsStep alpha s).nObj = s.nObj) ∧
    ((vwsStep alpha s).nFactorizations = s.nFactorizations) ∧
    ((vwsStep alpha s).status = s.status) := by
  unfold LexLSIState.vwsStep
  by_cases h : alpha > 0
  · rw [if_pos h]
    refine ⟨rfl, rfl, rfl, rfl, by simp, ?_, ?_, rfl, rfl, rfl⟩
    · intro i
      exact getD_map_activeList (fun o => o.step alpha) (fun o => rfl) _ i
    · intro i
      exact getD_map_ctrType (fun o => o.step alpha) (fun o => rfl) _ i
  · rw [if_neg h]
    exact ⟨rfl, rfl, rfl, rfl, rfl, fun i => rfl, fun i => rfl, rfl, rfl, rfl⟩

/-- `vwsCycling` preserves counters and working sets; only the cycling
handler can change the status, and never to `PROBLEM_SOLVED`. -/
theorem vwsCycling_frame (op : OperationType) (cid : ConstraintIdentifier)
    (s : LexLSIState) :
    ((vwsCycling op cid s).nActivations = s.nActivations) ∧
    ((vwsCycling op cid s).nDeactivations = s.nDeactivations) ∧
    ((vwsCycling op cid s).nIterations = s.nIterations) ∧
    ((vwsCycling op cid s).parameters = s.parameters) ∧
    ((vwsCycling op cid s).objectives.length = s.objectives.length) ∧
    (∀ i, ((vwsCycling op cid s).obj i).activeList = (s.obj i).activeList) ∧
    (∀ i, ((vwsCycling op cid s).obj i).ctrType = (s.obj i).ctrType) ∧
    ((vwsCycling op cid s).nObj = s.nObj) ∧
    ((vwsCycling op cid s).nFactorizations = s.nFactorizations) ∧
    ((vwsCycling op cid s).status = s.status ∨
      (vwsCycling op cid s).status = TERMINATION_STATUS_UNKNOWN ∨
      (vwsCycling op cid s).status = PROBLEM_SOLVED_CYCLING_HANDLING) ∧
    (op = OPERATION_UNDEFINED → (vwsCycling op cid s).status = s.status) := by
  unfold LexLSIState.vwsCycling
  by_cases h : (s.parameters.cycling_handling_enabled && decide (op ≠ OPERATION_UNDEFINED))
      = true
  · rw [if_pos h]
    obtain ⟨c1, c2, c3, c4, c5, c6, c7, c8, c9⟩ := cyclingUpdate_frame s op cid
    refine ⟨c1, c2, c3, c4, c5, c6, c7, c8, c9, ?_, ?_⟩
    · rcases cyclingUpdate_status s op cid with hst | hst
      · right; right; exact hst
      · right; left; exact hst
    · intro hop
      exfalso
      simp [hop] at h
  · rw [if_neg h]
    exact ⟨rfl, rfl, rfl, rfl, rfl, fun i => rfl, fun i => rfl, rfl, rfl, Or.inl rfl,
      fun _ => rfl⟩

/-- The tail of an iteration (`step_length`, step, cycling handler,
`nIterations++`) preserves counters and working sets, advances
`nIterations` by one, and only the cycling handler can change the status
(never to `PROBLEM_SOLVED`). -/
theorem vwsTail_frame (op : OperationType) (cid : ConstraintIdentifier) (alpha : Scalar)
    (s : LexLSIState) :
    ((vwsTail op cid alpha s).nActivations = s.nActivations) ∧
    ((vwsTail op cid alpha s).nDeactivations = s.nDeactivations) ∧
    ((vwsTail op cid alpha s).nIterations = s.nIterations + 1) ∧
    ((vwsTail op cid alpha s).parameters = s.parameters) ∧
    ((vwsTail op cid alpha s).objectives.length = s.objectives.length) ∧
    (∀ i, ((vwsTail op cid alpha s).obj i).activeList = (s.obj i).activeList) ∧
    (∀ i, ((vwsTail op cid alpha s).obj i).ctrType = (s.obj i).ctrType) ∧
    ((vwsTail op cid alpha s).nObj = s.nObj) ∧
    ((vwsTail op cid alpha s).nFactorizations = s.nFactorizations) ∧
    ((vwsTail op cid alpha s).status = s.status ∨
      (vwsTail op cid alpha s).status = TERMINATION_STATUS_UNKNOWN ∨
      (vwsTail op cid alpha s).status = PROBLEM_SOLVED_CYCLING_HANDLING) ∧
    (op = OPERATION_UNDEFINED → (vwsTail op cid alpha s).status = s.status) := by
  obtain ⟨a1, a2, a3, a4, a5, a6, a7, a8⟩ := vwsStepLength_frame op alpha s
  obtain ⟨b1, b2, b3, b4, b5, b6, b7, b8, b9, b10⟩ :=
    vwsStep_frame alpha (vwsStepLength op alpha s)
  obtain ⟨c1, c2, c3, c4, c5, c6, c7, c8, c9, c10, c11⟩ :=
    vwsCycling_frame op cid (vwsStep alpha (vwsStepLength op alpha s))
  have ho : ∀ i, ((vwsStepLength op alpha s).obj i) = s.obj i := by
    intro i
    unfold LexLSIState.obj
    rw [a5]
  refine ⟨?_, ?_, ?_, ?_, ?_, ?_, ?_, ?_, ?_, ?_, ?_⟩
  · show (vwsCycling op cid (vwsStep alpha (vwsStepLength op alpha s))).nActivations
      = s.nActivations
    rw [c1, b1, a1]
  · show (vwsCycling op cid (vwsStep alpha (vwsStepLength op alpha s))).nDeactivations
      = s.nDeactivations
    rw [c2, b2, a2]
  · show (vwsCycling op cid (vwsStep alpha (vwsStepLength op alpha s))).nIterations + 1
      = s.nIterations + 1
    rw [c3, b3, a3]
  · show (vwsCycling op cid (vwsStep alpha (vwsStepLength op alpha s))).parameters
      = s.parameters
    rw [c4, b4, a4]
  · show (vwsCycling op cid (vwsStep alpha (vwsStepLength op alpha s))).objectives.length
      = s.objectives.length
    rw [c5, b5, a5]
  · intro i
    show ((vwsCycling op cid (vwsStep alpha (vwsStepLength op alpha s))).obj i).activeList
      = (s.obj i).activeList
    rw [c6 i, b6 i, ho i]
  · intro i
    show ((vwsCycling op cid (vwsStep alpha (vwsStepLength op alpha s))).obj i).ctrType
      = (s.obj i).ctrType
    rw [c7 i, b7 i, ho i]
  · show (vwsCycling op cid (vwsStep alpha (vwsStepLength op alpha s))).nObj = s.nObj
    rw [c8, b8, a6]
  · show (vwsCycling op cid (vwsStep alpha (vwsStepLength op alpha s))).nFactorizations
      = s.nFactorizations
    rw [c9, b9, a7]
  · show (vwsCycling op cid (vwsStep alpha (vwsStepLength op alpha s))).status = s.status ∨
      (vwsCycling op cid (vwsStep alpha (vwsStepLength op alpha s))).status
        = TERMINATION_STATUS_UNKNOWN ∨
      (vwsCycling op cid (vwsStep alpha (vwsStepLength op alpha s))).status
        = PROBLEM_SOLVED_CYCLING_HANDLING
    rcases c10 with hc | hc | hc
    · left
      rw [hc, b10, a8]
    · right; left; exact hc
    · right; right; exact hc
  · intro hop
    show (vwsCycling op cid (vwsStep alpha (vwsStepLength op alpha s))).status = s.status
    rw [c11 hop, b10, a8]

/-- A blocking candidate, once set, is never cleared by the rest of the
scan. -/
theorem blockingScan_some_stays
    (bo : Objective → Scalar → Scalar → Option (Nat × ConstraintActivationType × Scalar))
    (tol : Scalar) :
    ∀ (l : List Objective) (i : Nat) (x : Nat × Nat × ConstraintActivationType) (a : Scalar),
      (blockingScan bo tol l i (some x) a).1 ≠ none := by
  intro l
  induction l with
  | nil =>
      intro i x a h
      exact absurd h (by simp [blockingScan])
  | cons o rest ih =>
      intro i x a
      rcases hb : bo o tol a with _ | ⟨c, t, a1⟩
      · rw [show blockingScan bo tol (o :: rest) i (some x) a
            = blockingScan bo tol rest (i + 1) (some x) a by simp [blockingScan, hb]]
        exact ih (i + 1) x a
      · rw [show blockingScan bo tol (o :: rest) i (some x) a
            = blockingScan bo tol rest (i + 1) (some (i, c, t)) a1 by simp [blockingScan, hb]]
        exact ih (i + 1) (i, c, t) a1

/-- When the scan reports no candidate, `alpha` is unchanged. -/
theorem blockingScan_none_alpha
    (bo : Objective → Scalar → Scalar → Option (Nat × ConstraintActivationType × Scalar))
    (tol : Scalar) :
    ∀ (l : List Objective) (i : Nat) (a : Scalar),
      (blockingScan bo tol l i none a).1 = none → (blockingScan bo tol l i none a).2 = a := by
  intro l
  induction l with
  | nil => intro i a _; rfl
  | cons o rest ih =>
      intro i a h
      rcases hb : bo o tol a with _ | ⟨c, t, a1⟩
      · rw [show blockingScan bo tol (o :: rest) i none a
            = blockingScan bo tol rest (i + 1) none a by simp [blockingScan, hb]] at h ⊢
        exact ih (i + 1) a h
      · rw [show blockingScan bo tol (o :: rest) i none a
            = blockingScan bo tol rest (i + 1) (some (i, c, t)) a1 by simp [blockingScan, hb]]
          at h
        exact absurd h (blockingScan_some_stays bo tol rest (i + 1) (i, c, t) a1)

/-- The reported blocking objective index lies in the scanned range. -/
theorem blockingScan_cand_bound
    (bo : Objective → Scalar → Scalar → Option (Nat × ConstraintActivationType × Scalar))
    (tol : Scalar) :
    ∀ (l : List Objective) (i : Nat) (cand : Option (Nat × Nat × ConstraintActivationType))
      (a : Scalar) (j ci : Nat) (t : ConstraintActivationType),
      (blockingScan bo tol l i cand a).1 = some (j, ci, t) →
      cand = some (j, ci, t) ∨ (i ≤ j ∧ j < i + l.length) := by
  intro l
  induction l with
  | nil =>
      intro i cand a j ci t h
      exact Or.inl h
  | cons o rest ih =>
      intro i cand a j ci t h
      rcases hb : bo o tol a with _ | ⟨c1, t1, a1⟩
      · rw [show blockingScan bo tol (o :: rest) i cand a
            = blockingScan bo tol rest (i + 1) cand a by simp [blockingScan, hb]] at h
        rcases ih (i + 1) cand a j ci t h with h1 | h1
        · exact Or.inl h1
        · right
          simp only [List.length_cons]
          omega
      · rw [show blockingScan bo tol (o :: rest) i cand a
            = blockingScan bo tol rest (i + 1) (some (i, c1, t1)) a1
            by simp [blockingScan, hb]] at h
        rcases ih (i + 1) (some (i, c1, t1)) a1 j ci t h with h1 | h1
        · right
          have : i = j := by
            have := h1
            simp only [Option.some.injEq, Prod.mk.injEq] at this
            exact this.1
          simp only [List.length_cons]
          omega
        · right
          simp only [List.length_cons]
          omega

/-- With a well-behaved blocking oracle the scanned `alpha` never
increases. -/
theorem blockingScan_alpha_le
    (bo : Objective → Scalar → Scalar → Option (Nat × ConstraintActivationType × Scalar))
    (tol : Scalar) (hw : BlockingWB bo) :
    ∀ (l : List Objective) (i : Nat) (cand : Option (Nat × Nat × ConstraintActivationType))
      (a : Scalar), (blockingScan bo tol l i cand a).2 ≤ a := by
  intro l
  induction l with
  | nil => intro i cand a; exact le_refl a
  | cons o rest ih =>
      intro i cand a
      rcases hb : bo o tol a with _ | ⟨c1, t1, a1⟩
      · rw [show blockingScan bo tol (o :: rest) i cand a
            = blockingScan bo tol rest (i + 1) cand a by simp [blockingScan, hb]]
        exact ih (i + 1) cand a
      · rw [show blockingScan bo tol (o :: rest) i cand a
            = blockingScan bo tol rest (i + 1) (some (i, c1, t1)) a1
            by simp [blockingScan, hb]]
        exact le_of_lt (lt_of_le_of_lt (ih (i + 1) _ a1) (hw o tol a c1 t1 a1 hb).2)

/-- `checkBlockingAll` without a candidate leaves `alpha = 1`. -/
theorem checkBlockingAll_none (ors : Oracles) (s : LexLSIState)
    (h : (s.checkBlockingAll ors).1 = none) : (s.checkBlockingAll ors).2 = 1 :=
  blockingScan_none_alpha ors.blocking s.parameters.tol_feasibility s.objectives 0 1 h

/-- A reported blocking candidate names an existing objective. -/
theorem checkBlockingAll_bound (ors : Oracles) (s : LexLSIState)
    (j ci : Nat) (t : ConstraintActivationType)
    (h : (s.checkBlockingAll ors).1 = some (j, ci, t)) : j < s.objectives.length := by
  rcases blockingScan_cand_bound ors.blocking s.parameters.tol_feasibility s.objectives 0
      none 1 j ci t h with h1 | h1
  · exact absurd h1 (by simp)
  · omega

/-- Exhaustive case analysis of the ADD / REMOVE / solved / skipped
decision of `verifyWorkingSet`. -/
theorem vwsDecide_cases (ors : Oracles) (normal : Bool)
    (cand : Option (Nat × Nat × ConstraintActivationType)) (alpha : Scalar)
    (s : LexLSIState) :
    (∃ oi ci t, cand = some (oi, ci, t) ∧ alpha < 1 ∧
      vwsDecide ors normal cand alpha s
        = (OPERATION_ADD, (⟨oi, ci, t⟩ : ConstraintIdentifier), s.activate oi ci t true)) ∨
    ((cand = none ∨ ¬ alpha < 1) ∧ normal = true ∧ (∃ oi k,
      s.findActiveCtr2Remove ors = some (oi, k) ∧
      (vwsDecide ors normal cand alpha s).1 = OPERATION_REMOVE ∧
      (vwsDecide ors normal cand alpha s).2.2 = s.deactivate oi k)) ∨
    ((cand = none ∨ ¬ alpha < 1) ∧ normal = true ∧ s.findActiveCtr2Remove ors = none ∧
      vwsDecide ors normal cand alpha s
        = (OPERATION_UNDEFINED, ⟨0, 0, CTR_INACTIVE⟩, { s with status := PROBLEM_SOLVED })) ∨
    ((cand = none ∨ ¬ alpha < 1) ∧ normal = false ∧
      vwsDecide ors normal cand alpha s = (OPERATION_UNDEFINED, ⟨0, 0, CTR_INACTIVE⟩, s)) := by
  rcases hcand : cand with _ | ⟨oi, ci, t⟩
  · cases hn : normal with
    | true =>
        rcases hr : s.findActiveCtr2Remove ors with _ | ⟨oi, k⟩
        · right; right; left
          exact ⟨Or.inl rfl, rfl, rfl, by simp [LexLSIState.vwsDecide, vwsNoAdd, hr]⟩
        · right; left
          exact ⟨Or.inl rfl, rfl, oi, k, rfl,
            by simp [LexLSIState.vwsDecide, vwsNoAdd, hr],
            by simp [LexLSIState.vwsDecide, vwsNoAdd, hr]⟩
    | false =>
        right; right; right
        exact ⟨Or.inl rfl, rfl, by simp [LexLSIState.vwsDecide, vwsNoAdd]⟩
  · by_cases ha : alpha < 1
    · left
      exact ⟨oi, ci, t, rfl, ha, by simp [LexLSIState.vwsDecide, ha]⟩
    · cases hn : normal with
      | true =>
          rcases hr : s.findActiveCtr2Remove ors with _ | ⟨oi1, k⟩
          · right; right; left
            exact ⟨Or.inr ha, rfl, rfl, by simp [LexLSIState.vwsDecide, vwsNoAdd, ha, hr]⟩
          · right; left
            exact ⟨Or.inr ha, rfl, oi1, k, rfl,
              by simp [LexLSIState.vwsDecide, vwsNoAdd, ha, hr],
              by simp [LexLSIState.vwsDecide, vwsNoAdd, ha, hr]⟩
      | false =>
          right; right; right
          exact ⟨Or.inr ha, rfl, by simp [LexLSIState.vwsDecide, vwsNoAdd, ha]⟩

/-- `verifyWorkingSet` decomposed into its three stages. -/
theorem verifyWorkingSet_eq (ors : Oracles) (s : LexLSIState) :
    s.verifyWorkingSet ors
      = ((vwsDecide ors (vwsFactorize ors s).1
            ((vwsFactorize ors s).2.checkBlockingAll ors).1
            ((vwsFactorize ors s).2.checkBlockingAll ors).2
            (vwsFactorize ors s).2).1,
         vwsTail
           (vwsDecide ors (vwsFactorize ors s).1
              ((vwsFactorize ors s).2.checkBlockingAll ors).1
              ((vwsFactorize ors s).2.checkBlockingAll ors).2
              (vwsFactorize ors s).2).1
           (vwsDecide ors (vwsFactorize ors s).1
              ((vwsFactorize ors s).2.checkBlockingAll ors).1
              ((vwsFactorize ors s).2.checkBlockingAll ors).2
              (vwsFactorize ors s).2).2.1
           ((vwsFactorize ors s).2.checkBlockingAll ors).2
           (vwsDecide ors (vwsFactorize ors s).1
              ((vwsFactorize ors s).2.checkBlockingAll ors).1
              ((vwsFactorize ors s).2.checkBlockingAll ors).2
              (vwsFactorize ors s).2).2.2) := by
  unfold LexLSIState.verifyWorkingSet
  rcases hf : vwsFactorize ors s with ⟨n1, t1⟩
  rcases hb : t1.checkBlockingAll ors with ⟨cand, alpha⟩
  rcases hd : vwsDecide ors n1 cand alpha t1 with ⟨op, cid, t2⟩
  show (match t1.checkBlockingAll ors with
    | (cand, alpha) =>
      match vwsDecide ors n1 cand alpha t1 with
      | (operation, cid, s) => (operation, vwsTail operation cid alpha s)) = _
  rw [hb]
  show (match vwsDecide ors n1 cand alpha t1 with
    | (operation, cid, s) => (operation, vwsTail operation cid alpha s)) = _
  rw [hd]

/-- `Objective.deactivate` always removes the `k`-th working-set entry
(out of range, both sides are no-ops). -/
theorem deactivate_activeList (o : Objective) (k : Nat) :
    (o.deactivate k).activeList = o.activeList.eraseIdx k := by
  unfold Objective.deactivate
  cases hg : o.activeList.get? k with
  | some row => rfl
  | none =>
      show o.activeList = o.activeList.eraseIdx k
      exact (List.eraseIdx_eq_self.mpr (List.get?_eq_none.mp hg)).symm

/-- Two states with the same number of objectives and the same per-index
active lists have the same `activeListsOf`. -/
theorem activeListsOf_ext (s t : LexLSIState)
    (hl : t.objectives.length = s.objectives.length)
    (h : ∀ i, (t.obj i).activeList = (s.obj i).activeList) :
    activeListsOf t = activeListsOf s := by
  apply List.ext_getElem
  · simp [activeListsOf, hl]
  · intro i h1 h2
    simp only [activeListsOf, List.getElem_map]
    have hi := h i
    unfold LexLSIState.obj at hi
    rw [List.getD_eq_getElem t.objectives dummyObj (by simpa [activeListsOf] using h1),
      List.getD_eq_getElem s.objectives dummyObj (by simpa [activeListsOf] using h2)] at hi
    exact hi

/-- Activation with counting appends one entry to the working set of the
named objective. -/
theorem activeListsOf_activate (s : LexLSIState) (oi ci : Nat)
    (t : ConstraintActivationType) :
    activeListsOf (s.activate oi ci t true)
      = (activeListsOf s).set oi ((s.obj oi).activeList ++ [ci]) := by
  show ((s.objectives.set oi ((s.obj oi).activate ci t)).map fun o => o.activeList)
    = (activeListsOf s).set oi ((s.obj oi).activeList ++ [ci])
  rw [List.map_set]
  rfl

/-- Deactivation erases one working-set entry of the named objective. -/
theorem activeListsOf_deactivate (s : LexLSIState) (oi k : Nat) :
    activeListsOf (s.deactivate oi k)
      = (activeListsOf s).set oi ((s.obj oi).activeList.eraseIdx k) := by
  show ((s.objectives.set oi ((s.obj oi).deactivate k)).map fun o => o.activeList)
    = (activeListsOf s).set oi ((s.obj oi).activeList.eraseIdx k)
  rw [List.map_set, deactivate_activeList]
  rfl

/-- **C4.**  One call of `verifyWorkingSet` performs at most one
working-set operation: on `OPERATION_ADD` exactly one constraint is
appended to one objective's working set (`nActivations` + 1,
`nDeactivations` unchanged); on `OPERATION_REMOVE` exactly one working-set
entry is erased (`nDeactivations` + 1, `nActivations` unchanged); on
`OPERATION_UNDEFINED` every working set and both counters are unchanged.
Whenever the blocking check of the iteration leaves `alpha < 1`, the
operation is `OPERATION_ADD` (ADD takes precedence: no removal is
considered). -/
theorem verify_single_operation (ors : Oracles) (s : LexLSIState) :
    ((s.verifyWorkingSet ors).1 = OPERATION_ADD →
      (s.verifyWorkingSet ors).2.nActivations = s.nActivations + 1 ∧
      (s.verifyWorkingSet ors).2.nDeactivations = s.nDeactivations ∧
      ∃ i row, i < s.objectives.length ∧
        activeListsOf (s.verifyWorkingSet ors).2
          = (activeListsOf s).set i ((s.obj i).activeList ++ [row])) ∧
    ((s.verifyWorkingSet ors).1 = OPERATION_REMOVE →
      (s.verifyWorkingSet ors).2.nDeactivations = s.nDeactivations + 1 ∧
      (s.verifyWorkingSet ors).2.nActivations = s.nActivations ∧
      ∃ i k, activeListsOf (s.verifyWorkingSet ors).2
          = (activeListsOf s).set i ((s.obj i).activeList.eraseIdx k)) ∧
    ((s.verifyWorkingSet ors).1 = OPERATION_UNDEFINED →
      (s.verifyWorkingSet ors).2.nActivations = s.nActivations ∧
      (s.verifyWorkingSet ors).2.nDeactivations = s.nDeactivations ∧
      activeListsOf (s.verifyWorkingSet ors).2 = activeListsOf s) ∧
    (s.iterAlpha ors < 1 → (s.verifyWorkingSet ors).1 = OPERATION_ADD) := by
  obtain ⟨fA, fD, -, -, -, -, fL, fAc, -, -, -⟩ := vwsFactorize_frame ors s
  have hup : activeListsOf (vwsFactorize ors s).2 = activeListsOf s :=
    activeListsOf_ext s (vwsFactorize ors s).2 fL fAc
  rw [verifyWorkingSet_eq ors s]
  set F := (vwsFactorize ors s).2 with hF
  set N := (vwsFactorize ors s).1 with hN
  set A := (F.checkBlockingAll ors).2 with hA
  set C := (F.checkBlockingAll ors).1 with hC
  rcases vwsDecide_cases ors N C A F with
    ⟨oi, ci, t, hcand, ha, hd⟩ | ⟨hno, -, oi, k, hr, hd1, hd2⟩ |
    ⟨hno, -, -, hd⟩ | ⟨hno, -, hd⟩
  · -- ADD
    rw [hd]
    obtain ⟨tA, tD, -, -, tL, tAc, -, -, -, -, -⟩ :=
      vwsTail_frame OPERATION_ADD ⟨oi, ci, t⟩ A (F.activate oi ci t true)
    refine ⟨?_, ?_, ?_, ?_⟩
    · intro _
      refine ⟨?_, ?_, ?_⟩
      · rw [show ((OPERATION_ADD, (⟨oi, ci, t⟩ : ConstraintIdentifier),
            F.activate oi ci t true).1,
            vwsTail (OPERATION_ADD, (⟨oi, ci, t⟩ : ConstraintIdentifier),
              F.activate oi ci t true).1
              (OPERATION_ADD, (⟨oi, ci, t⟩ : ConstraintIdentifier),
                F.activate oi ci t true).2.1 A
              (OPERATION_ADD, (⟨oi, ci, t⟩ : ConstraintIdentifier),
                F.activate oi ci t true).2.2).2
            = vwsTail OPERATION_ADD ⟨oi, ci, t⟩ A (F.activate oi ci t true) from rfl, tA]
        show F.nActivations + 1 = s.nActivations + 1
        rw [fA]
      · rw [show ((OPERATION_ADD, (⟨oi, ci, t⟩ : ConstraintIdentifier),
            F.activate oi ci t true).1,
            vwsTail (OPERATION_ADD, (⟨oi, ci, t⟩ : ConstraintIdentifier),
              F.activate oi ci t true).1
              (OPERATION_ADD, (⟨oi, ci, t⟩ : ConstraintIdentifier),
                F.activate oi ci t true).2.1 A
              (OPERATION_ADD, (⟨oi, ci, t⟩ : ConstraintIdentifier),
                F.activate oi ci t true).2.2).2
            = vwsTail OPERATION_ADD ⟨oi, ci, t⟩ A (F.activate oi ci t true) from rfl, tD]
        show F.nDeactivations = s.nDeactivations
        rw [fD]
      · refine ⟨oi, ci, ?_, ?_⟩
        · have := checkBlockingAll_bound ors F oi ci t hcand
          omega
        · rw [show ((OPERATION_ADD, (⟨oi, ci, t⟩ : ConstraintIdentifier),
              F.activate oi ci t true).1,
              vwsTail (OPERATION_ADD, (⟨oi, ci, t⟩ : ConstraintIdentifier),
                F.activate oi ci t true).1
                (OPERATION_ADD, (⟨oi, ci, t⟩ : ConstraintIdentifier),
                  F.activate oi ci t true).2.1 A
                (OPERATION_ADD, (⟨oi, ci, t⟩ : ConstraintIdentifier),
                  F.activate oi ci t true).2.2).2
              = vwsTail OPERATION_ADD ⟨oi, ci, t⟩ A (F.activate oi ci t true) from rfl]
          rw [activeListsOf_ext _ _ tL tAc, activeListsOf_activate, hup, fAc oi]
    · intro h
      simp at h
    · intro h
      simp at h
    · intro _
      rfl
  · -- REMOVE
    have hop : (vwsDecide ors N C A F).1 = OPERATION_REMOVE := hd1
    refine ⟨?_, ?_, ?_, ?_⟩
    · intro h
      simp only [] at h
      rw [hop] at h
      simp at h
    · intro _
      obtain ⟨tA, tD, -, -, tL, tAc, -, -, -, -, -⟩ :=
        vwsTail_frame (vwsDecide ors N C A F).1 (vwsDecide ors N C A F).2.1 A
          (vwsDecide ors N C A F).2.2
      refine ⟨?_, ?_, ?_⟩
      · show (vwsTail (vwsDecide ors N C A F).1 (vwsDecide ors N C A F).2.1 A
            (vwsDecide ors N C A F).2.2).nDeactivations = s.nDeactivations + 1
        rw [tD, hd2]
        show F.nDeactivations + 1 = s.nDeactivations + 1
        rw [fD]
      · show (vwsTail (vwsDecide ors N C A F).1 (vwsDecide ors N C A F).2.1 A
            (vwsDecide ors N C A F).2.2).nActivations = s.nActivations
        rw [tA, hd2]
        show F.nActivations = s.nActivations
        rw [fA]
      · refine ⟨oi, k, ?_⟩
        show activeListsOf (vwsTail (vwsDecide ors N C A F).1 (vwsDecide ors N C A F).2.1 A
            (vwsDecide ors N C A F).2.2) = _
        rw [activeListsOf_ext _ _ tL tAc, hd2, activeListsOf_deactivate, hup, fAc oi]
    · intro h
      simp only [] at h
      rw [hop] at h
      simp at h
    · intro ha
      rcases hno with hno | hno
      · have h1 : A = 1 := checkBlockingAll_none ors F hno
        have ha2 : A < 1 := ha
        rw [h1] at ha2
        exact absurd ha2 (by norm_num)
      · exact absurd (show A < 1 from ha) hno
  · -- no removal candidate: PROBLEM_SOLVED
    rw [hd]
    obtain ⟨tA, tD, -, -, tL, tAc, -, -, -, -, -⟩ :=
      vwsTail_frame OPERATION_UNDEFINED ⟨0, 0, CTR_INACTIVE⟩ A
        { F with status := PROBLEM_SOLVED }
    refine ⟨?_, ?_, ?_, ?_⟩
    · intro h
      simp at h
    · intro h
      simp at h
    · intro _
      refine ⟨?_, ?_, ?_⟩
      · rw [show ((OPERATION_UNDEFINED, (⟨0, 0, CTR_INACTIVE⟩ : ConstraintIdentifier),
            { F with status := PROBLEM_SOLVED }).1,
            vwsTail (OPERATION_UNDEFINED, (⟨0, 0, CTR_INACTIVE⟩ : ConstraintIdentifier),
              { F with status := PROBLEM_SOLVED }).1
              (OPERATION_UNDEFINED, (⟨0, 0, CTR_INACTIVE⟩ : ConstraintIdentifier),
                { F with status := PROBLEM_SOLVED }).2.1 A
              (OPERATION_UNDEFINED, (⟨0, 0, CTR_INACTIVE⟩ : ConstraintIdentifier),
                { F with status := PROBLEM_SOLVED }).2.2).2
            = vwsTail OPERATION_UNDEFINED ⟨0, 0, CTR_INACTIVE⟩ A
                { F with status := PROBLEM_SOLVED } from rfl, tA]
        show F.nActivations = s.nActivations
        rw [fA]
      · rw [show ((OPERATION_UNDEFINED, (⟨0, 0, CTR_INACTIVE⟩ : ConstraintIdentifier),
            { F with status := PROBLEM_SOLVED }).1,
            vwsTail (OPERATION_UNDEFINED, (⟨0, 0, CTR_INACTIVE⟩ : ConstraintIdentifier),
              { F with status := PROBLEM_SOLVED }).1
              (OPERATION_UNDEFINED, (⟨0, 0, CTR_INACTIVE⟩ : ConstraintIdentifier),
                { F with status := PROBLEM_SOLVED }).2.1 A
              (OPERATION_UNDEFINED, (⟨0, 0, CTR_INACTIVE⟩ : ConstraintIdentifier),
                { F with status := PROBLEM_SOLVED }).2.2).2
            = vwsTail OPERATION_UNDEFINED ⟨0, 0, CTR_INACTIVE⟩ A
                { F with status := PROBLEM_SOLVED } from rfl, tD]
        show F.nDeactivations = s.nDeactivations
        rw [fD]
      · rw [show ((OPERATION_UNDEFINED, (⟨0, 0, CTR_INACTIVE⟩ : ConstraintIdentifier),
            { F with status := PROBLEM_SOLVED }).1,
            vwsTail (OPERATION_UNDEFINED, (⟨0, 0, CTR_INACTIVE⟩ : ConstraintIdentifier),
              { F with status := PROBLEM_SOLVED }).1
              (OPERATION_UNDEFINED, (⟨0, 0, CTR_INACTIVE⟩ : ConstraintIdentifier),
                { F with status := PROBLEM_SOLVED }).2.1 A
              (OPERATION_UNDEFINED, (⟨0, 0, CTR_INACTIVE⟩ : ConstraintIdentifier),
                { F with status := PROBLEM_SOLVED }).2.2).2
            = vwsTail OPERATION_UNDEFINED ⟨0, 0, CTR_INACTIVE⟩ A
                { F with status := PROBLEM_SOLVED } from rfl]
        rw [activeListsOf_ext _ _ tL tAc]
        show activeListsOf F = activeListsOf s
        rw [hup]
    · intro ha
      rcases hno with hno | hno
      · have h1 : A = 1 := checkBlockingAll_none ors F hno
        have ha2 : A < 1 := ha
        rw [h1] at ha2
        exact absurd ha2 (by norm_num)
      · exact absurd (show A < 1 from ha) hno
  · -- skipped iteration
    rw [hd]
    obtain ⟨tA, tD, -, -, tL, tAc, -, -, -, -, -⟩ :=
      vwsTail_frame OPERATION_UNDEFINED ⟨0, 0, CTR_INACTIVE⟩ A F
    refine ⟨?_, ?_, ?_, ?_⟩
    · intro h
      simp at h
    · intro h
      simp at h
    · intro _
      refine ⟨?_, ?_, ?_⟩
      · rw [show ((OPERATION_UNDEFINED, (⟨0, 0, CTR_INACTIVE⟩ : ConstraintIdentifier), F).1,
            vwsTail (OPERATION_UNDEFINED,
                (⟨0, 0, CTR_INACTIVE⟩ : ConstraintIdentifier), F).1
              (OPERATION_UNDEFINED, (⟨0, 0, CTR_INACTIVE⟩ : ConstraintIdentifier), F).2.1 A
              (OPERATION_UNDEFINED,
                (⟨0, 0, CTR_INACTIVE⟩ : ConstraintIdentifier), F).2.2).2
            = vwsTail OPERATION_UNDEFINED ⟨0, 0, CTR_INACTIVE⟩ A F from rfl, tA, fA]
      · rw [show ((OPERATION_UNDEFINED, (⟨0, 0, CTR_INACTIVE⟩ : ConstraintIdentifier), F).1,
            vwsTail (OPERATION_UNDEFINED,
                (⟨0, 0, CTR_INACTIVE⟩ : ConstraintIdentifier), F).1
              (OPERATION_UNDEFINED, (⟨0, 0, CTR_INACTIVE⟩ : ConstraintIdentifier), F).2.1 A
              (OPERATION_UNDEFINED,
                (⟨0, 0, CTR_INACTIVE⟩ : ConstraintIdentifier), F).2.2).2
            = vwsTail OPERATION_UNDEFINED ⟨0, 0, CTR_INACTIVE⟩ A F from rfl, tD, fD]
      · rw [show ((OPERATION_UNDEFINED, (⟨0, 0, CTR_INACTIVE⟩ : ConstraintIdentifier), F).1,
            vwsTail (OPERATION_UNDEFINED,
                (⟨0, 0, CTR_INACTIVE⟩ : ConstraintIdentifier), F).1
              (OPERATION_UNDEFINED, (⟨0, 0, CTR_INACTIVE⟩ : ConstraintIdentifier), F).2.1 A
              (OPERATION_UNDEFINED,
                (⟨0, 0, CTR_INACTIVE⟩ : ConstraintIdentifier), F).2.2).2
            = vwsTail OPERATION_UNDEFINED ⟨0, 0, CTR_INACTIVE⟩ A F from rfl]
        rw [activeListsOf_ext _ _ tL tAc, hup]
    · intro ha
      rcases hno with hno | hno
      · have h1 : A = 1 := checkBlockingAll_none ors F hno
        have ha2 : A < 1 := ha
        rw [h1] at ha2
        exact absurd ha2 (by norm_num)
      · exact absurd (show A < 1 from ha) hno

/-- **C4 witness.**  The theorem applied to the equality problem with an
oracle that reports a blocking constraint at `alpha = 1/2`. -/
theorem verify_single_operation_witness :
    (eqProb.verifyWorkingSet addOracles).2.nActivations = eqProb.nActivations + 1 ∧
      (eqProb.verifyWorkingSet addOracles).1 = OPERATION_ADD := by
  have h := verify_single_operation addOracles eqProb
  have hadd : (eqProb.verifyWorkingSet addOracles).1 = OPERATION_ADD :=
    h.2.2.2 (by decide)
  exact ⟨(h.1 hadd).1, hadd⟩

/-- The iteration tail never touches `dx` or the assembled LexLSE data. -/
theorem vwsTail_dx_lexlse (op : OperationType) (cid : ConstraintIdentifier)
    (alpha : Scalar) (s : LexLSIState) :
    (vwsTail op cid alpha s).dx = s.dx ∧ (vwsTail op cid alpha s).lexlse = s.lexlse := by
  have h1 : ∀ t : LexLSIState, (vwsStepLength op alpha t).dx = t.dx ∧
      (vwsStepLength op alpha t).lexlse = t.lexlse := by
    intro t
    unfold LexLSIState.vwsStepLength
    by_cases h : op = OPERATION_ADD
    · rw [if_pos h]; exact ⟨rfl, rfl⟩
    · rw [if_neg h]; exact ⟨rfl, rfl⟩
  have h2 : ∀ t : LexLSIState, (vwsStep alpha t).dx = t.dx ∧
      (vwsStep alpha t).lexlse = t.lexlse := by
    intro t
    unfold LexLSIState.vwsStep
    by_cases h : alpha > 0
    · rw [if_pos h]; exact ⟨rfl, rfl⟩
    · rw [if_neg h]; exact ⟨rfl, rfl⟩
  have h3 : ∀ t : LexLSIState, (vwsCycling op cid t).dx = t.dx ∧
      (vwsCycling op cid t).lexlse = t.lexlse := by
    intro t
    unfold LexLSIState.vwsCycling
    by_cases h : (t.parameters.cycling_handling_enabled
        && decide (op ≠ OPERATION_UNDEFINED)) = true
    · rw [if_pos h]
      unfold LexLSIState.cyclingUpdate
      by_cases h2 : (if t.cycling.history.any fun p => decide (p.2 = cid ∧ p.1 ≠ op) then
          t.cycling.counter + 1 else t.cycling.counter) ≥ t.parameters.cycling_max_counter
      · rw [if_pos h2]
        exact ⟨rfl, rfl⟩
      · rw [if_neg h2]
        exact ⟨rfl, rfl⟩
    · rw [if_neg h]
      exact ⟨rfl, rfl⟩
  constructor
  · show (vwsCycling op cid (vwsStep alpha (vwsStepLength op alpha s))).dx = s.dx
    rw [(h3 _).1, (h2 _).1, (h1 _).1]
  · show (vwsCycling op cid (vwsStep alpha (vwsStepLength op alpha s))).lexlse = s.lexlse
    rw [(h3 _).2, (h2 _).2, (h1 _).2]

/-- **C5 counterexample.**  On iteration `0` with a user-supplied `x0`,
even when the sensitivity oracle reports a removal candidate
(`findActiveCtr2Remove` would return `some (0, 0)`), `verifyWorkingSet`
performs no removal at all — the operation is `OPERATION_UNDEFINED`, no
deactivation is counted, and the working set is unchanged.  This refutes
the claim that "a constraint removal is evaluated against the
user-provided iterate" in that iteration. -/
theorem x0_iteration_skips_removal :
    eqProbX0.findActiveCtr2Remove sensOracles = some (0, 0) ∧
      (eqProbX0.verifyWorkingSet sensOracles).1 = OPERATION_UNDEFINED ∧
      (eqProbX0.verifyWorkingSet sensOracles).2.nDeactivations = eqProbX0.nDeactivations ∧
      activeListsOf (eqProbX0.verifyWorkingSet sensOracles).2 = activeListsOf eqProbX0 ∧
      (eqProbX0.verifyWorkingSet sensOracles).2.status = TERMINATION_STATUS_UNKNOWN := by
  exact ⟨by decide, by decide, by decide, by decide, by decide⟩

/-- **C5 (amended).**  If `set_x0` was called (and the status is still
`TERMINATION_STATUS_UNKNOWN`), then on iteration `0` the solver does not
re-assemble or re-factorize LexLSE (`nFactorizations` and the `lexlse`
data are unchanged) and does not recompute the step direction (`dx` is
the one inherited from phase 1); the blocking-constraint check *is*
evaluated against the user-provided iterate (a constraint is added iff it
leaves `alpha < 1`), but — contrary to the claim — no constraint removal
is ever considered in that iteration, and `PROBLEM_SOLVED` cannot be
declared in it. -/
theorem x0_first_iteration_blocking_only (ors : Oracles) (s : LexLSIState)
    (h0 : s.nIterations = 0) (hx : s.x0_is_specified = true)
    (hs : s.status = TERMINATION_STATUS_UNKNOWN) :
    (s.verifyWorkingSet ors).2.nFactorizations = s.nFactorizations ∧
    (s.verifyWorkingSet ors).2.lexlse = s.lexlse ∧
    (s.verifyWorkingSet ors).2.dx = s.dx ∧
    (s.verifyWorkingSet ors).1 ≠ OPERATION_REMOVE ∧
    (s.verifyWorkingSet ors).2.nDeactivations = s.nDeactivations ∧
    (s.verifyWorkingSet ors).2.status ≠ PROBLEM_SOLVED ∧
    ((s.verifyWorkingSet ors).1 = OPERATION_ADD ↔ (s.checkBlockingAll ors).2 < 1) := by
  have hf0 : (vwsFactorize ors s).2 = s := vwsFactorize_iter0 ors s h0
  have hn : (vwsFactorize ors s).1 = false := by
    rw [vwsFactorize_fst]
    unfold LexLSIState.iterNormal
    rw [h0, hx]
    rfl
  rw [verifyWorkingSet_eq ors s, hf0, hn]
  rcases vwsDecide_cases ors false (s.checkBlockingAll ors).1 (s.checkBlockingAll ors).2 s
    with ⟨oi, ci, t, hcand, ha, hd⟩ | ⟨-, hfalse, -⟩ | ⟨-, hfalse, -, -⟩ | ⟨hno, -, hd⟩
  · -- a blocking constraint is added
    rw [hd]
    obtain ⟨-, tD, -, -, -, -, -, -, tF, tS, -⟩ :=
      vwsTail_frame OPERATION_ADD ⟨oi, ci, t⟩ (s.checkBlockingAll ors).2
        (s.activate oi ci t true)
    obtain ⟨tdx, tlex⟩ :=
      vwsTail_dx_lexlse OPERATION_ADD ⟨oi, ci, t⟩ (s.checkBlockingAll ors).2
        (s.activate oi ci t true)
    refine ⟨?_, ?_, ?_, ?_, ?_, ?_, ?_⟩
    · show (vwsTail OPERATION_ADD ⟨oi, ci, t⟩ (s.checkBlockingAll ors).2
          (s.activate oi ci t true)).nFactorizations = s.nFactorizations
      rw [tF]
      rfl
    · show (vwsTail OPERATION_ADD ⟨oi, ci, t⟩ (s.checkBlockingAll ors).2
          (s.activate oi ci t true)).lexlse = s.lexlse
      rw [tlex]
      rfl
    · show (vwsTail OPERATION_ADD ⟨oi, ci, t⟩ (s.checkBlockingAll ors).2
          (s.activate oi ci t true)).dx = s.dx
      rw [tdx]
      rfl
    · intro h
      simp at h
    · show (vwsTail OPERATION_ADD ⟨oi, ci, t⟩ (s.checkBlockingAll ors).2
          (s.activate oi ci t true)).nDeactivations = s.nDeactivations
      rw [tD]
      rfl
    · rcases tS with hst | hst | hst
      · rw [hst]
        show (s.activate oi ci t true).status ≠ PROBLEM_SOLVED
        show s.status ≠ PROBLEM_SOLVED
        rw [hs]
        simp
      · rw [hst]
        simp
      · rw [hst]
        simp
    · exact iff_of_true rfl ha
  · exact absurd hfalse (by simp)
  · exact absurd hfalse (by simp)
  · -- nothing happens
    rw [hd]
    obtain ⟨-, tD, -, -, -, -, -, -, tF, -, tU⟩ :=
      vwsTail_frame OPERATION_UNDEFINED ⟨0, 0, CTR_INACTIVE⟩ (s.checkBlockingAll ors).2 s
    obtain ⟨tdx, tlex⟩ :=
      vwsTail_dx_lexlse OPERATION_UNDEFINED ⟨0, 0, CTR_INACTIVE⟩ (s.checkBlockingAll ors).2 s
    refine ⟨tF, tlex, tdx, ?_, tD, ?_, ?_⟩
    · intro h
      simp at h
    · rw [tU rfl, hs]
      simp
    · constructor
      · intro h
        simp at h
      · intro ha
        rcases hno with hno | hno
        · have h1 := checkBlockingAll_none ors s hno
          rw [h1] at ha
          exact absurd ha (by norm_num)
        · exact absurd ha hno

/-- **C5 witness.**  The amended theorem applied to the `x0`-initialized
equality problem with the no-op oracles. -/
theorem x0_first_iteration_blocking_only_witness :
    (eqProbX0.verifyWorkingSet noopOracles).2.nFactorizations
        = eqProbX0.nFactorizations ∧
      (eqProbX0.verifyWorkingSet noopOracles).1 ≠ OPERATION_REMOVE := by
  have h := x0_first_iteration_blocking_only noopOracles eqProbX0 (by decide) (by decide)
    (by decide)
  exact ⟨h.1, h.2.2.2.1⟩

/-- The factorization block never decreases `nFactorizations`, increases
it by at most one, and increases it by exactly one in a re-factorizing
iteration (`nIterations ≠ 0`). -/
theorem vwsFactorize_nFact (ors : Oracles) (s : LexLSIState) :
    s.nFactorizations ≤ (vwsFactorize ors s).2.nFactorizations ∧
    (vwsFactorize ors s).2.nFactorizations ≤ s.nFactorizations + 1 ∧
    (s.nIterations ≠ 0 →
      (vwsFactorize ors s).2.nFactorizations = s.nFactorizations + 1) := by
  unfold LexLSIState.vwsFactorize
  by_cases h : s.nIterations ≠ 0
  · rw [if_pos h]
    exact ⟨Nat.le_succ _, Nat.le_refl _, fun _ => rfl⟩
  · rw [if_neg h]
    exact ⟨Nat.le_refl _, Nat.le_succ _, fun h1 => absurd h1 h⟩

/-- One `verifyWorkingSet` call advances `nIterations` by exactly one and
never decreases any other counter; the parameters are untouched. -/
theorem verify_counters (ors : Oracles) (s : LexLSIState) :
    (s.verifyWorkingSet ors).2.nIterations = s.nIterations + 1 ∧
    s.nFactorizations ≤ (s.verifyWorkingSet ors).2.nFactorizations ∧
    s.nActivations ≤ (s.verifyWorkingSet ors).2.nActivations ∧
    s.nDeactivations ≤ (s.verifyWorkingSet ors).2.nDeactivations ∧
    (s.verifyWorkingSet ors).2.parameters = s.parameters ∧
    (s.verifyWorkingSet ors).2.nFactorizations ≤ s.nFactorizations + 1 ∧
    (s.nIterations ≠ 0 →
      (s.verifyWorkingSet ors).2.nFactorizations = s.nFactorizations + 1) := by
  obtain ⟨f1, f2, f3, f4, f5, f6, f7, f8, f9, f10, f11⟩ := vwsFactorize_frame ors s
  obtain ⟨fF, fF2, fF3⟩ := vwsFactorize_nFact ors s
  rw [verifyWorkingSet_eq ors s]
  rcases vwsDecide_cases ors (vwsFactorize ors s).1
      ((vwsFactorize ors s).2.checkBlockingAll ors).1
      ((vwsFactorize ors s).2.checkBlockingAll ors).2
      (vwsFactorize ors s).2 with
    ⟨oi, ci, t, hcand, ha, hd⟩ | ⟨hno, hn, oi, k, hr, hd1, hd2⟩ |
    ⟨hno, hn, hr, hd⟩ | ⟨hno, hn, hd⟩
  · rw [hd]
    obtain ⟨t1, t2, t3, t4, -, -, -, -, t9, -, -⟩ :=
      vwsTail_frame OPERATION_ADD ⟨oi, ci, t⟩
        ((vwsFactorize ors s).2.checkBlockingAll ors).2
        ((vwsFactorize ors s).2.activate oi ci t true)
    refine ⟨?_, ?_, ?_, ?_, ?_, ?_, ?_⟩
    · rw [t3]
      show (vwsFactorize ors s).2.nIterations + 1 = s.nIterations + 1
      rw [f4]
    · rw [t9]
      exact fF
    · rw [t1]
      show s.nActivations ≤ (vwsFactorize ors s).2.nActivations + 1
      omega
    · rw [t2]
      show s.nDeactivations ≤ (vwsFactorize ors s).2.nDeactivations
      rw [f2]
    · rw [t4]
      show (vwsFactorize ors s).2.parameters = s.parameters
      exact f5
    · rw [t9]
      exact fF2
    · intro h
      rw [t9]
      exact fF3 h
  · rw [hd1, hd2]
    obtain ⟨t1, t2, t3, t4, -, -, -, -, t9, -, -⟩ :=
      vwsTail_frame OPERATION_REMOVE
        (vwsDecide ors (vwsFactorize ors s).1
          ((vwsFactorize ors s).2.checkBlockingAll ors).1
          ((vwsFactorize ors s).2.checkBlockingAll ors).2
          (vwsFactorize ors s).2).2.1
        ((vwsFactorize ors s).2.checkBlockingAll ors).2
        ((vwsFactorize ors s).2.deactivate oi k)
    refine ⟨?_, ?_, ?_, ?_, ?_, ?_, ?_⟩
    · rw [t3]
      show (vwsFactorize ors s).2.nIterations + 1 = s.nIterations + 1
      rw [f4]
    · rw [t9]
      exact fF
    · rw [t1]
      show s.nActivations ≤ (vwsFactorize ors s).2.nActivations
      rw [f1]
    · rw [t2]
      show s.nDeactivations ≤ (vwsFactorize ors s).2.nDeactivations + 1
      omega
    · rw [t4]
      show (vwsFactorize ors s).2.parameters = s.parameters
      exact f5
    · rw [t9]
      exact fF2
    · intro h
      rw [t9]
      exact fF3 h
  · rw [hd]
    obtain ⟨t1, t2, t3, t4, -, -, -, -, t9, -, -⟩ :=
      vwsTail_frame OPERATION_UNDEFINED ⟨0, 0, CTR_INACTIVE⟩
        ((vwsFactorize ors s).2.checkBlockingAll ors).2
        { (vwsFactorize ors s).2 with status := PROBLEM_SOLVED }
    refine ⟨?_, ?_, ?_, ?_, ?_, ?_, ?_⟩
    · rw [t3]
      show (vwsFactorize ors s).2.nIterations + 1 = s.nIterations + 1
      rw [f4]
    · rw [t9]
      exact fF
    · rw [t1]
      show s.nActivations ≤ (vwsFactorize ors s).2.nActivations
      rw [f1]
    · rw [t2]
      show s.nDeactivations ≤ (vwsFactorize ors s).2.nDeactivations
      rw [f2]
    · rw [t4]
      show (vwsFactorize ors s).2.parameters = s.parameters
      exact f5
    · rw [t9]
      exact fF2
    · intro h
      rw [t9]
      exact fF3 h
  · rw [hd]
    obtain ⟨t1, t2, t3, t4, -, -, -, -, t9, -, -⟩ :=
      vwsTail_frame OPERATION_UNDEFINED ⟨0, 0, CTR_INACTIVE⟩
        ((vwsFactorize ors s).2.checkBlockingAll ors).2
        (vwsFactorize ors s).2
    refine ⟨?_, ?_, ?_, ?_, ?_, ?_, ?_⟩
    · rw [t3, f4]
    · rw [t9]
      exact fF
    · rw [t1, f1]
    · rw [t2, f2]
    · rw [t4]
      exact f5
    · rw [t9]
      exact fF2
    · intro h
      rw [t9]
      exact fF3 h

/-- Across any successful run of the `solve` loop, `nIterations` strictly
increases and the other counters never decrease. -/
theorem solveLoop_counters (ors : Oracles) :
    ∀ (fuel : Nat) (s : LexLSIState) (st : TerminationStatus) (t : LexLSIState),
      solveLoop ors fuel s = some (st, t) →
      s.nFactorizations ≤ t.nFactorizations ∧ s.nIterations < t.nIterations ∧
      s.nActivations ≤ t.nActivations ∧ s.nDeactivations ≤ t.nDeactivations := by
  intro fuel
  induction fuel with
  | zero =>
      intro s st t h
      exact absurd h (by simp [solveLoop])
  | succ n ih =>
      intro s st t h
      obtain ⟨v1, v2, v3, v4, v5, v6, v7⟩ := verify_counters ors s
      simp only [solveLoop] at h
      by_cases hp : (s.verifyWorkingSet ors).2.status = PROBLEM_SOLVED ∨
          (s.verifyWorkingSet ors).2.status = PROBLEM_SOLVED_CYCLING_HANDLING
      · rw [if_pos hp] at h
        simp only [Option.some.injEq, Prod.mk.injEq] at h
        obtain ⟨-, h2⟩ := h
        subst h2
        exact ⟨v2, by omega, v3, v4⟩
      · rw [if_neg hp] at h
        by_cases hm : (s.verifyWorkingSet ors).2.nFactorizations ≥
            (s.verifyWorkingSet ors).2.parameters.max_number_of_factorizations
        · rw [if_pos hm] at h
          simp only [Option.some.injEq, Prod.mk.injEq] at h
          obtain ⟨-, h2⟩ := h
          subst h2
          refine ⟨?_, ?_, ?_, ?_⟩
          · show s.nFactorizations ≤ (s.verifyWorkingSet ors).2.nFactorizations
            exact v2
          · show s.nIterations < (s.verifyWorkingSet ors).2.nIterations
            omega
          · show s.nActivations ≤ (s.verifyWorkingSet ors).2.nActivations
            exact v3
          · show s.nDeactivations ≤ (s.verifyWorkingSet ors).2.nDeactivations
            exact v4
        · rw [if_neg hm] at h
          obtain ⟨i1, i2, i3, i4⟩ := ih _ st t h
          exact ⟨by omega, by omega, by omega, by omega⟩

/-- `phase1` leaves `nIterations`, `nActivations`, `nDeactivations`, the
parameters and the status untouched, and never decreases
`nFactorizations`. -/
theorem phase1_counters (ors : Oracles) (s : LexLSIState) :
    s.nFactorizations ≤ (s.phase1 ors).nFactorizations ∧
    (s.phase1 ors).nFactorizations ≤ s.nFactorizations + 1 ∧
    (s.phase1 ors).nIterations = s.nIterations ∧
    (s.phase1 ors).nActivations = s.nActivations ∧
    (s.phase1 ors).nDeactivations = s.nDeactivations ∧
    (s.phase1 ors).parameters = s.parameters ∧
    (s.phase1 ors).status = s.status := by
  simp only [LexLSIState.phase1]
  by_cases hact : (s.objectives.any fun o => o.getActiveCtrCount != 0) = true
  · rw [if_pos hact]
    by_cases hx : s.x0_is_specified = true
    · have hx' : ¬ ¬ (s.formLexLSE.x0_is_specified = true) := by
        show ¬ ¬ (s.x0_is_specified = true)
        exact not_not_intro hx
      rw [if_neg hx']
      exact ⟨Nat.le_refl _, Nat.le_succ _, rfl, rfl, rfl, rfl, rfl⟩
    · have hx' : ¬ (s.formLexLSE.x0_is_specified = true) := hx
      rw [if_pos hx']
      exact ⟨Nat.le_succ _, Nat.le_refl _, rfl, rfl, rfl, rfl, rfl⟩
  · rw [if_neg hact]
    by_cases hx : s.x0_is_specified = true
    · rw [if_neg (not_not_intro hx)]
      exact ⟨Nat.le_refl _, Nat.le_succ _, rfl, rfl, rfl, rfl, rfl⟩
    · rw [if_pos hx]
      exact ⟨Nat.le_refl _, Nat.le_succ _, rfl, rfl, rfl, rfl, rfl⟩

/-- Exit analysis of the `solve` loop: a run exits with a solved status,
or with `MAX_NUMBER_OF_FACTORIZATIONS_EXCEDED` and the factorization cap
reached; the final count never exceeds `max (entry + 1) cap`. -/
theorem solveLoop_bound (ors : Oracles) :
    ∀ (fuel : Nat) (s : LexLSIState) (st : TerminationStatus) (t : LexLSIState),
      solveLoop ors fuel s = some (st, t) →
      t.nFactorizations
          ≤ max (s.nFactorizations + 1) s.parameters.max_number_of_factorizations ∧
      (st = PROBLEM_SOLVED ∨ st = PROBLEM_SOLVED_CYCLING_HANDLING ∨
        (st = MAX_NUMBER_OF_FACTORIZATIONS_EXCEDED ∧
          s.parameters.max_number_of_factorizations ≤ t.nFactorizations)) := by
  intro fuel
  induction fuel with
  | zero =>
      intro s st t h
      exact absurd h (by simp [solveLoop])
  | succ n ih =>
      intro s st t h
      obtain ⟨v1, v2, v3, v4, v5, v6, v7⟩ := verify_counters ors s
      simp only [solveLoop] at h
      by_cases hp : (s.verifyWorkingSet ors).2.status = PROBLEM_SOLVED ∨
          (s.verifyWorkingSet ors).2.status = PROBLEM_SOLVED_CYCLING_HANDLING
      · rw [if_pos hp] at h
        simp only [Option.some.injEq, Prod.mk.injEq] at h
        obtain ⟨h1, h2⟩ := h
        subst h2
        subst h1
        refine ⟨by omega, ?_⟩
        rcases hp with hp | hp
        · exact Or.inl hp
        · exact Or.inr (Or.inl hp)
      · rw [if_neg hp] at h
        by_cases hm : (s.verifyWorkingSet ors).2.nFactorizations ≥
            (s.verifyWorkingSet ors).2.parameters.max_number_of_factorizations
        · rw [if_pos hm] at h
          simp only [Option.some.injEq, Prod.mk.injEq] at h
          obtain ⟨h1, h2⟩ := h
          subst h2
          subst h1
          rw [v5] at hm
          refine ⟨?_, Or.inr (Or.inr ⟨rfl, ?_⟩)⟩
          · show (s.verifyWorkingSet ors).2.nFactorizations ≤ _
            omega
          · show s.parameters.max_number_of_factorizations
              ≤ (s.verifyWorkingSet ors).2.nFactorizations
            exact hm
        · rw [if_neg hm] at h
          obtain ⟨i1, i2⟩ := ih _ st t h
          rw [v5] at i1 i2 hm
          exact ⟨by omega, i2⟩

/-- Once past its first iteration, the `solve` loop returns within
`cap − nFactorizations + 1` further iterations: every such iteration
factorizes exactly once, so the cap test must eventually fire if no
solved status does. -/
theorem solveLoop_isSome (ors : Oracles) :
    ∀ (fuel : Nat) (s : LexLSIState), 1 ≤ fuel → 1 ≤ s.nIterations →
      s.parameters.max_number_of_factorizations + 1 ≤ s.nFactorizations + fuel →
      (solveLoop ors fuel s).isSome = true := by
  intro fuel
  induction fuel with
  | zero =>
      intro s h1 h2 h3
      exact absurd h1 (by omega)
  | succ n ih =>
      intro s h1 h2 h3
      simp only [solveLoop]
      by_cases hp : (s.verifyWorkingSet ors).2.status = PROBLEM_SOLVED ∨
          (s.verifyWorkingSet ors).2.status = PROBLEM_SOLVED_CYCLING_HANDLING
      · rw [if_pos hp]
        rfl
      · rw [if_neg hp]
        by_cases hm : (s.verifyWorkingSet ors).2.nFactorizations ≥
            (s.verifyWorkingSet ors).2.parameters.max_number_of_factorizations
        · rw [if_pos hm]
          rfl
        · rw [if_neg hm]
          obtain ⟨v1, v2, v3, v4, v5, v6, v7⟩ := verify_counters ors s
          rw [v5] at hm
          have hF : (s.verifyWorkingSet ors).2.nFactorizations
              = s.nFactorizations + 1 := v7 (by omega)
          apply ih
          · omega
          · omega
          · rw [v5]
            omega

/-- **C2 counterexample.**  A `solve` can perform more factorizations
than `max_number_of_factorizations` allows: on the equality problem with
the cap set to `0`, `solve` returns `PROBLEM_SOLVED` after `1`
factorization (performed by `phase1`, which is not guarded by the cap). -/
theorem solve_exceeds_factorization_cap :
    eqProbMax0.parameters.max_number_of_factorizations = 0 ∧
      solveStatus noopOracles eqProbMax0 = some PROBLEM_SOLVED ∧
      (solveFinal noopOracles eqProbMax0).nFactorizations = 1 := by
  exact ⟨by decide, by decide, by decide⟩

/-- One unfolding of the `solve` loop. -/
theorem solveLoop_succ (ors : Oracles) (fuel : Nat) (s : LexLSIState) :
    solveLoop ors (fuel + 1) s =
      (if (s.verifyWorkingSet ors).2.status = PROBLEM_SOLVED ∨
          (s.verifyWorkingSet ors).2.status = PROBLEM_SOLVED_CYCLING_HANDLING then
        some ((s.verifyWorkingSet ors).2.status, (s.verifyWorkingSet ors).2)
      else if (s.verifyWorkingSet ors).2.nFactorizations ≥
          (s.verifyWorkingSet ors).2.parameters.max_number_of_factorizations then
        some (MAX_NUMBER_OF_FACTORIZATIONS_EXCEDED,
          { (s.verifyWorkingSet ors).2 with
            status := MAX_NUMBER_OF_FACTORIZATIONS_EXCEDED })
      else solveLoop ors fuel (s.verifyWorkingSet ors).2) := rfl

/-- **C2 (amended).**  `solve` always returns a `TerminationStatus`: any
return that is neither `PROBLEM_SOLVED` nor
`PROBLEM_SOLVED_CYCLING_HANDLING` is
`MAX_NUMBER_OF_FACTORIZATIONS_EXCEDED`, and then the cap has indeed been
reached.  The total number of factorizations, however, is only bounded by
`max (initial + 2) cap` — `phase1` and the first loop iteration are not
guarded by the cap, so a run may exceed it (it does when the cap is
`0`). -/
theorem solve_total_and_max_exit (ors : Oracles) (s : LexLSIState) :
    (solve ors s).isSome = true ∧
    ∀ st t, solve ors s = some (st, t) →
      t.nFactorizations
          ≤ max (s.nFactorizations + 2) s.parameters.max_number_of_factorizations ∧
      (st = PROBLEM_SOLVED ∨ st = PROBLEM_SOLVED_CYCLING_HANDLING ∨
        (st = MAX_NUMBER_OF_FACTORIZATIONS_EXCEDED ∧
          s.parameters.max_number_of_factorizations ≤ t.nFactorizations)) := by
  obtain ⟨p1, p1b, p2, p3, p4, p5, p6⟩ := phase1_counters ors s
  constructor
  · show (solveLoop ors
        ((s.phase1 ors).parameters.max_number_of_factorizations + 2)
        (s.phase1 ors)).isSome = true
    have hfe : (s.phase1 ors).parameters.max_number_of_factorizations + 2
        = ((s.phase1 ors).parameters.max_number_of_factorizations + 1) + 1 := rfl
    rw [hfe, solveLoop_succ]
    by_cases hp : ((s.phase1 ors).verifyWorkingSet ors).2.status = PROBLEM_SOLVED ∨
        ((s.phase1 ors).verifyWorkingSet ors).2.status
          = PROBLEM_SOLVED_CYCLING_HANDLING
    · rw [if_pos hp]
      rfl
    · rw [if_neg hp]
      by_cases hm : ((s.phase1 ors).verifyWorkingSet ors).2.nFactorizations ≥
          ((s.phase1 ors).verifyWorkingSet ors).2.parameters.max_number_of_factorizations
      · rw [if_pos hm]
        rfl
      · rw [if_neg hm]
        obtain ⟨v1, v2, v3, v4, v5, v6, v7⟩ := verify_counters ors (s.phase1 ors)
        apply solveLoop_isSome
        · omega
        · omega
        · rw [v5]
          omega
  · intro st t h
    simp only [solve] at h
    obtain ⟨b1, b2⟩ := solveLoop_bound ors _ _ st t h
    rw [p5] at b1 b2
    exact ⟨by omega, b2⟩

/-- **C2 witness.**  The amended theorem applied to the equality problem:
its `solve` satisfies the factorization bound. -/
theorem solve_total_and_max_exit_witness :
    (solveFinal noopOracles eqProb).nFactorizations
        ≤ max (eqProb.nFactorizations + 2)
          eqProb.parameters.max_number_of_factorizations := by
  exact ((solve_total_and_max_exit noopOracles eqProb).2 PROBLEM_SOLVED
    (solveFinal noopOracles eqProb) (by rfl)).1

/-- **C3 counterexample.**  `solve` does not reset the counters: a first
`solve` on the equality problem ends with `nFactorizations = 1` and
`nIterations = 1`, and a second `solve` on the unchanged resulting state
ends with `nFactorizations = 3` and `nIterations = 2` — had the counters
been reset at the start of each call, the two runs (on identical inputs)
would have reported identical counters. -/
theorem second_solve_counters_accumulate :
    (solveFinal noopOracles eqProb).nFactorizations = 1 ∧
      (solveFinal noopOracles eqProb).nIterations = 1 ∧
      (solveFinal noopOracles eqProbSolved).nFactorizations = 3 ∧
      (solveFinal noopOracles eqProbSolved).nIterations = 2 := by
  exact ⟨by decide, by decide, by decide, by decide⟩

/-- **C3 (amended).**  The counters and the status are zeroed only by the
constructor (`resize`/`initialize`); `solve` itself never resets them:
across any successful `solve` call, `nIterations` strictly increases and
`nFactorizations`, `nActivations`, `nDeactivations` never decrease, so
counters read after a second `solve` reflect the accumulated total of
both runs, not the second run alone. -/
theorem solve_accumulates_counters (nV nO : Nat) (dims : List Nat)
    (types : List ObjectiveType) (params : Parameters) (ors : Oracles)
    (s : LexLSIState) (st : TerminationStatus) (t : LexLSIState)
    (h : solve ors s = some (st, t)) :
    ((mkLexLSI nV nO dims types params).nIterations = 0 ∧
      (mkLexLSI nV nO dims types params).nActivations = 0 ∧
      (mkLexLSI nV nO dims types params).nDeactivations = 0 ∧
      (mkLexLSI nV nO dims types params).nFactorizations = 0 ∧
      (mkLexLSI nV nO dims types params).status = TERMINATION_STATUS_UNKNOWN) ∧
    s.nFactorizations ≤ t.nFactorizations ∧
    s.nIterations < t.nIterations ∧
    s.nActivations ≤ t.nActivations ∧
    s.nDeactivations ≤ t.nDeactivations := by
  simp only [solve] at h
  obtain ⟨p1, -, p2, p3, p4, -, -⟩ := phase1_counters ors s
  obtain ⟨l1, l2, l3, l4⟩ := solveLoop_counters ors _ _ st t h
  exact ⟨⟨rfl, rfl, rfl, rfl, rfl⟩, by omega, by omega, by omega, by omega⟩

/-- **C3 witness.**  The amended theorem applied to the first `solve` on
the equality problem. -/
theorem solve_accumulates_counters_witness :
    eqProb.nFactorizations ≤ (solveFinal noopOracles eqProb).nFactorizations ∧
      eqProb.nIterations < (solveFinal noopOracles eqProb).nIterations := by
  have h := solve_accumulates_counters 1 1 [1] [GENERAL_OBJECTIVE] defaultParams
    noopOracles eqProb PROBLEM_SOLVED (solveFinal noopOracles eqProb) (by rfl)
  exact ⟨h.2.1, h.2.2.1⟩

/-- **C6.**  `phase1`: if at least one objective has an active constraint
(including the auto-activated EQ rows), the LexLSE system is assembled
(the fixed variables and stacked systems are those of `formLexLSE`) and —
unless `x0` was supplied — factorized and solved to obtain `x`
(incrementing `nFactorizations`); if no objective has an active constraint
and no `x0` was supplied, `x` is filled with the constant `0.01`;
afterwards every objective's residual `v` is computed from the resulting
`x` (via `Objective.phase1`) and `dx` is set to zero (distributed to the
objectives via `Objective.formStep`). -/
theorem phase1_spec (ors : Oracles) (s : LexLSIState) :
    ((s.objectives.any fun o => o.getActiveCtrCount != 0) = true →
      (s.phase1 ors).lexlse.fixedVars = s.formLexLSE.lexlse.fixedVars ∧
      (s.phase1 ors).lexlse.objs = s.formLexLSE.lexlse.objs ∧
      (¬ s.x0_is_specified →
        (s.phase1 ors).x = ors.solution s.formLexLSE.lexlse ∧
        (s.phase1 ors).nFactorizations = s.nFactorizations + 1)) ∧
    (¬ (s.objectives.any fun o => o.getActiveCtrCount != 0) = true →
      ¬ s.x0_is_specified →
      (s.phase1 ors).x = List.replicate s.nVar (1 / 100)) ∧
    (s.phase1 ors).dx = List.replicate s.nVar 0 ∧
    (s.phase1 ors).objectives = s.objectives.map fun o =>
      (o.phase1 (s.phase1 ors).x).formStep (List.replicate s.nVar 0) := by
  simp only [LexLSIState.phase1]
  by_cases hact : (s.objectives.any fun o => o.getActiveCtrCount != 0) = true
  · rw [if_pos hact]
    by_cases hx : s.x0_is_specified = true
    · have hx' : ¬ ¬ (s.formLexLSE.x0_is_specified = true) := by
        show ¬ ¬ (s.x0_is_specified = true)
        exact not_not_intro hx
      rw [if_neg hx']
      refine ⟨fun _ => ⟨rfl, rfl, fun hno => absurd hx hno⟩,
        fun hno => absurd hact hno, rfl, ?_⟩
      rw [List.map_map]
      rfl
    · have hx' : ¬ (s.formLexLSE.x0_is_specified = true) := hx
      rw [if_pos hx']
      refine ⟨fun _ => ⟨rfl, rfl, fun _ => ⟨rfl, rfl⟩⟩,
        fun hno => absurd hact hno, rfl, ?_⟩
      rw [List.map_map]
      rfl
  · rw [if_neg hact]
    by_cases hx : s.x0_is_specified = true
    · rw [if_neg (not_not_intro hx)]
      refine ⟨fun hc => absurd hc hact, fun _ hno => absurd hx hno, rfl, ?_⟩
      rw [List.map_map]
      rfl
    · rw [if_pos hx]
      refine ⟨fun hc => absurd hc hact, fun _ _ => rfl, rfl, ?_⟩
      rw [List.map_map]
      rfl

/-- **C6 witness.**  The phase-1 theorem applied to the equality problem
(active EQ constraint, no `x0`: `x` comes from the solution oracle and
one factorization is counted) and to the fresh problem (no active
constraints, no `x0`: `x` is filled with `0.01`). -/
theorem phase1_spec_witness :
    (eqProb.phase1 noopOracles).x = noopOracles.solution eqProb.formLexLSE.lexlse ∧
      (eqProb.phase1 noopOracles).nFactorizations = eqProb.nFactorizations + 1 ∧
      (freshProb.phase1 noopOracles).x = List.replicate freshProb.nVar (1 / 100) := by
  have h1 := phase1_spec noopOracles eqProb
  have h2 := phase1_spec noopOracles freshProb
  exact ⟨((h1.1 (by decide)).2.2 (by decide)).1,
    ((h1.1 (by decide)).2.2 (by decide)).2,
    h2.2.1 (by decide) (by decide)⟩

/-- Replacing one entry of a list of naturals changes the sum by the
difference of the entries. -/
theorem sum_set_nat : ∀ (l : List Nat) (i a : Nat), i < l.length →
    (l.set i a).sum + l.getD i 0 = l.sum + a := by
  intro l
  induction l with
  | nil =>
      intro i a h
      simp at h
  | cons x xs ih =>
      intro i a h
      cases i with
      | zero =>
          simp only [List.set_cons_zero, List.sum_cons, List.getD_cons_zero]
          omega
      | succ n =>
          simp only [List.set_cons_succ, List.sum_cons, List.getD_cons_succ]
          have := ih n a (by simpa using h)
          omega

/-- The total active count is the sum of the working-set lengths. -/
theorem getActiveCtrCount_eq_sum (s : LexLSIState) :
    s.getActiveCtrCount = ((activeListsOf s).map List.length).sum := by
  unfold LexLSIState.getActiveCtrCount activeListsOf
  rw [List.map_map]
  rfl

/-- In-range read of a working set through `activeListsOf`. -/
theorem activeListsOf_getD (s : LexLSIState) (i : Nat) (h : i < s.objectives.length) :
    (activeListsOf s).getD i [] = (s.obj i).activeList := by
  unfold activeListsOf LexLSIState.obj
  rw [List.getD_eq_getElem _ _ (by simpa using h), List.getD_eq_getElem _ _ h,
    List.getElem_map]

/-- Two states with identical working sets have the same total active
count. -/
theorem getActiveCtrCount_ext (s t : LexLSIState)
    (hl : t.objectives.length = s.objectives.length)
    (h : ∀ i, (t.obj i).activeList = (s.obj i).activeList) :
    t.getActiveCtrCount = s.getActiveCtrCount := by
  rw [getActiveCtrCount_eq_sum, getActiveCtrCount_eq_sum, activeListsOf_ext s t hl h]

/-- An in-range activation increases the total active count by one. -/
theorem count_activate (s : LexLSIState) (oi ci : Nat) (t : ConstraintActivationType)
    (h : oi < s.objectives.length) :
    (s.activate oi ci t true).getActiveCtrCount = s.getActiveCtrCount + 1 := by
  rw [getActiveCtrCount_eq_sum, getActiveCtrCount_eq_sum, activeListsOf_activate,
    List.map_set]
  have hlt : oi < ((activeListsOf s).map List.length).length := by
    simp [activeListsOf, h]
  have hs := sum_set_nat ((activeListsOf s).map List.length) oi
    ((s.obj oi).activeList ++ [ci]).length hlt
  have hg : ((activeListsOf s).map List.length).getD oi 0
      = (s.obj oi).activeList.length := by
    rw [List.getD_eq_getElem _ _ hlt, List.getElem_map,
      ← List.getD_eq_getElem (activeListsOf s) [] (by simpa [activeListsOf] using h),
      activeListsOf_getD s oi h]
  rw [hg] at hs
  have hlen2 : ((s.obj oi).activeList ++ [ci]).length
      = (s.obj oi).activeList.length + 1 := by simp
  omega

/-- An in-range deactivation decreases the total active count by one. -/
theorem count_deactivate (s : LexLSIState) (oi k : Nat)
    (h : oi < s.objectives.length) (hk : k < (s.obj oi).activeList.length) :
    (s.deactivate oi k).getActiveCtrCount + 1 = s.getActiveCtrCount := by
  rw [getActiveCtrCount_eq_sum, getActiveCtrCount_eq_sum, activeListsOf_deactivate,
    List.map_set]
  have hlt : oi < ((activeListsOf s).map List.length).length := by
    simp [activeListsOf, h]
  have hs := sum_set_nat ((activeListsOf s).map List.length) oi
    ((s.obj oi).activeList.eraseIdx k).length hlt
  have hg : ((activeListsOf s).map List.length).getD oi 0
      = (s.obj oi).activeList.length := by
    rw [List.getD_eq_getElem _ _ hlt, List.getElem_map,
      ← List.getD_eq_getElem (activeListsOf s) [] (by simpa [activeListsOf] using h),
      activeListsOf_getD s oi h]
  rw [hg] at hs
  have hlen2 : ((s.obj oi).activeList.eraseIdx k).length
      = (s.obj oi).activeList.length - 1 := by
    rw [List.length_eraseIdx]
    rw [if_pos hk]
  omega

/-- `verifyWorkingSet` preserves the number of objectives and `nObj`. -/
theorem verify_len_nObj (ors : Oracles) (s : LexLSIState) :
    (s.verifyWorkingSet ors).2.objectives.length = s.objectives.length ∧
    (s.verifyWorkingSet ors).2.nObj = s.nObj := by
  obtain ⟨-, -, -, -, -, -, f7, -, -, f10, -⟩ := vwsFactorize_frame ors s
  rw [verifyWorkingSet_eq ors s]
  rcases vwsDecide_cases ors (vwsFactorize ors s).1
      ((vwsFactorize ors s).2.checkBlockingAll ors).1
      ((vwsFactorize ors s).2.checkBlockingAll ors).2
      (vwsFactorize ors s).2 with
    ⟨oi, ci, t, hcand, ha, hd⟩ | ⟨hno, hn, oi, k, hr, hd1, hd2⟩ |
    ⟨hno, hn, hr, hd⟩ | ⟨hno, hn, hd⟩
  · rw [hd]
    obtain ⟨-, -, -, -, t5, -, -, t8, -, -, -⟩ :=
      vwsTail_frame OPERATION_ADD ⟨oi, ci, t⟩
        ((vwsFactorize ors s).2.checkBlockingAll ors).2
        ((vwsFactorize ors s).2.activate oi ci t true)
    constructor
    · rw [t5]
      show ((vwsFactorize ors s).2.objectives.set oi
          (((vwsFactorize ors s).2.obj oi).activate ci t)).length = s.objectives.length
      rw [List.length_set]
      exact f7
    · rw [t8]
      show (vwsFactorize ors s).2.nObj = s.nObj
      exact f10
  · rw [hd1, hd2]
    obtain ⟨-, -, -, -, t5, -, -, t8, -, -, -⟩ :=
      vwsTail_frame OPERATION_REMOVE
        (vwsDecide ors (vwsFactorize ors s).1
          ((vwsFactorize ors s).2.checkBlockingAll ors).1
          ((vwsFactorize ors s).2.checkBlockingAll ors).2
          (vwsFactorize ors s).2).2.1
        ((vwsFactorize ors s).2.checkBlockingAll ors).2
        ((vwsFactorize ors s).2.deactivate oi k)
    constructor
    · rw [t5]
      show ((vwsFactorize ors s).2.objectives.set oi
          (((vwsFactorize ors s).2.obj oi).deactivate k)).length = s.objectives.length
      rw [List.length_set]
      exact f7
    · rw [t8]
      show (vwsFactorize ors s).2.nObj = s.nObj
      exact f10
  · rw [hd]
    obtain ⟨-, -, -, -, t5, -, -, t8, -, -, -⟩ :=
      vwsTail_frame OPERATION_UNDEFINED ⟨0, 0, CTR_INACTIVE⟩
        ((vwsFactorize ors s).2.checkBlockingAll ors).2
        { (vwsFactorize ors s).2 with status := PROBLEM_SOLVED }
    constructor
    · rw [t5]
      show (vwsFactorize ors s).2.objectives.length = s.objectives.length
      exact f7
    · rw [t8]
      show (vwsFactorize ors s).2.nObj = s.nObj
      exact f10
  · rw [hd]
    obtain ⟨-, -, -, -, t5, -, -, t8, -, -, -⟩ :=
      vwsTail_frame OPERATION_UNDEFINED ⟨0, 0, CTR_INACTIVE⟩
        ((vwsFactorize ors s).2.checkBlockingAll ors).2
        (vwsFactorize ors s).2
    exact ⟨t5.trans f7, t8.trans f10⟩

/-- One iteration preserves the counting balance: the change of
`nActivations − nDeactivations` equals the change of the total active
count, provided the (spec-modelled) sensitivity oracle reports an
in-range removal candidate. -/
theorem verify_count_step (ors : Oracles) (s : LexLSIState)
    (hlen : s.nObj ≤ s.objectives.length)
    (hrm : RemovalOK ors s) :
    (s.verifyWorkingSet ors).2.nActivations + s.nDeactivations + s.getActiveCtrCount
      = s.nActivations + (s.verifyWorkingSet ors).2.nDeactivations
        + (s.verifyWorkingSet ors).2.getActiveCtrCount := by
  obtain ⟨f1, f2, f3, f4, f5, f6, f7, f8, f9, f10, f11⟩ := vwsFactorize_frame ors s
  have hFc : (vwsFactorize ors s).2.getActiveCtrCount = s.getActiveCtrCount :=
    getActiveCtrCount_ext s (vwsFactorize ors s).2 f7 f8
  rw [verifyWorkingSet_eq ors s]
  rcases vwsDecide_cases ors (vwsFactorize ors s).1
      ((vwsFactorize ors s).2.checkBlockingAll ors).1
      ((vwsFactorize ors s).2.checkBlockingAll ors).2
      (vwsFactorize ors s).2 with
    ⟨oi, ci, t, hcand, ha, hd⟩ | ⟨hno, hn, oi, k, hr, hd1, hd2⟩ |
    ⟨hno, hn, hr, hd⟩ | ⟨hno, hn, hd⟩
  · rw [hd]
    obtain ⟨t1, t2, -, -, t5, t6, -, -, -, -, -⟩ :=
      vwsTail_frame OPERATION_ADD ⟨oi, ci, t⟩
        ((vwsFactorize ors s).2.checkBlockingAll ors).2
        ((vwsFactorize ors s).2.activate oi ci t true)
    have hTc := getActiveCtrCount_ext ((vwsFactorize ors s).2.activate oi ci t true)
      (vwsTail OPERATION_ADD ⟨oi, ci, t⟩
        ((vwsFactorize ors s).2.checkBlockingAll ors).2
        ((vwsFactorize ors s).2.activate oi ci t true)) t5 t6
    have hc2 : (blockingScan ors.blocking
        (vwsFactorize ors s).2.parameters.tol_feasibility
        (vwsFactorize ors s).2.objectives 0 none 1).1 = some (oi, ci, t) := hcand
    have hoi : oi < (vwsFactorize ors s).2.objectives.length := by
      rcases blockingScan_cand_bound ors.blocking
          (vwsFactorize ors s).2.parameters.tol_feasibility
          (vwsFactorize ors s).2.objectives 0 none 1 oi ci t hc2 with h | h
      · exact absurd h (by simp)
      · omega
    have hAct := count_activate (vwsFactorize ors s).2 oi ci t hoi
    have hs1 : ((vwsFactorize ors s).2.activate oi ci t true).nActivations
        = (vwsFactorize ors s).2.nActivations + 1 := rfl
    have hs2 : ((vwsFactorize ors s).2.activate oi ci t true).nDeactivations
        = (vwsFactorize ors s).2.nDeactivations := rfl
    rw [t1, hs1, t2, hs2, hTc, hAct, hFc, f1, f2]
    omega
  · rw [hd1, hd2]
    obtain ⟨t1, t2, -, -, t5, t6, -, -, -, -, -⟩ :=
      vwsTail_frame OPERATION_REMOVE
        (vwsDecide ors (vwsFactorize ors s).1
          ((vwsFactorize ors s).2.checkBlockingAll ors).1
          ((vwsFactorize ors s).2.checkBlockingAll ors).2
          (vwsFactorize ors s).2).2.1
        ((vwsFactorize ors s).2.checkBlockingAll ors).2
        ((vwsFactorize ors s).2.deactivate oi k)
    have hTc := getActiveCtrCount_ext ((vwsFactorize ors s).2.deactivate oi k)
      (vwsTail OPERATION_REMOVE
        (vwsDecide ors (vwsFactorize ors s).1
          ((vwsFactorize ors s).2.checkBlockingAll ors).1
          ((vwsFactorize ors s).2.checkBlockingAll ors).2
          (vwsFactorize ors s).2).2.1
        ((vwsFactorize ors s).2.checkBlockingAll ors).2
        ((vwsFactorize ors s).2.deactivate oi k)) t5 t6
    obtain ⟨hoi0, hk0⟩ := hrm oi k hr
    have hoi : oi < (vwsFactorize ors s).2.objectives.length := by
      rw [f7]
      omega
    have hk : k < ((vwsFactorize ors s).2.obj oi).activeList.length := by
      rw [f8 oi]
      exact hk0
    have hDe := count_deactivate (vwsFactorize ors s).2 oi k hoi hk
    have hs1 : ((vwsFactorize ors s).2.deactivate oi k).nActivations
        = (vwsFactorize ors s).2.nActivations := rfl
    have hs2 : ((vwsFactorize ors s).2.deactivate oi k).nDeactivations
        = (vwsFactorize ors s).2.nDeactivations + 1 := rfl
    rw [t1, hs1, t2, hs2, hTc, f1, f2]
    omega
  · rw [hd]
    obtain ⟨t1, t2, -, -, t5, t6, -, -, -, -, -⟩ :=
      vwsTail_frame OPERATION_UNDEFINED ⟨0, 0, CTR_INACTIVE⟩
        ((vwsFactorize ors s).2.checkBlockingAll ors).2
        { (vwsFactorize ors s).2 with status := PROBLEM_SOLVED }
    have hTc := getActiveCtrCount_ext
      { (vwsFactorize ors s).2 with status := PROBLEM_SOLVED }
      (vwsTail OPERATION_UNDEFINED ⟨0, 0, CTR_INACTIVE⟩
        ((vwsFactorize ors s).2.checkBlockingAll ors).2
        { (vwsFactorize ors s).2 with status := PROBLEM_SOLVED }) t5 t6
    have hs3 : ({ (vwsFactorize ors s).2 with
        status := PROBLEM_SOLVED } : LexLSIState).getActiveCtrCount
        = (vwsFactorize ors s).2.getActiveCtrCount := rfl
    have hs1 : ({ (vwsFactorize ors s).2 with
        status := PROBLEM_SOLVED } : LexLSIState).nActivations
        = (vwsFactorize ors s).2.nActivations := rfl
    have hs2 : ({ (vwsFactorize ors s).2 with
        status := PROBLEM_SOLVED } : LexLSIState).nDeactivations
        = (vwsFactorize ors s).2.nDeactivations := rfl
    rw [t1, hs1, t2, hs2, hTc, hs3, hFc, f1, f2]
  · rw [hd]
    obtain ⟨t1, t2, -, -, t5, t6, -, -, -, -, -⟩ :=
      vwsTail_frame OPERATION_UNDEFINED ⟨0, 0, CTR_INACTIVE⟩
        ((vwsFactorize ors s).2.checkBlockingAll ors).2
        (vwsFactorize ors s).2
    have hTc := getActiveCtrCount_ext (vwsFactorize ors s).2
      (vwsTail OPERATION_UNDEFINED ⟨0, 0, CTR_INACTIVE⟩
        ((vwsFactorize ors s).2.checkBlockingAll ors).2
        (vwsFactorize ors s).2) t5 t6
    rw [t1, t2, hTc, hFc, f1, f2]

/-- The (spec-modelled) sensitivity check of the no-op oracles never finds
a candidate, whatever the level window. -/
theorem findFrom_noop (m : LexLSEModel) (tw tc : Scalar) :
    ∀ (n L : Nat), findFrom noopOracles m tw tc n L = none := by
  intro n
  induction n with
  | zero =>
      intro L
      rfl
  | succ n ih =>
      intro L
      show findFrom noopOracles m tw tc n (L + 1) = none
      exact ih (L + 1)

/-- With the no-op oracles, every state trivially satisfies the removal
well-behavedness side condition. -/
theorem noop_RemovalOK (s : LexLSIState) : RemovalOK noopOracles s := by
  intro oi k h
  have hnone : s.iterRemoval noopOracles = none := by
    show ((findFrom noopOracles (vwsFactorize noopOracles s).2.lexlse
        (vwsFactorize noopOracles s).2.parameters.tol_wrong_sign_lambda
        (vwsFactorize noopOracles s).2.parameters.tol_correct_sign_lambda
        ((vwsFactorize noopOracles s).2.nObj
          - (vwsFactorize noopOracles s).2.nObjOffset) 0).map
      fun r => ((r.1 + ((vwsFactorize noopOracles s).2.nObjOffset : Int)).toNat, r.2))
      = none
    rw [findFrom_noop]
    rfl
  rw [hnone] at h
  exact absurd h (by simp)

/-- **C9.**  At every iteration boundary of the `solve` loop, starting
from a state whose counters are zero (as left by the constructor and
`setData`/`api_activate`, which activate without counting),
`nActivations + (constraints active at entry) =
nDeactivations + getActiveCtrCount()`: the counter difference always
matches the drift of the total working-set size from its setup value.
The side conditions are the number of objectives matching `nObj` and the
(spec-modelled) sensitivity oracle reporting in-range removal candidates,
as `LexLSE::ObjectiveSensitivity` guarantees. -/
theorem iteration_boundary_count_invariant (ors : Oracles) (s0 : LexLSIState)
    (hA : s0.nActivations = 0) (hD : s0.nDeactivations = 0)
    (hlen : s0.nObj ≤ s0.objectives.length)
    (hrm : ∀ k, RemovalOK ors (runState ors s0 k)) :
    ∀ k, (runState ors s0 k).nActivations + s0.getActiveCtrCount
      = (runState ors s0 k).nDeactivations + (runState ors s0 k).getActiveCtrCount := by
  have hpres : ∀ k, (runState ors s0 k).nObj = s0.nObj ∧
      (runState ors s0 k).objectives.length = s0.objectives.length := by
    intro k
    induction k with
    | zero => exact ⟨rfl, rfl⟩
    | succ n ih =>
        have hstep := verify_len_nObj ors (runState ors s0 n)
        have he : runState ors s0 (n + 1)
            = ((runState ors s0 n).verifyWorkingSet ors).2 := by
          unfold runState
          rw [Function.iterate_succ_apply']
        rw [he]
        exact ⟨hstep.2.trans ih.1, hstep.1.trans ih.2⟩
  intro k
  induction k with
  | zero =>
      show s0.nActivations + s0.getActiveCtrCount
        = s0.nDeactivations + s0.getActiveCtrCount
      rw [hA, hD]
  | succ n ih =>
      have he : runState ors s0 (n + 1)
          = ((runState ors s0 n).verifyWorkingSet ors).2 := by
        unfold runState
        rw [Function.iterate_succ_apply']
      have hstep := verify_count_step ors (runState ors s0 n)
        (by rw [(hpres n).1, (hpres n).2]; exact hlen) (hrm n)
      rw [he]
      omega

/-- **C9 witness.**  The invariant applied to the equality problem with
the no-op oracles at iteration boundary `2`. -/
theorem iteration_boundary_count_invariant_witness :
    (runState noopOracles eqProb 2).nActivations + eqProb.getActiveCtrCount
      = (runState noopOracles eqProb 2).nDeactivations
        + (runState noopOracles eqProb 2).getActiveCtrCount := by
  exact iteration_boundary_count_invariant noopOracles eqProb (by decide) (by decide)
    (by decide) (fun k => noop_RemovalOK _) 2

/-- Under a well-behaved blocking oracle, once a candidate is recorded the
running `alpha` stays below `1`. -/
theorem blockingScan_lt
    (bo : Objective → Scalar → Scalar → Option (Nat × ConstraintActivationType × Scalar))
    (tol : Scalar) (hw : BlockingWB bo) :
    ∀ (l : List Objective) (i : Nat) (cand : Option (Nat × Nat × ConstraintActivationType))
      (a : Scalar), (cand.isSome = true → a < 1) → a ≤ 1 →
      (blockingScan bo tol l i cand a).1.isSome = true →
      (blockingScan bo tol l i cand a).2 < 1 := by
  intro l
  induction l with
  | nil =>
      intro i cand a hc ha hs
      exact hc hs
  | cons o rest ih =>
      intro i cand a hc ha hs
      rcases hb : bo o tol a with _ | ⟨c1, t1, a1⟩
      · rw [show blockingScan bo tol (o :: rest) i cand a
            = blockingScan bo tol rest (i + 1) cand a by simp [blockingScan, hb]] at hs ⊢
        exact ih (i + 1) cand a hc ha hs
      · rw [show blockingScan bo tol (o :: rest) i cand a
            = blockingScan bo tol rest (i + 1) (some (i, c1, t1)) a1
            by simp [blockingScan, hb]] at hs ⊢
        have hlt : a1 < 1 := lt_of_lt_of_le (hw o tol a c1 t1 a1 hb).2 ha
        exact ih (i + 1) (some (i, c1, t1)) a1 (fun _ => hlt) (le_of_lt hlt) hs

/-- Under a well-behaved blocking oracle, a reported blocking candidate
comes with `alpha < 1`. -/
theorem checkBlockingAll_some_lt (ors : Oracles) (s : LexLSIState)
    (hw : BlockingWB ors.blocking) (x : Nat × Nat × ConstraintActivationType)
    (h : (s.checkBlockingAll ors).1 = some x) :
    (s.checkBlockingAll ors).2 < 1 := by
  have hs : (s.checkBlockingAll ors).1.isSome = true := by
    rw [h]
    rfl
  exact blockingScan_lt ors.blocking s.parameters.tol_feasibility hw s.objectives 0 none 1
    (fun hfalse => absurd hfalse (by simp)) le_rfl hs

/-- Under a well-behaved blocking oracle, the source's `PROBLEM_SOLVED`
guard — no blocking candidate, or no step tightening — is the same as the
blocking check leaving `alpha = 1`. -/
theorem solved_cond_iff (ors : Oracles) (s : LexLSIState) (hw : BlockingWB ors.blocking) :
    ((((vwsFactorize ors s).2.checkBlockingAll ors).1 = none ∨
        ¬ ((vwsFactorize ors s).2.checkBlockingAll ors).2 < 1) ∧
      s.iterNormal = true ∧ s.iterRemoval ors = none) ↔ solvedCond ors s := by
  unfold solvedCond
  constructor
  · rintro ⟨hc, hn, hr⟩
    refine ⟨?_, hn, hr⟩
    rcases hc with hc | hc
    · exact checkBlockingAll_none ors (vwsFactorize ors s).2 hc
    · rcases he : ((vwsFactorize ors s).2.checkBlockingAll ors).1 with _ | x
      · exact checkBlockingAll_none ors (vwsFactorize ors s).2 he
      · exact absurd (checkBlockingAll_some_lt ors (vwsFactorize ors s).2 hw x he) hc
  · rintro ⟨ha, hn, hr⟩
    refine ⟨Or.inr ?_, hn, hr⟩
    have ha' : ((vwsFactorize ors s).2.checkBlockingAll ors).2 = 1 := ha
    rw [ha']
    exact lt_irrefl 1

/-- The iteration-level `PROBLEM_SOLVED` characterization: an iteration
whose entering status is not `PROBLEM_SOLVED` ends with status
`PROBLEM_SOLVED` exactly when the blocking check reports no usable
candidate, the iteration is normal, and `findActiveCtr2Remove` reports no
removal candidate; and then no working-set change and no counted
(de)activation happens in that iteration. -/
theorem verify_solved_iff (ors : Oracles) (s : LexLSIState)
    (hstat : s.status ≠ PROBLEM_SOLVED) :
    ((s.verifyWorkingSet ors).2.status = PROBLEM_SOLVED ↔
      ((((vwsFactorize ors s).2.checkBlockingAll ors).1 = none ∨
          ¬ ((vwsFactorize ors s).2.checkBlockingAll ors).2 < 1) ∧
        s.iterNormal = true ∧ s.iterRemoval ors = none)) ∧
    ((s.verifyWorkingSet ors).2.status = PROBLEM_SOLVED →
      activeListsOf (s.verifyWorkingSet ors).2 = activeListsOf s ∧
      (s.verifyWorkingSet ors).2.nActivations = s.nActivations ∧
      (s.verifyWorkingSet ors).2.nDeactivations = s.nDeactivations) := by
  obtain ⟨f1, f2, f3, f4, f5, f6, f7, f8, f9, f10, f11⟩ := vwsFactorize_frame ors s
  have hfst := vwsFactorize_fst ors s
  rw [verifyWorkingSet_eq ors s]
  rcases vwsDecide_cases ors (vwsFactorize ors s).1
      ((vwsFactorize ors s).2.checkBlockingAll ors).1
      ((vwsFactorize ors s).2.checkBlockingAll ors).2
      (vwsFactorize ors s).2 with
    ⟨oi, ci, t, hcand, ha, hd⟩ | ⟨hno, hn, oi, k, hr, hd1, hd2⟩ |
    ⟨hno, hn, hr, hd⟩ | ⟨hno, hn, hd⟩
  · rw [hd]
    obtain ⟨-, -, -, -, -, -, -, -, -, t10, -⟩ :=
      vwsTail_frame OPERATION_ADD ⟨oi, ci, t⟩
        ((vwsFactorize ors s).2.checkBlockingAll ors).2
        ((vwsFactorize ors s).2.activate oi ci t true)
    have hns : (vwsTail OPERATION_ADD ⟨oi, ci, t⟩
        ((vwsFactorize ors s).2.checkBlockingAll ors).2
        ((vwsFactorize ors s).2.activate oi ci t true)).status ≠ PROBLEM_SOLVED := by
      rcases t10 with h10 | h10 | h10
      · rw [h10]
        show (vwsFactorize ors s).2.status ≠ PROBLEM_SOLVED
        rw [f3]
        exact hstat
      · rw [h10]
        simp
      · rw [h10]
        simp
    refine ⟨iff_of_false hns ?_, fun h => absurd h hns⟩
    rintro ⟨hc | hc, -, -⟩
    · rw [hcand] at hc
      exact absurd hc (by simp)
    · exact absurd ha hc
  · rw [hd1, hd2]
    obtain ⟨-, -, -, -, -, -, -, -, -, t10, -⟩ :=
      vwsTail_frame OPERATION_REMOVE
        (vwsDecide ors (vwsFactorize ors s).1
          ((vwsFactorize ors s).2.checkBlockingAll ors).1
          ((vwsFactorize ors s).2.checkBlockingAll ors).2
          (vwsFactorize ors s).2).2.1
        ((vwsFactorize ors s).2.checkBlockingAll ors).2
        ((vwsFactorize ors s).2.deactivate oi k)
    have hns : (vwsTail OPERATION_REMOVE
        (vwsDecide ors (vwsFactorize ors s).1
          ((vwsFactorize ors s).2.checkBlockingAll ors).1
          ((vwsFactorize ors s).2.checkBlockingAll ors).2
          (vwsFactorize ors s).2).2.1
        ((vwsFactorize ors s).2.checkBlockingAll ors).2
        ((vwsFactorize ors s).2.deactivate oi k)).status ≠ PROBLEM_SOLVED := by
      rcases t10 with h10 | h10 | h10
      · rw [h10]
        show (vwsFactorize ors s).2.status ≠ PROBLEM_SOLVED
        rw [f3]
        exact hstat
      · rw [h10]
        simp
      · rw [h10]
        simp
    refine ⟨iff_of_false hns ?_, fun h => absurd h hns⟩
    rintro ⟨-, -, hrm⟩
    have h2 : s.iterRemoval ors = some (oi, k) := hr
    rw [h2] at hrm
    exact absurd hrm (by simp)
  · rw [hd]
    obtain ⟨t1, t2, -, -, t5, t6, -, -, -, -, t11⟩ :=
      vwsTail_frame OPERATION_UNDEFINED ⟨0, 0, CTR_INACTIVE⟩
        ((vwsFactorize ors s).2.checkBlockingAll ors).2
        { (vwsFactorize ors s).2 with status := PROBLEM_SOLVED }
    have hsv : (vwsTail OPERATION_UNDEFINED ⟨0, 0, CTR_INACTIVE⟩
        ((vwsFactorize ors s).2.checkBlockingAll ors).2
        { (vwsFactorize ors s).2 with status := PROBLEM_SOLVED }).status
        = PROBLEM_SOLVED := by
      rw [t11 rfl]
    have hws1 : activeListsOf (vwsTail OPERATION_UNDEFINED ⟨0, 0, CTR_INACTIVE⟩
        ((vwsFactorize ors s).2.checkBlockingAll ors).2
        { (vwsFactorize ors s).2 with status := PROBLEM_SOLVED }) = activeListsOf s := by
      have e1 := activeListsOf_ext
        { (vwsFactorize ors s).2 with status := PROBLEM_SOLVED }
        (vwsTail OPERATION_UNDEFINED ⟨0, 0, CTR_INACTIVE⟩
          ((vwsFactorize ors s).2.checkBlockingAll ors).2
          { (vwsFactorize ors s).2 with status := PROBLEM_SOLVED }) t5 t6
      have e3 := activeListsOf_ext s (vwsFactorize ors s).2 f7 f8
      exact e1.trans e3
    refine ⟨iff_of_true hsv ⟨hno, ?_, ?_⟩, fun _ => ⟨hws1, ?_, ?_⟩⟩
    · rw [← hfst]
      exact hn
    · exact hr
    · rw [t1]
      exact f1
    · rw [t2]
      exact f2
  · rw [hd]
    obtain ⟨-, -, -, -, -, -, -, -, -, -, t11⟩ :=
      vwsTail_frame OPERATION_UNDEFINED ⟨0, 0, CTR_INACTIVE⟩
        ((vwsFactorize ors s).2.checkBlockingAll ors).2
        (vwsFactorize ors s).2
    have hns : (vwsTail OPERATION_UNDEFINED ⟨0, 0, CTR_INACTIVE⟩
        ((vwsFactorize ors s).2.checkBlockingAll ors).2
        (vwsFactorize ors s).2).status ≠ PROBLEM_SOLVED := by
      rw [t11 rfl, f3]
      exact hstat
    refine ⟨iff_of_false hns ?_, fun h => absurd h hns⟩
    rintro ⟨-, hns2, -⟩
    have hnf : s.iterNormal = false := by
      rw [← hfst]
      exact hn
    rw [hns2] at hnf
    exact absurd hnf (by simp)

/-- Exit analysis of the `solve` loop in terms of its iteration sequence:
any successful run exits at some iteration `k` after `k` continuing
iterations, either with a solved status read off the iteration's result,
or with the cap status when the result is unsolved and the cap is
reached. -/
theorem solveLoop_exit (ors : Oracles) :
    ∀ (fuel : Nat) (s : LexLSIState) (st : TerminationStatus) (t : LexLSIState),
      solveLoop ors fuel s = some (st, t) →
      ∃ k,
        (∀ j, j < k → loopContinues ors (runState ors s j)) ∧
        (((st = PROBLEM_SOLVED ∨ st = PROBLEM_SOLVED_CYCLING_HANDLING) ∧
          t = ((runState ors s k).verifyWorkingSet ors).2 ∧ st = t.status) ∨
         (st = MAX_NUMBER_OF_FACTORIZATIONS_EXCEDED ∧
          ¬ (((runState ors s k).verifyWorkingSet ors).2.status = PROBLEM_SOLVED ∨
            ((runState ors s k).verifyWorkingSet ors).2.status
              = PROBLEM_SOLVED_CYCLING_HANDLING) ∧
          ((runState ors s k).verifyWorkingSet
              ors).2.parameters.max_number_of_factorizations
            ≤ ((runState ors s k).verifyWorkingSet ors).2.nFactorizations ∧
          t = { ((runState ors s k).verifyWorkingSet ors).2 with
                status := MAX_NUMBER_OF_FACTORIZATIONS_EXCEDED })) := by
  intro fuel
  induction fuel with
  | zero =>
      intro s st t h
      exact absurd h (by simp [solveLoop])
  | succ n ih =>
      intro s st t h
      simp only [solveLoop] at h
      by_cases hp : (s.verifyWorkingSet ors).2.status = PROBLEM_SOLVED ∨
          (s.verifyWorkingSet ors).2.status = PROBLEM_SOLVED_CYCLING_HANDLING
      · rw [if_pos hp] at h
        simp only [Option.some.injEq, Prod.mk.injEq] at h
        obtain ⟨h1, h2⟩ := h
        subst h2
        subst h1
        exact ⟨0, fun j hj => absurd hj (by omega), Or.inl ⟨hp, rfl, rfl⟩⟩
      · rw [if_neg hp] at h
        by_cases hm : (s.verifyWorkingSet ors).2.nFactorizations ≥
            (s.verifyWorkingSet ors).2.parameters.max_number_of_factorizations
        · rw [if_pos hm] at h
          simp only [Option.some.injEq, Prod.mk.injEq] at h
          obtain ⟨h1, h2⟩ := h
          subst h2
          subst h1
          exact ⟨0, fun j hj => absurd hj (by omega), Or.inr ⟨rfl, hp, hm, rfl⟩⟩
        · rw [if_neg hm] at h
          obtain ⟨k, hc, hx⟩ := ih _ st t h
          have hshift : ∀ j, runState ors s (j + 1)
              = runState ors (s.verifyWorkingSet ors).2 j := by
            intro j
            unfold runState
            rw [Function.iterate_succ_apply]
          refine ⟨k + 1, ?_, ?_⟩
          · intro j hj
            cases j with
            | zero =>
                simp only [loopContinues]
                exact ⟨hp, Nat.lt_of_not_le hm⟩
            | succ m =>
                rw [hshift m]
                exact hc m (by omega)
          · rw [hshift k]
            exact hx

/-- **C1.**  With a well-behaved blocking oracle and an entering status of
`TERMINATION_STATUS_UNKNOWN`, `solve` returns `PROBLEM_SOLVED` exactly
when its iteration sequence reaches (through continuing iterations) an
iteration whose blocking check over all objectives leaves `alpha = 1`, the
iteration is normal, and `findActiveCtr2Remove` reports no removal
candidate; and in the concluding iteration no constraint is added to or
removed from any working set and neither counter moves. -/
theorem solve_problem_solved_iff (ors : Oracles) (s : LexLSIState)
    (hwb : BlockingWB ors.blocking)
    (hstat : s.status = TERMINATION_STATUS_UNKNOWN)
    (st : TerminationStatus) (t : LexLSIState)
    (h : solve ors s = some (st, t)) :
    (st = PROBLEM_SOLVED ↔
      ∃ k, (∀ j, j < k → loopContinues ors (runState ors (s.phase1 ors) j)) ∧
        solvedCond ors (runState ors (s.phase1 ors) k)) ∧
    (st = PROBLEM_SOLVED →
      ∃ k, solvedCond ors (runState ors (s.phase1 ors) k) ∧
        activeListsOf t = activeListsOf (runState ors (s.phase1 ors) k) ∧
        t.nActivations = (runState ors (s.phase1 ors) k).nActivations ∧
        t.nDeactivations = (runState ors (s.phase1 ors) k).nDeactivations) := by
  simp only [solve] at h
  obtain ⟨k0, hcont, hexit⟩ := solveLoop_exit ors _ (s.phase1 ors) st t h
  obtain ⟨-, -, -, -, -, -, p6⟩ := phase1_counters ors s
  have hstat1 : (s.phase1 ors).status = TERMINATION_STATUS_UNKNOWN := by
    rw [p6, hstat]
  have hstatk : ∀ k, (∀ j, j < k → loopContinues ors (runState ors (s.phase1 ors) j)) →
      (runState ors (s.phase1 ors) k).status ≠ PROBLEM_SOLVED := by
    intro k hc
    cases k with
    | zero =>
        show (s.phase1 ors).status ≠ PROBLEM_SOLVED
        rw [hstat1]
        simp
    | succ m =>
        have hcm := hc m (by omega)
        simp only [loopContinues] at hcm
        obtain ⟨hns, -⟩ := hcm
        have he : runState ors (s.phase1 ors) (m + 1)
            = ((runState ors (s.phase1 ors) m).verifyWorkingSet ors).2 := by
          unfold runState
          rw [Function.iterate_succ_apply']
        rw [he]
        intro heq
        exact hns (Or.inl heq)
  constructor
  · constructor
    · intro hsv
      rcases hexit with ⟨hdis, hteq, hst⟩ | ⟨hmax, -, -, -⟩
      · have hvs : ((runState ors (s.phase1 ors) k0).verifyWorkingSet ors).2.status
            = PROBLEM_SOLVED := by
          rw [← hteq, ← hst]
          exact hsv
        obtain ⟨hiff, -⟩ := verify_solved_iff ors (runState ors (s.phase1 ors) k0)
          (hstatk k0 hcont)
        exact ⟨k0, hcont,
          (solved_cond_iff ors (runState ors (s.phase1 ors) k0) hwb).mp (hiff.mp hvs)⟩
      · rw [hsv] at hmax
        exact absurd hmax (by simp)
    · rintro ⟨k, hc, hsc⟩
      have hvs : ((runState ors (s.phase1 ors) k).verifyWorkingSet ors).2.status
          = PROBLEM_SOLVED := by
        obtain ⟨hiff, -⟩ := verify_solved_iff ors (runState ors (s.phase1 ors) k)
          (hstatk k hc)
        exact hiff.mpr ((solved_cond_iff ors (runState ors (s.phase1 ors) k) hwb).mpr hsc)
      rcases Nat.lt_trichotomy k k0 with hlt | heq | hgt
      · have hck := hcont k hlt
        simp only [loopContinues] at hck
        obtain ⟨hns, -⟩ := hck
        exact absurd (Or.inl hvs) hns
      · subst heq
        rcases hexit with ⟨hdis, hteq, hst⟩ | ⟨-, hnsv, -, -⟩
        · rw [hst, hteq]
          exact hvs
        · exact absurd (Or.inl hvs) hnsv
      · have hck0 := hc k0 hgt
        simp only [loopContinues] at hck0
        obtain ⟨hns, hcap⟩ := hck0
        rcases hexit with ⟨hdis, hteq, hst⟩ | ⟨-, -, hcapge, -⟩
        · rcases hdis with hd | hd
          · refine absurd (Or.inl ?_) hns
            rw [← hteq, ← hst]
            exact hd
          · refine absurd (Or.inr ?_) hns
            rw [← hteq, ← hst]
            exact hd
        · exact absurd hcap (Nat.not_lt.mpr hcapge)
  · intro hsv
    rcases hexit with ⟨hdis, hteq, hst⟩ | ⟨hmax, -, -, -⟩
    · have hvs : ((runState ors (s.phase1 ors) k0).verifyWorkingSet ors).2.status
          = PROBLEM_SOLVED := by
        rw [← hteq, ← hst]
        exact hsv
      obtain ⟨hiff, hws⟩ := verify_solved_iff ors (runState ors (s.phase1 ors) k0)
        (hstatk k0 hcont)
      obtain ⟨hw1, hw2, hw3⟩ := hws hvs
      refine ⟨k0,
        (solved_cond_iff ors (runState ors (s.phase1 ors) k0) hwb).mp (hiff.mp hvs),
        ?_, ?_, ?_⟩
      · rw [hteq]
        exact hw1
      · rw [hteq]
        exact hw2
      · rw [hteq]
        exact hw3
    · rw [hsv] at hmax
      exact absurd hmax (by simp)

/-- **C1 witness.**  The characterization applied to the equality problem
with the no-op oracles (which are trivially well behaved): its `solve`
returns `PROBLEM_SOLVED`, so a solved iteration is reached. -/
theorem solve_problem_solved_iff_witness :
    ∃ k, (∀ j, j < k → loopContinues noopOracles
        (runState noopOracles (eqProb.phase1 noopOracles) j)) ∧
      solvedCond noopOracles (runState noopOracles (eqProb.phase1 noopOracles) k) := by
  have hwb : BlockingWB noopOracles.blocking := by
    intro o tol a c t a1 h
    exact absurd h (by simp [noopOracles])
  exact (solve_problem_solved_iff noopOracles eqProb hwb (by decide) PROBLEM_SOLVED
    (solveFinal noopOracles eqProb) (by rfl)).1.mp rfl

/-- **C7 counterexample.**  `api_activate` with type `CTR_ACTIVE_EQ` on an
inactive constraint of a valid objective is rejected, but no
`InvalidInput` error is raised — the error component is `none` (the
source merely prints a warning); the claim that the call is "rejected as
an InvalidInput error" is false. -/
theorem api_activate_eq_yields_no_error :
    (freshProb.api_activate 0 0 CTR_ACTIVE_EQ).2 = none ∧
      (freshProb.api_activate 0 0 CTR_ACTIVE_EQ).1 = freshProb := by
  constructor <;> rfl

/-- **C7 (amended).**  `api_activate` with a type other than
`CTR_ACTIVE_LB` / `CTR_ACTIVE_UB` (in particular `CTR_ACTIVE_EQ`) is
rejected with a printed warning and no error: the state — in particular
every objective's working set and the counter `nActivations` — is
returned unchanged, and no `InvalidInput` error is raised. -/
theorem api_activate_non_bound_rejected (s : LexLSIState) (oi ci : Nat)
    (t : ConstraintActivationType) (_hoi : oi < s.nObj)
    (h1 : t ≠ CTR_ACTIVE_LB) (h2 : t ≠ CTR_ACTIVE_UB) :
    s.api_activate oi ci t = (s, none) := by
  unfold LexLSIState.api_activate
  by_cases h : (s.obj oi).isActive ci = true
  · simp [h]
  · simp [h, h1, h2]

/-- **C7 witness.**  The amended theorem applied to a concrete rejected
call (type `CTR_INACTIVE` on the `x0`-initialized equality problem). -/
theorem api_activate_non_bound_rejected_witness :
    eqProbX0.api_activate 0 0 CTR_INACTIVE = (eqProbX0, none) :=
  api_activate_non_bound_rejected eqProbX0 0 0 CTR_INACTIVE (by decide)
    (by decide) (by decide)

end Theorems

end LexLS
